import Mathlib

/-!
# ERPSeguradora-Back: authentication and abuse-prevention core

A shallow embedding of `internal/auth/jwt.go`, `internal/security/rate_limiter.go`,
`internal/security/csrf.go`, `internal/security/security_headers.go`,
`internal/middleware/auth_middleware.go`, `internal/services/audit_service.go`,
`internal/utils/validator.go`, the login path and the writes of
`internal/models/usuario.go`, `internal/handlers/auth_handler.go` and the chain of
a protected route in `main.go`, followed by the properties proved about them.

Conventions of the embedding
* An instant (`time.Time`) is an `Int`: nanoseconds on one time line.  A
  `time.Duration` is an `Int` number of nanoseconds.  The functions named
  `Time.X` are the methods `X` of `time.Time`.
* Every call of `time.Now()` is a read of a clock.  A function that reads the
  clock takes a `Clock`: `clk 0` is its first read, `clk 1` its second, and so on.
  A call that happens at one instant `now` is the call with the clock `fun _ => now`.
* A Go map is a function from keys to `Option` values.
* A Go `(value, error)` result is an `Except`; a bare `error` is an `Option String`.
* A handler is a function of a `World` (clock, database, in-memory guards), the
  response writer and the request; a middleware takes the next handler as an
  argument, so "the next handler is not run" reads "the outcome is the same
  for every next handler".
-/

namespace ERPSeguradora

/-! ## Go `time` -/

/-- The successive results of `time.Now()` inside one call, in nanoseconds. -/
abbrev Clock := Nat → Int

def Second : Int := 1000000000
def Minute : Int := 60 * Second
def Hour : Int := 60 * Minute

/-- Largest `time.Duration` (an int64 of nanoseconds). -/
def maxDuration : Int := 9223372036854775807

/-- Smallest `time.Duration`. -/
def minDuration : Int := -9223372036854775808

/-- Go `t.Add(d)`. -/
def Time.Add (t : Int) (d : Int) : Int := t + d

/-- Go `t.Sub(u)`: the difference, saturated to the range of a `time.Duration`. -/
def Time.Sub (t u : Int) : Int :=
  if t - u > maxDuration then maxDuration
  else if t - u < minDuration then minDuration
  else t - u

/-- Go `t.Before(u)`. -/
def Time.Before (t u : Int) : Bool := decide (t < u)

/-- Go `t.After(u)`. -/
def Time.After (t u : Int) : Bool := decide (t > u)

/-- Go `t.Truncate(d)`: round down to a multiple of `d`; `t` itself when `d <= 0`. -/
def Time.Truncate (t : Int) (d : Int) : Int :=
  if d ≤ 0 then t else t - t % d

/-! ## The part of `github.com/golang-jwt/jwt/v5` that `jwt.go` calls -/

/-- Library variable `jwt.TimePrecision`; the repository never changes its default. -/
def TimePrecision : Int := Second

/-- Library `jwt.NewNumericDate`: the instant truncated to `TimePrecision`. -/
def NewNumericDate (t : Int) : Int := Time.Truncate t TimePrecision

/-- Library `jwt.RegisteredClaims` (the fields `jwt.go` sets). -/
structure RegisteredClaims where
  ExpiresAt : Option Int
  IssuedAt : Option Int
  NotBefore : Option Int
  Issuer : String
  Subject : String
deriving DecidableEq, Repr

/-- Source `Claims`: the identity fields with the registered claims embedded. -/
structure Claims extends RegisteredClaims where
  UserID : Int
  Username : String
  TipoPerfilID : Int
  TokenType : String
deriving DecidableEq, Repr

/-- What a compact JWT string carries once decoded: the `alg` of its header, its
claims, and the key with which its signature was computed. -/
structure SignedToken where
  alg : String
  claims : Claims
  signedWith : String
deriving DecidableEq, Repr

/-- A token string as the library parser sees it. Either the parser rejects it
with an error of its own, apart from the key function, the signature check and
the time checks (it does not split into three segments, a segment does not
decode, its `alg` names no signing method of the library), and `parseError` is
the text of the error it returns, for example
"token is malformed: token contains an invalid number of segments"; or it decodes
to a `SignedToken`. -/
inductive TokenString where
  | garbage (parseError : String)
  | jwt (t : SignedToken)
deriving DecidableEq, Repr

/-- Failures of the time checks of the library validator. -/
inductive ClaimError where
  | TokenExpired
  | TokenNotValidYet
deriving DecidableEq, Repr

/-- Errors returned by `ValidateToken` and `ValidateRefreshToken`: those of
`jwt.ParseWithClaims`, and the two that `jwt.go` builds with `errors.New`.
`Unparsed` is the error of the parser for a string it rejects, with its text;
`Unverifiable` is the error of the key function of `jwt.go` for a signing method
outside the HMAC family, with the `alg` of the token. -/
inductive TokenError where
  | Unparsed (text : String)
  | Unverifiable (alg : String)
  | SignatureInvalid
  | InvalidClaims (errs : List ClaimError)
  | TokenInvalido
  | TipoDeTokenInvalido
deriving DecidableEq, Repr

/-- Library `*jwt.Token` as far as `jwt.go` reads it. -/
structure Token where
  Valid : Bool
  Claims : Claims
deriving DecidableEq, Repr

/-- Library `Validator.Validate` with the default options: expiry is checked by
`now.Before(exp)`, not-before by `!now.Before(nbf)`; an absent claim passes. -/
def validateClaims (now : Int) (c : RegisteredClaims) : List ClaimError :=
  (match c.ExpiresAt with
    | some exp => if Time.Before now exp then [] else [ClaimError.TokenExpired]
    | none => []) ++
  (match c.NotBefore with
    | some nbf => if !Time.Before now nbf then [] else [ClaimError.TokenNotValidYet]
    | none => [])

/-- Signing methods of the HMAC family (`*jwt.SigningMethodHMAC`). -/
def isHMAC (alg : String) : Bool :=
  alg == "HS256" || alg == "HS384" || alg == "HS512"

/-! ## `internal/auth/jwt.go` -/

/-- Source `jwtKey`. -/
def jwtKey : String := "sua_chave_secreta_muito_segura_e_longa"

def TokenExpiration : Int := 24 * Hour
def TokenRefreshBefore : Int := 30 * Minute
def RefreshTokenExpiration : Int := 7 * 24 * Hour

/-- Library `jwt.ParseWithClaims` with the key function that `jwt.go` passes:
decode, reject a non-HMAC method, verify the signature against `jwtKey`, then
validate the claims at the instant `now`. -/
def ParseWithClaims (now : Int) (tokenString : TokenString) : Except TokenError Token :=
  match tokenString with
  | .garbage parseError => .error (.Unparsed parseError)
  | .jwt t =>
    if !isHMAC t.alg then .error (.Unverifiable t.alg)
    else if t.signedWith != jwtKey then .error .SignatureInvalid
    else
      match validateClaims now t.claims.toRegisteredClaims with
      | [] => .ok { Valid := true, Claims := t.claims }
      | e :: es => .error (.InvalidClaims (e :: es))

/-- Library `jwt.NewWithClaims(jwt.SigningMethodHS256, claims)` followed by
`token.SignedString(key)`; with a byte-slice key HS256 signing does not fail. -/
def SignedString (claims : Claims) (key : String) : Except TokenError TokenString :=
  .ok (.jwt { alg := "HS256", claims := claims, signedWith := key })

/-- Source `generateTokenWithType`. It reads the clock three times: for the
expiry, for issued-at and for not-before. -/
def generateTokenWithType (clk : Clock) (userID : Int) (username : String)
    (tipoPerfilID : Int) (tokenType : String) (expiration : Int) :
    Except TokenError TokenString :=
  let expirationTime := Time.Add (clk 0) expiration
  let claims : Claims :=
    { UserID := userID
      Username := username
      TipoPerfilID := tipoPerfilID
      TokenType := tokenType
      ExpiresAt := some (NewNumericDate expirationTime)
      IssuedAt := some (NewNumericDate (clk 1))
      NotBefore := some (NewNumericDate (clk 2))
      Issuer := "api-seguradoras"
      Subject := toString userID }
  match SignedString claims jwtKey with
  | .error err => .error err
  | .ok tokenString => .ok tokenString

/-- Source `GenerateToken`. -/
def GenerateToken (clk : Clock) (userID : Int) (username : String) (tipoPerfilID : Int) :
    Except TokenError TokenString :=
  generateTokenWithType clk userID username tipoPerfilID "access" TokenExpiration

/-- Source `GenerateRefreshToken`. -/
def GenerateRefreshToken (clk : Clock) (userID : Int) (username : String)
    (tipoPerfilID : Int) : Except TokenError TokenString :=
  generateTokenWithType clk userID username tipoPerfilID "refresh" RefreshTokenExpiration

/-- Source `ValidateToken`. -/
def ValidateToken (clk : Clock) (tokenString : TokenString) : Except TokenError Claims :=
  match ParseWithClaims (clk 0) tokenString with
  | .error err => .error err
  | .ok token =>
    if !token.Valid then .error .TokenInvalido
    else if token.Claims.TokenType != "access" then .error .TipoDeTokenInvalido
    else .ok token.Claims

/-- Source `ValidateRefreshToken`. -/
def ValidateRefreshToken (clk : Clock) (tokenString : TokenString) :
    Except TokenError Claims :=
  match ParseWithClaims (clk 0) tokenString with
  | .error err => .error err
  | .ok token =>
    if !token.Valid then .error .TokenInvalido
    else if token.Claims.TokenType != "refresh" then .error .TipoDeTokenInvalido
    else .ok token.Claims

/-- Source `ShouldRefreshToken`. -/
def ShouldRefreshToken (clk : Clock) (claims : Claims) : Bool :=
  match claims.ExpiresAt with
  | some expiresAt =>
    let refreshBefore := Time.Add (clk 0) TokenRefreshBefore
    Time.Before expiresAt refreshBefore
  | none => false

/-- Source `RefreshToken`: the clock is read once by the validation, then three
times by each of the two issuances. -/
def RefreshToken (clk : Clock) (refreshTokenString : TokenString) :
    Except TokenError (TokenString × TokenString) :=
  match ValidateRefreshToken clk refreshTokenString with
  | .error err => .error err
  | .ok claims =>
    match GenerateToken (fun i => clk (i + 1)) claims.UserID claims.Username
        claims.TipoPerfilID with
    | .error err => .error err
    | .ok newAccessToken =>
      match GenerateRefreshToken (fun i => clk (i + 4)) claims.UserID claims.Username
          claims.TipoPerfilID with
      | .error err => .error err
      | .ok newRefreshToken => .ok (newAccessToken, newRefreshToken)

/-- The claims carried by a token string, when it decodes. -/
def TokenString.claims? : TokenString → Option Claims
  | .garbage _ => none
  | .jwt t => some t.claims

/-! ## Go maps keyed by strings -/

/-- Go `delete(m, k)`. -/
def mapDelete {α : Type} (m : String → Option α) (k : String) : String → Option α :=
  fun k2 => if k2 = k then none else m k2

/-- Go `m[k] = v`. -/
def mapSet {α : Type} (m : String → Option α) (k : String) (v : α) : String → Option α :=
  fun k2 => if k2 = k then some v else m k2

/-- Go `m[k]` for a map of slices: the nil slice when the key is absent. -/
def mapGet {α : Type} (m : String → Option (List α)) (k : String) : List α :=
  (m k).getD []

/-! ## `internal/security/rate_limiter.go` -/

/-- Source `RateLimiter` (the mutex is not modelled: calls are sequential). -/
structure RateLimiter where
  requests : String → Option (List Int)
  maxRequests : Int
  timeWindow : Int
  blockDuration : Int
  blockedIPs : String → Option Int

/-- Source `NewRateLimiter`. -/
def NewRateLimiter (maxRequests : Int) (timeWindow blockDuration : Int) : RateLimiter :=
  { requests := fun _ => none
    maxRequests := maxRequests
    timeWindow := timeWindow
    blockDuration := blockDuration
    blockedIPs := fun _ => none }

/-- Source `RateLimiter.IsAllowed`. The clock is read for the block check only
when the address has a block entry; the next read is the `now` of the window. -/
def RateLimiter.IsAllowed (rl : RateLimiter) (clk : Clock) (ip : String) :
    Bool × RateLimiter :=
  let afterBlockCheck : Option (RateLimiter × Nat) :=
    match rl.blockedIPs ip with
    | some blockedUntil =>
      if Time.After (clk 0) blockedUntil then
        some ({ rl with blockedIPs := mapDelete rl.blockedIPs ip }, 1)
      else none
    | none => some (rl, 0)
  match afterBlockCheck with
  | none => (false, rl)
  | some (rl1, reads) =>
    let now := clk reads
    let rl2 : RateLimiter :=
      match rl1.requests ip with
      | some times =>
        let validTimes := times.filter (fun t => decide (Time.Sub now t ≤ rl1.timeWindow))
        { rl1 with requests := mapSet rl1.requests ip validTimes }
      | none => rl1
    if ((mapGet rl2.requests ip).length : Int) ≥ rl2.maxRequests then
      (false, { rl2 with blockedIPs := mapSet rl2.blockedIPs ip (Time.Add now rl2.blockDuration) })
    else
      (true, { rl2 with requests := mapSet rl2.requests ip (mapGet rl2.requests ip ++ [now]) })

/-- Source `RateLimiter.GetRemainingTime`: the clock is read once for the test
and once more for the subtraction. -/
def RateLimiter.GetRemainingTime (rl : RateLimiter) (clk : Clock) (ip : String) :
    Int × RateLimiter :=
  match rl.blockedIPs ip with
  | some blockedUntil =>
    if Time.After (clk 0) blockedUntil then
      (0, { rl with blockedIPs := mapDelete rl.blockedIPs ip })
    else
      (Time.Sub blockedUntil (clk 1), rl)
  | none => (0, rl)

/-- A run of `IsAllowed` calls for one address, the k-th made at the k-th
instant of the list: the answers in order and the final limiter. -/
def RateLimiter.callsAt (rl : RateLimiter) (ip : String) : List Int → List Bool × RateLimiter
  | [] => ([], rl)
  | t :: ts =>
    let r := rl.IsAllowed (fun _ => t) ip
    let rest := RateLimiter.callsAt r.2 ip ts
    (r.1 :: rest.1, rest.2)

/-! ## `internal/security/csrf.go` -/

/-- Source `CSRFToken`. -/
structure CSRFToken where
  Token : String
  ExpiresAt : Int
deriving DecidableEq, Repr

/-- Source `CSRFProtection` (the mutex is not modelled: calls are sequential). -/
structure CSRFProtection where
  tokens : String → Option CSRFToken
  tokenExpiry : Int

/-- Source `NewCSRFProtection`. -/
def NewCSRFProtection (tokenExpiry : Int) : CSRFProtection :=
  { tokens := fun _ => none, tokenExpiry := tokenExpiry }

/-- Source `CSRFProtection.ValidateToken`. -/
def CSRFProtection.ValidateToken (c : CSRFProtection) (clk : Clock) (token : String) :
    Bool × CSRFProtection :=
  match c.tokens token with
  | some csrfToken =>
    if Time.Before (clk 0) csrfToken.ExpiresAt then (true, c)
    else (false, { c with tokens := mapDelete c.tokens token })
  | none => (false, c)

/-- Source `CSRFProtection.cleanExpiredTokens`: every entry that the clock
reading is after is deleted. -/
def CSRFProtection.cleanExpiredTokens (c : CSRFProtection) (clk : Clock) : CSRFProtection :=
  let now := clk 0
  { c with
    tokens := fun token =>
      match c.tokens token with
      | some csrfToken => if Time.After now csrfToken.ExpiresAt then none else some csrfToken
      | none => none }

/-- Source `CSRFProtection.GenerateToken`. The argument `random` is what
`rand.Read` followed by `base64.StdEncoding.EncodeToString` yields: `none` when
`rand.Read` fails, else the encoding of the 32 bytes read. The clock is read for
the expiry, then by `cleanExpiredTokens`. -/
def CSRFProtection.GenerateToken (c : CSRFProtection) (clk : Clock) (random : Option String) :
    Option String × CSRFProtection :=
  match random with
  | none => (none, c)
  | some token =>
    let c1 : CSRFProtection :=
      { c with
        tokens := mapSet c.tokens token
          { Token := token, ExpiresAt := Time.Add (clk 0) c.tokenExpiry } }
    (some token, c1.cleanExpiredTokens (fun i => clk (i + 1)))

/-- One call on the CSRF store: an issuance with its random outcome, or a
validation of a token string. -/
inductive CSRFCall where
  | Generate (random : Option String)
  | Validate (token : String)
deriving DecidableEq, Repr

/-- The store after one call made at the instant `now`. -/
def CSRFProtection.callAt (c : CSRFProtection) (now : Int) : CSRFCall → CSRFProtection
  | .Generate random => (c.GenerateToken (fun _ => now) random).2
  | .Validate token => (c.ValidateToken (fun _ => now) token).2

/-- The store after a run of calls, each made at its own instant. -/
def CSRFProtection.callsAt (c : CSRFProtection) : List (Int × CSRFCall) → CSRFProtection
  | [] => c
  | p :: rest => CSRFProtection.callsAt (c.callAt p.1 p.2) rest

/-! ## Persistent store -/

/-- Source `models.Usuario`; also a row of table `usuarios`. -/
structure Usuario where
  ID : Int
  Nome : String
  Email : String
  Login : String
  Senha : String
  IdTipoPerfil : Int
  IdSeguradora : Int
  AdminERP : Bool
  Bloqueado : Bool
  BloqueadoAte : Option Int
  CreatedAt : Int
  UpdatedAt : Int
  Ativo : Bool
deriving DecidableEq, Repr

/-- A row of table `login_attempts`. -/
structure LoginAttempt where
  login : String
  ip_address : String
  success : Bool
  attempt_time : Int
deriving DecidableEq, Repr

/-- A row of table `audit_log`. -/
structure AuditLog where
  user_id : Option Int
  username : Option String
  action : String
  entity_type : String
  entity_id : Option String
  details : Option String
  ip_address : String
  created_at : Int
deriving DecidableEq, Repr

/-- The tables that the login guard reads and writes. The store is ideal: it
keeps the values it is given, compares strings exactly, and its `NOW()` and
`CURRENT_TIMESTAMP` are reads of the one clock. The automatic refresh of
`updated_at` is not modelled. -/
structure DB where
  usuarios : List Usuario
  login_attempts : List LoginAttempt
  audit_log : List AuditLog
deriving DecidableEq, Repr

/-! ## Requests, responses, handlers -/

/-- A value held by a `context.Context`, with its dynamic Go type. -/
inductive GoValue where
  | int (n : Int)
  | int64 (n : Int)
  | string (s : String)
deriving DecidableEq, Repr

/-- The part of `*http.Request` the handlers read. `Header name` is
`r.Header.Get(name)`, the empty string when the header is absent; `Path` is
`r.URL.Path`; `JSON` is the
body decoded as a JSON object of strings (`none` when it does not decode, an
absent field reads as the empty string); `Ctx key` is `r.Context().Value(key)`
for the keys of type `contextKey`. -/
structure Request where
  Method : String
  Path : String
  Header : String → String
  RemoteAddr : String
  JSON : Option (String → String)
  Ctx : String → Option GoValue

/-- Source `LoginResponse`. -/
structure LoginResponse where
  AccessToken : String
  RefreshToken : String
  Usuario : Usuario
  ExpiresIn : Int
deriving DecidableEq, Repr

/-- What has been written as the body of a response. -/
inductive ResponseBody where
  | empty
  | text (s : String)
  | login (l : LoginResponse)
deriving DecidableEq, Repr

/-- The state of an `http.ResponseWriter`: the header entries in the order they
were put, the status written (if any) and the body. -/
structure Response where
  Header : List (String × String)
  Status : Option Nat
  Body : ResponseBody
deriving DecidableEq, Repr

/-- A fresh `http.ResponseWriter`. -/
def Response.new : Response := { Header := [], Status := none, Body := .empty }

/-- Go `w.Header().Set(key, value)`. -/
def Response.headerSet (w : Response) (key value : String) : Response :=
  { w with Header := w.Header.filter (fun kv => kv.1 != key) ++ [(key, value)] }

/-- Go `w.Header().Add(key, value)`. -/
def Response.headerAdd (w : Response) (key value : String) : Response :=
  { w with Header := w.Header ++ [(key, value)] }

/-- Go `w.Header().Values(key)`. -/
def Response.headerValues (w : Response) (key : String) : List String :=
  (w.Header.filter (fun kv => kv.1 == key)).map (fun kv => kv.2)

/-- Go `http.Error(w, error, code)`: plain-text headers, the status, and the
message followed by a newline as the body. -/
def httpError (w : Response) (error : String) (code : Nat) : Response :=
  { (w.headerSet "Content-Type" "text/plain; charset=utf-8").headerSet
      "X-Content-Type-Options" "nosniff" with
    Status := some code
    Body := .text (error ++ "\n") }

def StatusOK : Nat := 200
def StatusBadRequest : Nat := 400
def StatusUnauthorized : Nat := 401
def StatusForbidden : Nat := 403
def StatusMethodNotAllowed : Nat := 405
def StatusTooManyRequests : Nat := 429
def StatusInternalServerError : Nat := 500

/-- Everything a request can read or change besides its own response: the clock
reads still to come, the outcomes of the database statements still to come
(`true`: the statement fails), the database, and the two in-memory guards built
in `main`. -/
structure World where
  clock : Clock
  faults : Nat → Bool
  db : DB
  rateLimiter : RateLimiter
  csrfProtection : CSRFProtection

/-- The world after `n` reads of the clock. -/
def World.tick (s : World) (n : Nat) : World :=
  { s with clock := fun i => s.clock (i + n) }

/-- The outcome of the next database statement, and the world after it. -/
def World.fault (s : World) : Bool × World :=
  (s.faults 0, { s with faults := fun i => s.faults (i + 1) })

/-- An `http.Handler`: from the world, the response writer and the request to
the response writer and the world after serving. -/
abbrev Handler := World → Response → Request → Response × World

/-- Go `strings.Split` on lists of characters, for a separator of one character. -/
def splitChars (sep : Char) : List Char → List (List Char)
  | [] => [[]]
  | c :: cs =>
    if c = sep then [] :: splitChars sep cs
    else
      match splitChars sep cs with
      | part :: parts => (c :: part) :: parts
      | [] => [[c]]

/-- Go `strings.Split(s, sep)` for a separator of one character. -/
def stringsSplit (s : String) (sep : Char) : List String :=
  (splitChars sep s.data).map String.mk

/-- The two directions between a compact JWT string as it travels in a header or
a body and what it carries: `decode` reads a string (anything the parser rejects
reads as `TokenString.garbage` with the text of the parser's error), `encode` is
the serialisation done by
`SignedString`. Both belong to the JWT library and are taken as given. -/
structure JWTCodec where
  encode : TokenString → String
  decode : String → TokenString

/-- The text of the library error for a failed time check. -/
def ClaimError.Error : ClaimError → String
  | .TokenExpired => "token is expired"
  | .TokenNotValidYet => "token is not valid yet"

/-- Go `err.Error()` for the errors of `ValidateToken`: the library texts for the
library errors, the texts of `jwt.go` for its own two. The error of the key
function is wrapped by the library and ends in the message of `jwt.go`, which
names the `alg`; the failed time checks are joined by `errors.Join`, one to a
line. -/
def TokenError.Error : TokenError → String
  | .Unparsed text => text
  | .Unverifiable alg =>
    "token is unverifiable: error while executing keyfunc: método de assinatura inesperado: "
      ++ alg
  | .SignatureInvalid => "token signature is invalid: signature is invalid"
  | .InvalidClaims errs =>
    "token has invalid claims: " ++ "\n".intercalate (errs.map ClaimError.Error)
  | .TokenInvalido => "token inválido"
  | .TipoDeTokenInvalido => "tipo de token inválido"

/-- How many times `jwt.ParseWithClaims` reads the clock: once when the token
decodes and its signature verifies, so that the claims get validated. -/
def parseClockReads (tokenString : TokenString) : Nat :=
  match tokenString with
  | .garbage _ => 0
  | .jwt t => if !isHMAC t.alg then 0 else if t.signedWith != jwtKey then 0 else 1

/-! ## `internal/security/csrf.go`: the middleware -/

def MethodGet : String := "GET"
def MethodHead : String := "HEAD"
def MethodPost : String := "POST"
def MethodOptions : String := "OPTIONS"

/-- Source `CSRFProtection.Middleware`, on the store kept in the world. -/
def CSRFMiddleware (next : Handler) : Handler := fun s w r =>
  if r.Method == MethodGet || r.Method == MethodHead || r.Method == MethodOptions then
    next s w r
  else
    let token := r.Header "X-CSRF-Token"
    if token == "" then
      (httpError w "Token CSRF ausente" StatusForbidden, s)
    else
      let v := s.csrfProtection.ValidateToken s.clock token
      let s1 : World :=
        { s with
          csrfProtection := v.2
          clock := if (s.csrfProtection.tokens token).isSome then (s.tick 1).clock
                   else s.clock }
      if !v.1 then
        (httpError w "Token CSRF inválido ou expirado" StatusForbidden, s1)
      else
        next s1 w r

/-! ## `internal/middleware/auth_middleware.go` -/

def UserIDKey : String := "user_id"
def UsernameKey : String := "username"
def TipoPerfilIDKey : String := "tipo_perfil_id"
def HeaderNewToken : String := "X-New-Access-Token"
def HeaderNewRefreshToken : String := "X-New-Refresh-Token"

/-- Go `context.WithValue(ctx, key, val)`. -/
def withValue (ctx : String → Option GoValue) (key : String) (val : GoValue) :
    String → Option GoValue :=
  fun k => if k = key then some val else ctx k

/-- Source `AuthMiddleware`. The clock is read by `ValidateToken` (when the
claims get validated), by `ShouldRefreshToken` (when the claims carry an expiry)
and three times by `GenerateToken`. -/
def AuthMiddleware (codec : JWTCodec) (next : Handler) : Handler := fun s w r =>
  let authHeader := r.Header "Authorization"
  if authHeader == "" then
    (httpError w "Autorização necessária" StatusUnauthorized, s)
  else
    let parts := stringsSplit authHeader ' '
    if parts.length != 2 || parts.getD 0 "" != "Bearer" then
      (httpError w "Formato de autorização inválido" StatusUnauthorized, s)
    else
      let tokenString := codec.decode (parts.getD 1 "")
      match ValidateToken s.clock tokenString with
      | .error err =>
        (httpError w ("Token inválido: " ++ err.Error) StatusUnauthorized,
          s.tick (parseClockReads tokenString))
      | .ok claims =>
        let s1 := s.tick (parseClockReads tokenString)
        let ctx := withValue r.Ctx UserIDKey (.int64 claims.UserID)
        let ctx := withValue ctx UsernameKey (.string claims.Username)
        let ctx := withValue ctx TipoPerfilIDKey (.int claims.TipoPerfilID)
        let s2 := if claims.ExpiresAt.isSome then s1.tick 1 else s1
        if ShouldRefreshToken s1.clock claims then
          match GenerateToken s2.clock claims.UserID claims.Username claims.TipoPerfilID with
          | .ok newToken =>
            next (s2.tick 3) (w.headerAdd HeaderNewToken (codec.encode newToken))
              { r with Ctx := ctx }
          | .error _ => next (s2.tick 3) w { r with Ctx := ctx }
        else
          next s2 w { r with Ctx := ctx }

/-- Source `RequireAdmin`. -/
def RequireAdmin (next : Handler) : Handler := fun s w r =>
  match r.Ctx TipoPerfilIDKey with
  | some (.int tipoPerfilID) =>
    if tipoPerfilID != 1 then
      (httpError w "Acesso negado: permissão de administrador necessária" StatusForbidden, s)
    else
      next s w r
  | _ => (httpError w "Erro ao obter tipo de perfil" StatusInternalServerError, s)

/-- Source `GetUserIDFromContext`. -/
def GetUserIDFromContext (ctx : String → Option GoValue) : Int × Bool :=
  match ctx UserIDKey with
  | some (.int64 userID) => (userID, true)
  | _ => (0, false)

/-- Source `GetUsernameFromContext`. -/
def GetUsernameFromContext (ctx : String → Option GoValue) : String × Bool :=
  match ctx UsernameKey with
  | some (.string username) => (username, true)
  | _ => ("", false)

/-- Source `GetTipoPerfilIDFromContext`. -/
def GetTipoPerfilIDFromContext (ctx : String → Option GoValue) : Int × Bool :=
  match ctx TipoPerfilIDKey with
  | some (.int tipoPerfilID) => (tipoPerfilID, true)
  | _ => (0, false)

/-- Source `GetClientIP` of `auth_middleware.go`. -/
def GetClientIP (r : Request) : String :=
  let ip := r.Header "X-Real-IP"
  let ip := if ip == "" then r.Header "X-Forwarded-For" else ip
  if ip == "" then r.RemoteAddr else ip

/-- A handler that only shows that it was reached: it writes status 200 and the
body "next". -/
def reached : Handler := fun s w _ =>
  ({ w with Status := some StatusOK, Body := .text "next" }, s)

/-- The world at the instant `now`: every clock read of the call returns `now`
and every database statement succeeds. -/
def World.atInstant (s : World) (now : Int) : World :=
  { s with clock := fun _ => now, faults := fun _ => false }

/-! ## `internal/services/audit_service.go` -/

/-- Go `time.Time{}`, the zero instant (1 January of year 1, UTC). -/
def zeroTime : Int := -62135596800 * Second

/-- Source `getIPAddress`. -/
def getIPAddress (r : Request) : String :=
  let ip := r.Header "X-Real-IP"
  let ip := if ip == "" then r.Header "X-Forwarded-For" else ip
  if ip == "" then r.RemoteAddr else ip

/-- Source `AuditService.LogAction`: one INSERT into `audit_log`; `created_at`
is stamped by the database. The error, when the statement fails, is the text
that wraps the driver's. -/
def AuditService.LogAction (s : World) (ctx : String → Option GoValue) (r : Request)
    (action entityType entityID details : String) : Option String × World :=
  let userIDFromCtx := GetUserIDFromContext ctx
  let userID := if userIDFromCtx.2 then userIDFromCtx.1 else 0
  let usernameFromCtx := GetUsernameFromContext ctx
  let username := if usernameFromCtx.2 then usernameFromCtx.1 else ""
  let ipAddress := getIPAddress r
  let userIDNullable : Option Int := if userID > 0 then some userID else none
  let usernameNullable : Option String := if username != "" then some username else none
  let entityIDNullable : Option String := if entityID != "" then some entityID else none
  let detailsNullable : Option String := if details != "" then some details else none
  let e := s.fault
  if e.1 then (some "erro ao registrar ação de auditoria", e.2)
  else
    (none,
      { e.2.tick 1 with
        db := { e.2.db with
          audit_log := e.2.db.audit_log ++
            [{ user_id := userIDNullable, username := usernameNullable, action := action,
               entity_type := entityType, entity_id := entityIDNullable,
               details := detailsNullable, ip_address := ipAddress,
               created_at := e.2.clock 0 }] } })

/-- Source `AuditService.LogLoginAttempt`: one INSERT into `login_attempts`;
`attempt_time` is stamped by the database. -/
def AuditService.LogLoginAttempt (s : World) (r : Request) (login : String) (success : Bool) :
    Option String × World :=
  let ipAddress := getIPAddress r
  let e := s.fault
  if e.1 then (some "erro ao registrar tentativa de login", e.2)
  else
    (none,
      { e.2.tick 1 with
        db := { e.2.db with
          login_attempts := e.2.db.login_attempts ++
            [{ login := login, ip_address := ipAddress, success := success,
               attempt_time := e.2.clock 0 }] } })

/-- The COUNT query of `CheckLoginAttempts`, with `now` the `NOW()` of the
database: failed attempts of the login or of the address, newer than 15 minutes. -/
def countRecentFailures (db : DB) (login ipAddress : String) (now : Int) : Nat :=
  (db.login_attempts.filter (fun a =>
    (a.login == login || a.ip_address == ipAddress) && a.success == false &&
      decide (a.attempt_time > now - 15 * Minute))).length

/-- The UPDATE of `CheckLoginAttempts`: lock every row of the login. -/
def lockLogin (usuarios : List Usuario) (login : String) (blockUntil : Int) : List Usuario :=
  usuarios.map (fun u =>
    if u.Login == login then { u with Bloqueado := true, BloqueadoAte := some blockUntil }
    else u)

/-- The UPDATE of `IsAccountLocked`: unlock every row of the login. -/
def unlockLogin (usuarios : List Usuario) (login : String) : List Usuario :=
  usuarios.map (fun u =>
    if u.Login == login then { u with Bloqueado := false, BloqueadoAte := none } else u)

/-- Source `AuditService.CheckLoginAttempts`: the COUNT query (which reads the
database clock), then, from 5 failures on, a read of the Go clock and the UPDATE. -/
def AuditService.CheckLoginAttempts (s : World) (r : Request) (login : String) :
    (Bool × Int × Option String) × World :=
  let ipAddress := getIPAddress r
  let q := s.fault
  if q.1 then ((false, zeroTime, some "erro ao verificar tentativas de login"), q.2)
  else
    let count := countRecentFailures q.2.db login ipAddress (q.2.clock 0)
    let s1 := q.2.tick 1
    if count ≥ 5 then
      let blockUntil := Time.Add (s1.clock 0) (30 * Minute)
      let e := (s1.tick 1).fault
      if e.1 then ((true, blockUntil, some "erro ao bloquear conta"), e.2)
      else
        ((true, blockUntil, none),
          { e.2 with db := { e.2.db with usuarios := lockLogin e.2.db.usuarios login blockUntil } })
    else ((false, zeroTime, none), s1)

/-- Source `AuditService.IsAccountLocked`: the SELECT; the Go clock is read only
for a locked row with a lock time; the UPDATE when that time has passed. -/
def AuditService.IsAccountLocked (s : World) (login : String) :
    (Bool × Int × Option String) × World :=
  let q := s.fault
  if q.1 then ((false, zeroTime, some "erro ao verificar status de bloqueio"), q.2)
  else
    match q.2.db.usuarios.find? (fun u => u.Login == login) with
    | none => ((false, zeroTime, none), q.2)
    | some row =>
      let bloqueado := row.Bloqueado
      match row.BloqueadoAte with
      | some bloqueadoAte =>
        if bloqueado then
          let s1 := q.2.tick 1
          if Time.Before bloqueadoAte (q.2.clock 0) then
            let e := s1.fault
            if e.1 then ((true, bloqueadoAte, some "erro ao desbloquear conta"), e.2)
            else
              ((false, zeroTime, none),
                { e.2 with db := { e.2.db with usuarios := unlockLogin e.2.db.usuarios login } })
          else ((bloqueado, bloqueadoAte, none), s1)
        else ((bloqueado, bloqueadoAte, none), q.2)
      | none => ((bloqueado, zeroTime, none), q.2)

/-! ## `internal/models/usuario.go` -/

/-- Source `UsuarioRepository.GetByLogin`. -/
def UsuarioRepository.GetByLogin (s : World) (login : String) : Except String Usuario × World :=
  let q := s.fault
  if q.1 then (.error "erro ao buscar usuário", q.2)
  else
    match q.2.db.usuarios.find? (fun u => u.Login == login) with
    | none => (.error "usuário não encontrado", q.2)
    | some u => (.ok u, q.2)

/-- The UPDATE of `VerifyPassword`: unlock the row of the id. -/
def unlockID (usuarios : List Usuario) (id : Int) : List Usuario :=
  usuarios.map (fun u =>
    if u.ID == id then { u with Bloqueado := false, BloqueadoAte := none } else u)

/-- Source `UsuarioRepository.VerifyPassword`. The argument `compare hash senha`
is true when `bcrypt.CompareHashAndPassword` returns no error. -/
def UsuarioRepository.VerifyPassword (compare : String → String → Bool) (s : World)
    (login senha : String) : Except String Usuario × World :=
  let g := UsuarioRepository.GetByLogin s login
  match g.1 with
  | .error err => (.error err, g.2)
  | .ok usuario =>
    if !usuario.Ativo then (.error "usuário inativo", g.2)
    else
      let unlock : World → Except String Usuario × World := fun s1 =>
        let e := s1.fault
        if e.1 then (.error "erro ao desbloquear usuário", e.2)
        else
          (.ok { usuario with Bloqueado := false, BloqueadoAte := none },
            { e.2 with db := { e.2.db with usuarios := unlockID e.2.db.usuarios usuario.ID } })
      let checked : Except String Usuario × World :=
        if usuario.Bloqueado then
          match usuario.BloqueadoAte with
          | some bloqueadoAte =>
            if Time.After bloqueadoAte (g.2.clock 0) then
              (.error "usuário bloqueado temporariamente", g.2.tick 1)
            else unlock (g.2.tick 1)
          | none => unlock g.2
        else (.ok usuario, g.2)
      match checked.1 with
      | .error err => (.error err, checked.2)
      | .ok usuario =>
        if !compare usuario.Senha senha then (.error "senha incorreta", checked.2)
        else (.ok { usuario with Senha := "" }, checked.2)

/-! ## `internal/handlers/auth_handler.go` -/

/-- Source `LoginRequest`. -/
structure LoginRequest where
  Login : String
  Senha : String
deriving DecidableEq, Repr

/-- The least number of doublings, at most `fuel`, that take `n` to `b` or beyond. -/
def shiftsToReach (b : Nat) : Nat → Nat → Nat
  | 0, _ => 0
  | fuel + 1, n => if n ≥ b then 0 else shiftsToReach b fuel (2 * n) + 1

/-- The number of binary digits of `n`, for `n` below `2 ^ fuel`. -/
def bitLength : Nat → Nat → Nat
  | 0, _ => 0
  | fuel + 1, n => if n = 0 then 0 else bitLength fuel (n / 2) + 1

/-- The integer nearest to `n / den`, the even one of two that are equally near:
the rounding of `float64` arithmetic. -/
def roundHalfEven (n den : Nat) : Nat :=
  let q := n / den
  let r := n % den
  if 2 * r > den ∨ (2 * r = den ∧ q % 2 = 1) then q + 1 else q

/-- Go `int(d.Minutes())` for a duration of `a ≥ 0` nanoseconds that fits in a
`time.Duration`. `Minutes` computes `float64(min) + float64(nsec)/(60*1e9)` with
`min := d / Minute` and `nsec := d % Minute`: both conversions are exact, the
quotient is rounded to 53 binary digits (`M / 2 ^ T` below), and so is the sum
(`N / 2 ^ T` rounded by dropping `L` digits). The conversion to `int` drops the
fraction. -/
def wholeMinutesNat (a : Nat) : Nat :=
  let min := a / 60000000000
  let nsec := a % 60000000000
  if nsec = 0 then min
  else
    let T := 52 + shiftsToReach 60000000000 64 nsec
    let M := roundHalfEven (nsec * 2 ^ T) 60000000000
    let N := min * 2 ^ T + M
    let L := bitLength 192 N - 53
    if L = 0 then N / 2 ^ T else roundHalfEven N (2 ^ L) * 2 ^ L / 2 ^ T

/-- Go `int(d.Minutes())`: for a negative duration quotient and remainder are
negative, the float64 operations mirror those of the positive duration, and the
conversion to `int` rounds toward zero. -/
def wholeMinutes (d : Int) : Int :=
  if d < 0 then -((wholeMinutesNat d.natAbs : Nat) : Int)
  else ((wholeMinutesNat d.natAbs : Nat) : Int)

/-- The `minutes` of the lockout messages, `int(remainingTime.Minutes()) + 1`. -/
def lockoutMinutes (remainingTime : Int) : Int :=
  wholeMinutes remainingTime + 1

/-- Source `AuthHandler.HandleLogin`. -/
def HandleLogin (codec : JWTCodec) (compare : String → String → Bool) : Handler :=
  fun s w r =>
  if r.Method != MethodPost then
    (httpError w "Método não permitido" StatusMethodNotAllowed, s)
  else
    match r.JSON with
    | none => (httpError w "Dados inválidos" StatusBadRequest, s)
    | some body =>
      let loginReq : LoginRequest := { Login := body "login", Senha := body "senha" }
      if loginReq.Login == "" || loginReq.Senha == "" then
        (httpError w "Login e senha são obrigatórios" StatusBadRequest, s)
      else
        let l := AuditService.IsAccountLocked s loginReq.Login
        if l.1.1 then
          let a := AuditService.LogLoginAttempt l.2 r loginReq.Login false
          let remainingTime := Time.Sub l.1.2.1 (a.2.clock 0)
          let minutes := lockoutMinutes remainingTime
          let errorMsg := "Conta bloqueada temporariamente. Tente novamente em " ++
            toString minutes ++ " minutos."
          let g := AuditService.LogAction (a.2.tick 1) r.Ctx r "LOGIN_BLOCKED" "USER"
            loginReq.Login "Tentativa de login em conta bloqueada"
          (httpError w errorMsg StatusTooManyRequests, g.2)
        else
          let c := AuditService.CheckLoginAttempts l.2 r loginReq.Login
          if c.1.1 then
            let a := AuditService.LogLoginAttempt c.2 r loginReq.Login false
            let remainingTime := Time.Sub c.1.2.1 (a.2.clock 0)
            let minutes := lockoutMinutes remainingTime
            let errorMsg := "Muitas tentativas de login. Conta bloqueada por " ++
              toString minutes ++ " minutos."
            let g := AuditService.LogAction (a.2.tick 1) r.Ctx r "LOGIN_ATTEMPTS_EXCEEDED"
              "USER" loginReq.Login "Excedeu o limite de tentativas de login"
            (httpError w errorMsg StatusTooManyRequests, g.2)
          else
            let v := UsuarioRepository.VerifyPassword compare c.2 loginReq.Login loginReq.Senha
            match v.1 with
            | .error _ =>
              let a := AuditService.LogLoginAttempt v.2 r loginReq.Login false
              let g := AuditService.LogAction a.2 r.Ctx r "LOGIN_FAILED" "USER"
                loginReq.Login "Tentativa de login com credenciais inválidas"
              (httpError w "Credenciais inválidas" StatusUnauthorized, g.2)
            | .ok usuario =>
              let a := AuditService.LogLoginAttempt v.2 r loginReq.Login true
              match GenerateToken a.2.clock usuario.ID usuario.Login usuario.IdTipoPerfil with
              | .error _ =>
                (httpError w "Erro ao gerar token" StatusInternalServerError, a.2.tick 3)
              | .ok accessToken =>
                match GenerateRefreshToken (a.2.tick 3).clock usuario.ID usuario.Login
                    usuario.IdTipoPerfil with
                | .error _ =>
                  (httpError w "Erro ao gerar refresh token" StatusInternalServerError,
                    (a.2.tick 3).tick 3)
                | .ok refreshToken =>
                  let g := AuditService.LogAction ((a.2.tick 3).tick 3) r.Ctx r
                    "LOGIN_SUCCESS" "USER" (toString usuario.ID) "Login bem-sucedido"
                  let response : LoginResponse :=
                    { AccessToken := codec.encode accessToken
                      RefreshToken := codec.encode refreshToken
                      Usuario := usuario
                      ExpiresIn := Int.tdiv TokenExpiration Second }
                  ({ w.headerSet "Content-Type" "application/json" with
                     Status := some StatusOK, Body := .login response }, g.2)

/-- A POST from the address `addr` whose body is the JSON object with the fields
`login` and `senha`; no proxy headers, no identity in the context. -/
def loginRequest (addr login senha : String) : Request :=
  { Method := "POST"
    Path := "/auth/login"
    Header := fun _ => ""
    RemoteAddr := addr
    JSON := some (fun field =>
      if field = "login" then login else if field = "senha" then senha else "")
    Ctx := fun _ => none }

/-- A run of login attempts recorded by `LogLoginAttempt`, each as a failure for
`login` at its own instant and from its own request: the world after them. -/
def recordFailuresAt (s : World) (login : String) : List (Int × Request) → World
  | [] => s
  | p :: rest =>
    recordFailuresAt (AuditService.LogLoginAttempt (s.atInstant p.1) p.2 login false).2
      login rest

/-- A run of POSTs to `HandleLogin` from one address for one login, each at its
own instant with its own password: the responses in order and the world after. -/
def loginsAt (codec : JWTCodec) (compare : String → String → Bool) (addr login : String)
    (s : World) : List (Int × String) → List Response × World
  | [] => ([], s)
  | p :: rest =>
    let r := HandleLogin codec compare (s.atInstant p.1) Response.new
      (loginRequest addr login p.2)
    let more := loginsAt codec compare addr login r.2 rest
    (r.1 :: more.1, more.2)

/-! ## `internal/security/rate_limiter.go`: the middleware -/

/-- How many times `IsAllowed` reads the clock: once for the block check when the
address has a block entry, once more for `now` unless the block is still active. -/
def RateLimiter.isAllowedReads (rl : RateLimiter) (clk : Clock) (ip : String) : Nat :=
  match rl.blockedIPs ip with
  | some blockedUntil => if Time.After (clk 0) blockedUntil then 2 else 1
  | none => 1

/-- How many times `GetRemainingTime` reads the clock. -/
def RateLimiter.getRemainingTimeReads (rl : RateLimiter) (clk : Clock) (ip : String) : Nat :=
  match rl.blockedIPs ip with
  | some blockedUntil => if Time.After (clk 0) blockedUntil then 1 else 2
  | none => 0

/-- Source `getClientIP` of `rate_limiter.go`. -/
def getClientIP (r : Request) : String :=
  let ip := r.Header "X-Real-IP"
  let ip := if ip == "" then r.Header "X-Forwarded-For" else ip
  if ip == "" then r.RemoteAddr else ip

/-- Source `RateLimiter.Middleware`, on the limiter kept in the world. The
argument `durationString` is Go's `time.Duration.String`. -/
def RateLimiterMiddleware (durationString : Int → String) (next : Handler) : Handler :=
  fun s w r =>
  let ip := getClientIP r
  let a := s.rateLimiter.IsAllowed s.clock ip
  let s1 : World :=
    { s.tick (s.rateLimiter.isAllowedReads s.clock ip) with rateLimiter := a.2 }
  if !a.1 then
    let g := s1.rateLimiter.GetRemainingTime s1.clock ip
    let s2 : World :=
      { s1.tick (s1.rateLimiter.getRemainingTimeReads s1.clock ip) with rateLimiter := g.2 }
    (httpError (w.headerSet "Retry-After" (durationString g.1))
      "Muitas requisições. Tente novamente mais tarde." StatusTooManyRequests, s2)
  else
    next s1 w r

/-! ## `internal/security/security_headers.go` -/

/-- Source `SecurityHeaders`. -/
structure SecurityHeaders where
  HSTS : Bool
  HSTSMaxAge : Int
  HSTSIncludeSubdomains : Bool
  HSTSPreload : Bool
  ContentSecurityPolicy : String
  XFrameOptions : String
  XContentTypeOptions : Bool
  ReferrerPolicy : String
  PermissionsPolicy : String
deriving DecidableEq, Repr

/-- Source `NewSecurityHeaders`. -/
def NewSecurityHeaders : SecurityHeaders :=
  { HSTS := true
    HSTSMaxAge := 31536000
    HSTSIncludeSubdomains := true
    HSTSPreload := false
    ContentSecurityPolicy :=
      "default-src 'self'; script-src 'self'; object-src 'none'; img-src 'self' data:; style-src 'self' 'unsafe-inline';"
    XFrameOptions := "DENY"
    XContentTypeOptions := true
    ReferrerPolicy := "strict-origin-when-cross-origin"
    PermissionsPolicy := "camera=(), microphone=(), geolocation=(), interest-cohort=()" }

/-- Go's conversion `string(n)` of an integer: the string of the one character
whose code point is `n`, and the replacement character U+FFFD when `n` is not a
valid code point (negative, a surrogate, or above U+10FFFF). -/
def goStringOfInt (n : Int) : String :=
  if 0 ≤ n ∧ n ≤ 1114111 ∧ ¬ (55296 ≤ n ∧ n ≤ 57343) then
    String.singleton (Char.ofNat n.toNat)
  else "�"

/-- Source `SecurityHeaders.Middleware`. -/
def SecurityHeadersMiddleware (sh : SecurityHeaders) (next : Handler) : Handler :=
  fun s w r =>
  let w :=
    if sh.HSTS then
      let hstsValue := "max-age=" ++ goStringOfInt sh.HSTSMaxAge
      let hstsValue := if sh.HSTSIncludeSubdomains then hstsValue ++ "; includeSubDomains"
                       else hstsValue
      let hstsValue := if sh.HSTSPreload then hstsValue ++ "; preload" else hstsValue
      w.headerSet "Strict-Transport-Security" hstsValue
    else w
  let w := if sh.ContentSecurityPolicy != "" then
      w.headerSet "Content-Security-Policy" sh.ContentSecurityPolicy else w
  let w := if sh.XFrameOptions != "" then w.headerSet "X-Frame-Options" sh.XFrameOptions
           else w
  let w := if sh.XContentTypeOptions then w.headerSet "X-Content-Type-Options" "nosniff"
           else w
  let w := if sh.ReferrerPolicy != "" then w.headerSet "Referrer-Policy" sh.ReferrerPolicy
           else w
  let w := if sh.PermissionsPolicy != "" then
      w.headerSet "Permissions-Policy" sh.PermissionsPolicy else w
  let w := w.headerSet "Cache-Control" "no-store, max-age=0"
  next s w r

/-! ## `main.go`: the chain of a protected route -/

/-- Source `ValidationError`. -/
structure ValidationError where
  Field : String
  Message : String
deriving DecidableEq, Repr

/-- Source `ValidationError.Error`. -/
def ValidationError.Error (e : ValidationError) : String :=
  e.Field ++ ": " ++ e.Message

/-- Go `len(s)` of a string: the number of bytes of its UTF-8 encoding. -/
def goLen (s : String) : Int := (s.utf8ByteSize : Int)

/-- Source `ValidateLength`; `none` is the nil error. -/
def ValidateLength (field value : String) (min max : Int) : Option ValidationError :=
  if goLen value < min then
    some { Field := field
           Message := "deve ter pelo menos " ++ toString min ++ " caracteres" }
  else if max > 0 ∧ goLen value > max then
    some { Field := field
           Message := "não pode ter mais que " ++ toString max ++ " caracteres" }
  else none

/-- One call on the rate limiter. -/
inductive LimiterCall where
  | isAllowed (ip : String)
  | getRemainingTime (ip : String)
deriving DecidableEq, Repr

/-- The address a call is made for. -/
def LimiterCall.ip : LimiterCall → String
  | .isAllowed ip => ip
  | .getRemainingTime ip => ip

/-- One call on the limiter under the clock `clk`: the limiter after it and how
many reads of the clock the call made. -/
def RateLimiter.call (rl : RateLimiter) (clk : Clock) : LimiterCall → RateLimiter × Nat
  | .isAllowed ip => ((rl.IsAllowed clk ip).2, rl.isAllowedReads clk ip)
  | .getRemainingTime ip => ((rl.GetRemainingTime clk ip).2, rl.getRemainingTimeReads clk ip)

/-- A run of calls, one after the other, each reading the clock where the one
before stopped: the limiter after the run and the clock reads still to come. -/
def RateLimiter.run (rl : RateLimiter) (clk : Clock) : List LimiterCall → RateLimiter × Clock
  | [] => (rl, clk)
  | c :: cs =>
    let r := rl.call clk c
    RateLimiter.run r.1 (fun i => clk (i + r.2)) cs

/-- Whether `IsAllowed` for `ip` goes past its block check: the address has no
block entry, or the entry has lapsed at the first read of the clock. -/
def RateLimiter.pastBlockCheck (rl : RateLimiter) (clk : Clock) (ip : String) : Bool :=
  match rl.blockedIPs ip with
  | some blockedUntil => Time.After (clk 0) blockedUntil
  | none => true

/-- The `now` of an `IsAllowed` call that goes past its block check. -/
def RateLimiter.nowOf (rl : RateLimiter) (clk : Clock) (ip : String) : Int :=
  match rl.blockedIPs ip with
  | some _ => clk 1
  | none => clk 0

/-! ## When a stage of the chain answers itself -/

/-- The invariant of the history of one address: in ascending order, at most
`maxRequests` long, and nothing in it later than `bound`. -/
def RateLimiter.historyOK (rl : RateLimiter) (bound : Int) (ip : String) : Prop :=
  (mapGet rl.requests ip).Pairwise (fun a b => a ≤ b) ∧
  ((mapGet rl.requests ip).length : Int) ≤ rl.maxRequests ∧
  ∀ t ∈ mapGet rl.requests ip, t ≤ bound

/-! ## Sample states -/

/-- A limiter of at most 2 requests a minute where 10.0.0.1 has asked at 0s and at
90s and is not blocked. -/
def sampleLimiter : RateLimiter :=
  { NewRateLimiter 2 Minute (5 * Minute) with
    requests := mapSet (fun _ => none) "10.0.0.1" [0, 90 * Second] }

/-- A default-policy limiter where 10.0.0.1 is blocked until minute 10. -/
def sampleBlocked : RateLimiter :=
  { NewRateLimiter 60 Minute (5 * Minute) with
    blockedIPs := mapSet (fun _ => none) "10.0.0.1" (10 * Minute) }

/-- Sixty instants one second apart, from 0s to 59s. -/
def sampleBurst : List Int := (List.range 60).map (fun i => (i : Int) * Second)

/-- A CSRF store of one-hour tokens that holds "tok" until hour 1. -/
def sampleCSRF : CSRFProtection :=
  { NewCSRFProtection Hour with
    tokens := mapSet (fun _ => none) "tok" { Token := "tok", ExpiresAt := Hour } }

/-- Calls made on a CSRF store after "tok" was issued at 0: another issuance,
and validations of "tok" and of a string that was never issued. -/
def sampleCSRFCalls : List (Int × CSRFCall) :=
  [(10 * Minute, .Generate (some "other")), (20 * Minute, .Validate "tok"),
   (20 * Minute, .Validate "never-issued")]

/-- Access claims of user 7 "ana", profile type 1, valid from 0 to hour 1. -/
def sampleClaims : Claims :=
  { UserID := 7, Username := "ana", TipoPerfilID := 1, TokenType := "access",
    ExpiresAt := some Hour, IssuedAt := some 0, NotBefore := some 0,
    Issuer := "api-seguradoras", Subject := "7" }

/-- The access token that carries `sampleClaims`, signed with `jwtKey`. -/
def sampleAccess : TokenString :=
  .jwt { alg := "HS256", signedWith := jwtKey, claims := sampleClaims }

/-- A codec for the samples: the string "ana.jwt" reads as `sampleAccess`, every
other string as one that the parser rejects for its number of segments; a token
is written as its kind and its username. -/
def sampleCodec : JWTCodec :=
  { decode := fun str =>
      if str = "ana.jwt" then sampleAccess
      else .garbage "token is malformed: token contains an invalid number of segments"
    encode := fun t =>
      match t with
      | .jwt t => t.claims.TokenType ++ ":" ++ t.claims.Username
      | .garbage _ => "" }

/-- A world at minute 45 with an empty database, the default rate limiter and the
CSRF store `sampleCSRF`. -/
def sampleWorld : World :=
  { clock := fun _ => 45 * Minute
    faults := fun _ => false
    db := { usuarios := [], login_attempts := [], audit_log := [] }
    rateLimiter := NewRateLimiter 60 Minute (5 * Minute)
    csrfProtection := sampleCSRF }

/-- A POST from 10.0.0.1 that presents `sampleAccess` and the CSRF token "tok". -/
def sampleRequest : Request :=
  { Method := "POST"
    Path := "/usuarios"
    Header := fun name =>
      if name = "Authorization" then "Bearer ana.jwt"
      else if name = "X-CSRF-Token" then "tok" else ""
    RemoteAddr := "10.0.0.1"
    JSON := none
    Ctx := fun _ => none }

/-- The user "ana": id 7, profile type 1, active, not locked, password hash "hash". -/
def sampleUser : Usuario :=
  { ID := 7, Nome := "Ana", Email := "ana@example.com", Login := "ana", Senha := "hash",
    IdTipoPerfil := 1, IdSeguradora := 1, AdminERP := false, Bloqueado := false,
    BloqueadoAte := none, CreatedAt := 0, UpdatedAt := 0, Ativo := true }

/-- A password check for the samples: the hash "hash" matches the password "secret". -/
def sampleCompare : String → String → Bool :=
  fun hash senha => hash == "hash" && senha == "secret"

/-- A world whose database holds the user "ana" and no attempt. -/
def sampleLoginWorld : World :=
  { sampleWorld with db := { usuarios := [sampleUser], login_attempts := [], audit_log := [] } }

/-- Five failed attempts for "ana" from 10.0.0.9, at minutes 1 to 5. -/
def sampleFailures : List LoginAttempt :=
  [1, 2, 3, 4, 5].map (fun (i : Int) =>
    { login := "ana", ip_address := "10.0.0.9", success := false, attempt_time := i * Minute })

/-- A world whose database holds the user "ana" and the five `sampleFailures`. -/
def sampleFailedWorld : World :=
  { sampleWorld with
    db := { usuarios := [sampleUser], login_attempts := sampleFailures, audit_log := [] } }

/-- A world whose database holds the user "ana", locked until minute 40. -/
def sampleLockedWorld : World :=
  { sampleWorld with
    db := { usuarios := [{ sampleUser with Bloqueado := true, BloqueadoAte := some (40 * Minute) }]
            login_attempts := sampleFailures, audit_log := [] } }

/-- Five failed attempts for "ana" from 10.0.0.9, one a minute from minute 1 on,
as calls of `LogLoginAttempt`. -/
def sampleAttempts : List (Int × Request) :=
  [1, 2, 3, 4, 5].map (fun (i : Int) => (i * Minute, loginRequest "10.0.0.9" "ana" "x"))

/-- Five POSTs with wrong passwords for "ana", one a minute from minute 1 on. -/
def sampleWrongLogins : List (Int × String) :=
  [(1 * Minute, "a"), (2 * Minute, "b"), (3 * Minute, "c"), (4 * Minute, "d"),
   (5 * Minute, "e")]

/-- The world `sampleLockedWorld` (minute 45, "ana" locked until minute 40) in
which the second database statement fails. -/
def sampleLapsedFaulty : World :=
  { sampleLockedWorld with faults := fun i => decide (i = 1) }

/-- The world `sampleLoginWorld` in which the first database statement fails. -/
def sampleSelectFaulty : World :=
  { sampleLoginWorld with faults := fun i => decide (i = 0) }

/-- The world `sampleLoginWorld` in which the third database statement fails. -/
def sampleLookupFaulty : World :=
  { sampleLoginWorld with faults := fun i => decide (i = 2) }

/-- The sample request with the header `Authorization: Bearer junk` only. -/
def sampleGarbageRequest : Request :=
  { sampleRequest with
    Header := fun name => if name = "Authorization" then "Bearer junk" else "" }

/-- The sample world at hour 2, when `sampleAccess` has expired. -/
def sampleLateWorld : World :=
  { sampleWorld with clock := fun _ => 2 * Hour }

/-- A codec for the samples that reads every string as the token of `sampleClaims`
whose `alg` is that string. -/
def sampleAlgCodec : JWTCodec :=
  { decode := fun str => .jwt { alg := str, signedWith := jwtKey, claims := sampleClaims }
    encode := fun t =>
      match t with
      | .jwt t => t.alg
      | .garbage _ => "" }

/-- The sample request with the header `Authorization: Bearer <alg>` only. -/
def sampleAlgRequest (alg : String) : Request :=
  { sampleRequest with
    Header := fun name => if name = "Authorization" then "Bearer " ++ alg else "" }

/-- A clock that advances one nanosecond with every read. -/
def sampleTicking : Clock := fun i => (i : Int)

/-- Calls for two addresses. -/
def sampleCalls : List LimiterCall :=
  [.isAllowed "a", .isAllowed "a", .getRemainingTime "a", .isAllowed "b", .isAllowed "a"]

/-- Calls for the address 10.0.0.1 only. -/
def sampleCallsForOne : List LimiterCall :=
  [.isAllowed "10.0.0.1", .getRemainingTime "10.0.0.1", .isAllowed "10.0.0.1"]

/-- The world `sampleLockedWorld` at minute 10: the lock of "ana" ends in exactly
30 minutes. -/
def sampleLockedEarly : World :=
  { sampleLockedWorld with clock := fun _ => 10 * Minute }

/-! ## Facts about the time model -/

theorem timeSub_eq_of_range (t u : Int) (h1 : minDuration ≤ t - u)
    (h2 : t - u ≤ maxDuration) : Time.Sub t u = t - u := by
  unfold Time.Sub
  rw [if_neg (by omega), if_neg (by omega)]

theorem timeSub_nonneg_of_le (t u : Int) (h : u ≤ t) : 0 ≤ Time.Sub t u := by
  unfold Time.Sub maxDuration minDuration
  split_ifs <;> omega

theorem timeSub_gt_iff (t u : Int) (d : Int) (h1 : minDuration ≤ d)
    (h2 : d < maxDuration) : Time.Sub t u > d ↔ t - u > d := by
  unfold Time.Sub
  unfold maxDuration minDuration at *
  split_ifs <;> omega

theorem truncate_second (t : Int) : Time.Truncate t Second = t - t % 1000000000 := by
  simp [Time.Truncate, Second]

theorem truncate_second_le (t : Int) : Time.Truncate t Second ≤ t := by
  rw [truncate_second]; omega

theorem truncate_add_day (t : Int) :
    Time.Truncate (t + 24 * Hour) Second = Time.Truncate t Second + 24 * Hour := by
  rw [truncate_second, truncate_second]
  simp only [Hour, Minute, Second]
  omega

/-! ## Token service -/

/-- C1. For claims that carry an expiry `exp` and a call that reads the clock as
`now`, `ShouldRefreshToken` is true exactly when `exp - now` is strictly less than
30 minutes: false with 31 minutes left, false with exactly 30, true with 29. -/
theorem ShouldRefreshToken_iff_lt_30min (clk : Clock) (claims : Claims) (exp : Int)
    (h : claims.ExpiresAt = some exp) :
    (ShouldRefreshToken clk claims = true ↔ exp - clk 0 < 30 * Minute) ∧
    (exp = clk 0 + 31 * Minute → ShouldRefreshToken clk claims = false) ∧
    (exp = clk 0 + 30 * Minute → ShouldRefreshToken clk claims = false) ∧
    (exp = clk 0 + 29 * Minute → ShouldRefreshToken clk claims = true) := by
  have key : ShouldRefreshToken clk claims = decide (exp < clk 0 + 30 * Minute) := by
    simp [ShouldRefreshToken, h, Time.Before, Time.Add, TokenRefreshBefore]
  rw [key]
  simp only [Minute, Second, decide_eq_true_eq, decide_eq_false_iff_not]
  refine ⟨by omega, ?_, ?_, ?_⟩ <;> intro h2 <;> omega

/-- Witness of C1: claims expiring 29 minutes after the clock reading 0. -/
theorem ShouldRefreshToken_iff_lt_30min_witness :
    ShouldRefreshToken (fun _ => 0)
      { UserID := 7, Username := "ana", TipoPerfilID := 1, TokenType := "access",
        ExpiresAt := some (29 * Minute), IssuedAt := none, NotBefore := none,
        Issuer := "api-seguradoras", Subject := "7" } = true :=
  ((ShouldRefreshToken_iff_lt_30min (fun _ => 0)
      { UserID := 7, Username := "ana", TipoPerfilID := 1, TokenType := "access",
        ExpiresAt := some (29 * Minute), IssuedAt := none, NotBefore := none,
        Issuer := "api-seguradoras", Subject := "7" } (29 * Minute) rfl).1).2 (by decide)

/-- C2, counterexample. A token minted at instant 0 is rejected as expired at
instant 0 + 24h; and a token minted at 0.5s is already rejected as expired at
24h + 0.3s, an instant between its minting and 24 hours after its minting. -/
theorem ValidateToken_expired_by_24h :
    (∃ tok, GenerateToken (fun _ => 0) 7 "ana" 1 = .ok tok ∧
      ValidateToken (fun _ => 0 + 24 * Hour) tok
        = .error (.InvalidClaims [.TokenExpired])) ∧
    (∃ tok, GenerateToken (fun _ => 500000000) 7 "ana" 1 = .ok tok ∧
      (500000000 : Int) ≤ 24 * Hour + 300000000 ∧
      24 * Hour + 300000000 < 500000000 + 24 * Hour ∧
      ValidateToken (fun _ => 24 * Hour + 300000000) tok
        = .error (.InvalidClaims [.TokenExpired])) :=
  ⟨⟨_, rfl, rfl⟩, ⟨_, rfl, by decide, by decide, rfl⟩⟩

/-- C2, amended. `GenerateToken` at instant `t0` returns a token whose expiry is
`t0 + 24h` rounded down to a whole second, an instant not after `t0 + 24h`; at
every instant `now` from `t0` on, `ValidateToken` returns the minted claims when
`now` is before that expiry and fails with the expiry error otherwise. -/
theorem ValidateToken_until_expiry (t0 now userID : Int) (username : String)
    (tipoPerfilID : Int) (h : t0 ≤ now) :
    ∃ tok c, GenerateToken (fun _ => t0) userID username tipoPerfilID = .ok tok ∧
      tok.claims? = some c ∧
      c.ExpiresAt = some (Time.Truncate (t0 + 24 * Hour) Second) ∧
      Time.Truncate (t0 + 24 * Hour) Second ≤ t0 + 24 * Hour ∧
      ValidateToken (fun _ => now) tok =
        (if now < Time.Truncate (t0 + 24 * Hour) Second then .ok c
         else .error (.InvalidClaims [.TokenExpired])) := by
  refine ⟨_, _, rfl, rfl, rfl, truncate_second_le _, ?_⟩
  have hnbf : ¬ now < Time.Truncate t0 Second := by
    have := truncate_second_le t0
    omega
  by_cases hexp : now < Time.Truncate (t0 + 24 * Hour) Second
  · simp [ValidateToken, ParseWithClaims, validateClaims, isHMAC, Time.Before, Time.Add,
      NewNumericDate, TimePrecision, TokenExpiration, hexp, hnbf]
  · simp [ValidateToken, ParseWithClaims, validateClaims, isHMAC, Time.Before, Time.Add,
      NewNumericDate, TimePrecision, TokenExpiration, hexp, hnbf]

/-- Witness of C2 amended: minted at 0.5s, validated one hour later. -/
theorem ValidateToken_until_expiry_witness :
    (500000000 : Int) ≤ 500000000 + Hour ∧
    ∃ tok c, GenerateToken (fun _ => 500000000) 7 "ana" 1 = .ok tok ∧
      tok.claims? = some c ∧
      c.ExpiresAt = some (Time.Truncate (500000000 + 24 * Hour) Second) ∧
      Time.Truncate (500000000 + 24 * Hour) Second ≤ 500000000 + 24 * Hour ∧
      ValidateToken (fun _ => 500000000 + Hour) tok =
        (if 500000000 + Hour < Time.Truncate (500000000 + 24 * Hour) Second then .ok c
         else .error (.InvalidClaims [.TokenExpired])) :=
  ⟨by decide, ValidateToken_until_expiry 500000000 (500000000 + Hour) 7 "ana" 1 (by decide)⟩

/-- Tokens minted by `generateTokenWithType` carry the kind they were minted with. -/
theorem generateTokenWithType_kind (clk : Clock) (userID : Int) (username : String)
    (tipoPerfilID : Int) (tokenType : String) (expiration : Int) :
    ∃ t, generateTokenWithType clk userID username tipoPerfilID tokenType expiration
        = .ok (.jwt t) ∧ t.claims.TokenType = tokenType ∧ t.claims.UserID = userID ∧
      t.claims.Username = username ∧ t.claims.TipoPerfilID = tipoPerfilID :=
  ⟨_, rfl, rfl, rfl, rfl, rfl⟩

/-- A token string whose kind is not "access" is never accepted by `ValidateToken`. -/
theorem ValidateToken_error_of_kind (clk : Clock) (t : SignedToken)
    (hk : t.claims.TokenType ≠ "access") : ∃ e, ValidateToken clk (.jwt t) = .error e := by
  simp only [ValidateToken, ParseWithClaims]
  split_ifs
  · exact ⟨_, rfl⟩
  · exact ⟨_, rfl⟩
  · cases validateClaims (clk 0) t.claims.toRegisteredClaims with
    | nil => simp [hk]
    | cons e es => exact ⟨_, rfl⟩

/-- A token string whose kind is not "refresh" is never accepted by
`ValidateRefreshToken`. -/
theorem ValidateRefreshToken_error_of_kind (clk : Clock) (t : SignedToken)
    (hk : t.claims.TokenType ≠ "refresh") :
    ∃ e, ValidateRefreshToken clk (.jwt t) = .error e := by
  simp only [ValidateRefreshToken, ParseWithClaims]
  split_ifs
  · exact ⟨_, rfl⟩
  · exact ⟨_, rfl⟩
  · cases validateClaims (clk 0) t.claims.toRegisteredClaims with
    | nil => simp [hk]
    | cons e es => exact ⟨_, rfl⟩

/-- With the expiry check passed, the validator can only object to not-before. -/
theorem validateClaims_of_unexpired (now : Int) (c : RegisteredClaims)
    (hexp : ∀ exp, c.ExpiresAt = some exp → now < exp) :
    validateClaims now c = [] ∨ validateClaims now c = [.TokenNotValidYet] := by
  unfold validateClaims
  cases he : c.ExpiresAt with
  | none =>
    cases c.NotBefore with
    | none => simp
    | some nbf => by_cases h : now < nbf <;> simp [Time.Before, h]
  | some exp =>
    have := hexp exp he
    cases c.NotBefore with
    | none => simp [Time.Before, this]
    | some nbf => by_cases h : now < nbf <;> simp [Time.Before, h, this]

/-- C4. For a correctly signed (HMAC method, signed with `jwtKey`), unexpired token:
`ValidateToken` fails whenever its kind is not "access" and `ValidateRefreshToken`
fails whenever its kind is not "refresh"; the failure is the wrong-kind error unless
the token is not yet valid. Every token from `GenerateRefreshToken` is rejected by
`ValidateToken` and every token from `GenerateToken` by `ValidateRefreshToken`,
at every instant. -/
theorem wrong_kind_rejected (clk : Clock) (t : SignedToken)
    (halg : isHMAC t.alg = true) (hkey : t.signedWith = jwtKey)
    (hexp : ∀ exp, t.claims.ExpiresAt = some exp → clk 0 < exp) :
    (t.claims.TokenType ≠ "access" →
      ValidateToken clk (.jwt t) = .error
        (if validateClaims (clk 0) t.claims.toRegisteredClaims = [] then .TipoDeTokenInvalido
         else .InvalidClaims [.TokenNotValidYet])) ∧
    (t.claims.TokenType ≠ "refresh" →
      ValidateRefreshToken clk (.jwt t) = .error
        (if validateClaims (clk 0) t.claims.toRegisteredClaims = [] then .TipoDeTokenInvalido
         else .InvalidClaims [.TokenNotValidYet])) ∧
    (∀ (gclk : Clock) (userID : Int) (username : String) (tipoPerfilID : Int),
      ∃ r, GenerateRefreshToken gclk userID username tipoPerfilID = .ok r ∧
        ∀ vclk : Clock, ∃ e, ValidateToken vclk r = .error e) ∧
    (∀ (gclk : Clock) (userID : Int) (username : String) (tipoPerfilID : Int),
      ∃ a, GenerateToken gclk userID username tipoPerfilID = .ok a ∧
        ∀ vclk : Clock, ∃ e, ValidateRefreshToken vclk a = .error e) := by
  refine ⟨?_, ?_, ?_, ?_⟩
  · intro hk
    rcases validateClaims_of_unexpired (clk 0) t.claims.toRegisteredClaims hexp with h | h
    · simp [ValidateToken, ParseWithClaims, halg, hkey, h, hk]
    · simp [ValidateToken, ParseWithClaims, halg, hkey, h]
  · intro hk
    rcases validateClaims_of_unexpired (clk 0) t.claims.toRegisteredClaims hexp with h | h
    · simp [ValidateRefreshToken, ParseWithClaims, halg, hkey, h, hk]
    · simp [ValidateRefreshToken, ParseWithClaims, halg, hkey, h]
  · intro gclk userID username tipoPerfilID
    obtain ⟨r, hr, hkind, -⟩ :=
      generateTokenWithType_kind gclk userID username tipoPerfilID "refresh"
        RefreshTokenExpiration
    exact ⟨_, hr, fun vclk =>
      ValidateToken_error_of_kind vclk r (by rw [hkind]; decide)⟩
  · intro gclk userID username tipoPerfilID
    obtain ⟨a, ha, hkind, -⟩ :=
      generateTokenWithType_kind gclk userID username tipoPerfilID "access" TokenExpiration
    exact ⟨_, ha, fun vclk =>
      ValidateRefreshToken_error_of_kind vclk a (by rw [hkind]; decide)⟩

/-- Witness of C4: a refresh token minted at 0 and shown to `ValidateToken` one
hour later is refused with the wrong-kind error. -/
theorem wrong_kind_rejected_witness :
    ValidateToken (fun _ => Hour)
      (.jwt { alg := "HS256", signedWith := jwtKey,
              claims := { UserID := 7, Username := "ana", TipoPerfilID := 1,
                          TokenType := "refresh", ExpiresAt := some (7 * 24 * Hour),
                          IssuedAt := some 0, NotBefore := some 0,
                          Issuer := "api-seguradoras", Subject := "7" } })
      = .error .TipoDeTokenInvalido :=
  (wrong_kind_rejected (fun _ => Hour)
    { alg := "HS256", signedWith := jwtKey,
      claims := { UserID := 7, Username := "ana", TipoPerfilID := 1,
                  TokenType := "refresh", ExpiresAt := some (7 * 24 * Hour),
                  IssuedAt := some 0, NotBefore := some 0,
                  Issuer := "api-seguradoras", Subject := "7" } }
    rfl rfl (by intro exp h; cases h; decide)).1 (by decide)

/-- C5. When `ValidateRefreshToken` accepts `r` with claims `c`, `RefreshToken`
returns the access token and the refresh token that `GenerateToken` and
`GenerateRefreshToken` mint for the user id, username and profile-type id of `c`:
their kinds are "access" and "refresh" and they carry the identity of `c`. And
`RefreshToken` fails, with the same error and no token, exactly when
`ValidateRefreshToken` fails. -/
theorem RefreshToken_rotates_identity (clk : Clock) (r : TokenString) :
    (∀ c, ValidateRefreshToken clk r = .ok c →
      ∃ a n ca cn, RefreshToken clk r = .ok (a, n) ∧
        GenerateToken (fun i => clk (i + 1)) c.UserID c.Username c.TipoPerfilID = .ok a ∧
        GenerateRefreshToken (fun i => clk (i + 4)) c.UserID c.Username c.TipoPerfilID
          = .ok n ∧
        a.claims? = some ca ∧ n.claims? = some cn ∧
        ca.TokenType = "access" ∧ cn.TokenType = "refresh" ∧
        ca.UserID = c.UserID ∧ ca.Username = c.Username ∧
        ca.TipoPerfilID = c.TipoPerfilID ∧
        cn.UserID = c.UserID ∧ cn.Username = c.Username ∧
        cn.TipoPerfilID = c.TipoPerfilID) ∧
    (∀ e, RefreshToken clk r = .error e ↔ ValidateRefreshToken clk r = .error e) := by
  constructor
  · intro c hc
    refine ⟨_, _, _, _, ?_, rfl, rfl, rfl, rfl, rfl, rfl, rfl, rfl, rfl, rfl, rfl, rfl⟩
    simp only [RefreshToken, hc]
    rfl
  · intro e
    cases hv : ValidateRefreshToken clk r with
    | error e2 => simp [RefreshToken, hv]
    | ok c =>
      have : ∃ p, RefreshToken clk r = .ok p := by
        simp only [RefreshToken, hv, GenerateToken, GenerateRefreshToken,
          generateTokenWithType, SignedString]
        exact ⟨_, rfl⟩
      obtain ⟨p, hp⟩ := this
      simp [hp]

/-- Witness of C5: a refresh token minted at 0 is rotated one hour later. -/
theorem RefreshToken_rotates_identity_witness :
    ∃ a n ca cn,
      RefreshToken (fun _ => Hour)
        (.jwt { alg := "HS256", signedWith := jwtKey,
                claims := { UserID := 7, Username := "ana", TipoPerfilID := 1,
                            TokenType := "refresh", ExpiresAt := some (7 * 24 * Hour),
                            IssuedAt := some 0, NotBefore := some 0,
                            Issuer := "api-seguradoras", Subject := "7" } }) = .ok (a, n) ∧
      a.claims? = some ca ∧ n.claims? = some cn ∧
      ca.TokenType = "access" ∧ cn.TokenType = "refresh" ∧
      ca.UserID = 7 ∧ ca.Username = "ana" ∧ ca.TipoPerfilID = 1 ∧
      cn.UserID = 7 ∧ cn.Username = "ana" ∧ cn.TipoPerfilID = 1 := by
  obtain ⟨a, n, ca, cn, h1, -, -, h2⟩ :=
    (RefreshToken_rotates_identity (fun _ => Hour)
      (.jwt { alg := "HS256", signedWith := jwtKey,
              claims := { UserID := 7, Username := "ana", TipoPerfilID := 1,
                          TokenType := "refresh", ExpiresAt := some (7 * 24 * Hour),
                          IssuedAt := some 0, NotBefore := some 0,
                          Issuer := "api-seguradoras", Subject := "7" } })).1
      { UserID := 7, Username := "ana", TipoPerfilID := 1,
        TokenType := "refresh", ExpiresAt := some (7 * 24 * Hour),
        IssuedAt := some 0, NotBefore := some 0,
        Issuer := "api-seguradoras", Subject := "7" } rfl
  exact ⟨a, n, ca, cn, h1, h2⟩

/-! ## Rate limiter -/

/-- C6. For an address that is not currently blocked (no block entry, or one that
`now` is after) and a call made at the instant `now`: with `kept` the history
without the timestamps `t` for which `now.Sub(t)` is greater than the window, if
`kept` has at least `maxRequests` entries the call returns false, sets block-until to
`now + blockDuration` and leaves the history at `kept`; otherwise it returns true and
the history becomes `kept` followed by `now`, with no block entry. Other addresses
and the policy are untouched. -/
theorem IsAllowed_not_blocked (rl : RateLimiter) (ip : String) (now : Int)
    (hnb : ∀ u, rl.blockedIPs ip = some u → now > u) :
    ((rl.IsAllowed (fun _ => now) ip).1 =
      !decide ((((mapGet rl.requests ip).filter
        (fun t => !decide (Time.Sub now t > rl.timeWindow))).length : Int)
          ≥ rl.maxRequests)) ∧
    (mapGet (rl.IsAllowed (fun _ => now) ip).2.requests ip =
      if (((mapGet rl.requests ip).filter
        (fun t => !decide (Time.Sub now t > rl.timeWindow))).length : Int) ≥ rl.maxRequests
      then (mapGet rl.requests ip).filter (fun t => !decide (Time.Sub now t > rl.timeWindow))
      else (mapGet rl.requests ip).filter (fun t => !decide (Time.Sub now t > rl.timeWindow))
        ++ [now]) ∧
    ((rl.IsAllowed (fun _ => now) ip).2.blockedIPs ip =
      if (((mapGet rl.requests ip).filter
        (fun t => !decide (Time.Sub now t > rl.timeWindow))).length : Int) ≥ rl.maxRequests
      then some (now + rl.blockDuration) else none) ∧
    (∀ k, k ≠ ip → (rl.IsAllowed (fun _ => now) ip).2.requests k = rl.requests k ∧
      (rl.IsAllowed (fun _ => now) ip).2.blockedIPs k = rl.blockedIPs k) ∧
    (rl.IsAllowed (fun _ => now) ip).2.maxRequests = rl.maxRequests ∧
    (rl.IsAllowed (fun _ => now) ip).2.timeWindow = rl.timeWindow ∧
    (rl.IsAllowed (fun _ => now) ip).2.blockDuration = rl.blockDuration := by
  have hf : ∀ l : List Int,
      l.filter (fun t => !decide (Time.Sub now t > rl.timeWindow))
        = l.filter (fun t => decide (Time.Sub now t ≤ rl.timeWindow)) := by
    intro l
    apply List.filter_congr
    intro t _
    by_cases h : Time.Sub now t > rl.timeWindow
    · simp [h, not_le.mpr h]
    · simp [h, not_lt.mp h]
  simp only [hf]
  cases hb : rl.blockedIPs ip with
  | none =>
    cases hr : rl.requests ip with
    | none =>
      by_cases hlim : (0 : Int) ≥ rl.maxRequests
      · simp [RateLimiter.IsAllowed, hb, hr, mapGet, mapSet, Time.Add, hlim]
        intro k hk; simp [hk]
      · simp [RateLimiter.IsAllowed, hb, hr, mapGet, mapSet, Time.Add, hlim]
        intro k hk; simp [hk]
    | some times =>
      by_cases hlim : (((times.filter
          (fun t => decide (Time.Sub now t ≤ rl.timeWindow))).length : Int)) ≥ rl.maxRequests
      · simp [RateLimiter.IsAllowed, hb, hr, mapGet, mapSet, Time.Add, hlim]
        intro k hk; simp [hk]
      · simp [RateLimiter.IsAllowed, hb, hr, mapGet, mapSet, Time.Add, hlim]
        intro k hk; simp [hk]
  | some u =>
    have hu : now > u := hnb u hb
    cases hr : rl.requests ip with
    | none =>
      by_cases hlim : (0 : Int) ≥ rl.maxRequests
      · simp [RateLimiter.IsAllowed, hb, hr, mapGet, mapSet, mapDelete, Time.Add,
          Time.After, hu, hlim]
        intro k hk; simp [hk]
      · simp [RateLimiter.IsAllowed, hb, hr, mapGet, mapSet, mapDelete, Time.Add,
          Time.After, hu, hlim]
        intro k hk; simp [hk]
    | some times =>
      by_cases hlim : (((times.filter
          (fun t => decide (Time.Sub now t ≤ rl.timeWindow))).length : Int)) ≥ rl.maxRequests
      · simp [RateLimiter.IsAllowed, hb, hr, mapGet, mapSet, mapDelete, Time.Add,
          Time.After, hu, hlim]
        intro k hk; simp [hk]
      · simp [RateLimiter.IsAllowed, hb, hr, mapGet, mapSet, mapDelete, Time.Add,
          Time.After, hu, hlim]
        intro k hk; simp [hk]

/-- Writing a key twice keeps the second value. -/
theorem mapSet_mapSet {α : Type} (m : String → Option α) (k : String) (v w : α) :
    mapSet (mapSet m k v) k w = mapSet m k w := by
  funext k2
  by_cases h : k2 = k <;> simp [mapSet, h]

/-- Writing back the value a key already has changes nothing. -/
theorem mapSet_same {α : Type} (m : String → Option α) (k : String) (v : α)
    (h : m k = some v) : mapSet m k v = m := by
  funext k2
  by_cases h2 : k2 = k
  · subst h2; simp [mapSet, h]
  · simp [mapSet, h2]

/-- A call below the limit, with the whole history inside the window and no
block entry: the instant is appended and the call is allowed. -/
theorem isAllowed_under_limit (rl : RateLimiter) (ip : String) (now : Int)
    (hb : rl.blockedIPs ip = none)
    (hall : ∀ t ∈ mapGet rl.requests ip, Time.Sub now t ≤ rl.timeWindow)
    (hlen : ((mapGet rl.requests ip).length : Int) < rl.maxRequests) :
    rl.IsAllowed (fun _ => now) ip =
      (true, { rl with requests := mapSet rl.requests ip (mapGet rl.requests ip ++ [now]) }) := by
  cases hr : rl.requests ip with
  | none =>
    have hlen2 : ¬ (0 : Int) ≥ rl.maxRequests := by
      simp [mapGet, hr] at hlen; omega
    simp [RateLimiter.IsAllowed, hb, hr, mapGet, hlen2]
  | some times =>
    have hfil : times.filter (fun t => decide (Time.Sub now t ≤ rl.timeWindow)) = times := by
      apply List.filter_eq_self.mpr
      intro t ht
      have := hall t (by simp [mapGet, hr, ht])
      simpa using this
    have hlen2 : (times.length : Int) < rl.maxRequests := by
      simp [mapGet, hr] at hlen; omega
    simp [RateLimiter.IsAllowed, hb, hr, mapGet, hfil, mapSet_mapSet, hlen2, mapSet]

/-- A call at the limit, with the whole history inside the window and no block
entry: the call is refused and the address is blocked for `blockDuration`. -/
theorem isAllowed_at_limit (rl : RateLimiter) (ip : String) (now : Int)
    (hb : rl.blockedIPs ip = none)
    (hall : ∀ t ∈ mapGet rl.requests ip, Time.Sub now t ≤ rl.timeWindow)
    (hlen : ((mapGet rl.requests ip).length : Int) ≥ rl.maxRequests) :
    rl.IsAllowed (fun _ => now) ip =
      (false, { rl with blockedIPs := mapSet rl.blockedIPs ip (now + rl.blockDuration) }) := by
  cases hr : rl.requests ip with
  | none =>
    have hlen2 : (0 : Int) ≥ rl.maxRequests := by
      simp [mapGet, hr] at hlen; omega
    simp [RateLimiter.IsAllowed, hb, hr, mapGet, hlen2, Time.Add]
  | some times =>
    have hfil : times.filter (fun t => decide (Time.Sub now t ≤ rl.timeWindow)) = times := by
      apply List.filter_eq_self.mpr
      intro t ht
      have := hall t (by simp [mapGet, hr, ht])
      simpa using this
    have hlen2 : (times.length : Int) ≥ rl.maxRequests := by
      simp [mapGet, hr] at hlen; omega
    simp [RateLimiter.IsAllowed, hb, hr, mapGet, hfil, mapSet_same _ _ _ hr, hlen2, Time.Add]

/-- A call after the block has lapsed, with the whole history older than the
window: the block entry goes, the history restarts at this one instant. -/
theorem isAllowed_after_block (rl : RateLimiter) (ip : String) (now u : Int)
    (hb : rl.blockedIPs ip = some u) (hu : now > u)
    (hold : ∀ t ∈ mapGet rl.requests ip, ¬ Time.Sub now t ≤ rl.timeWindow)
    (hmax : 0 < rl.maxRequests) :
    (rl.IsAllowed (fun _ => now) ip).1 = true ∧
    (rl.IsAllowed (fun _ => now) ip).2.requests ip = some [now] ∧
    (rl.IsAllowed (fun _ => now) ip).2.blockedIPs ip = none := by
  have hmax2 : ¬ (0 : Int) ≥ rl.maxRequests := by omega
  cases hr : rl.requests ip with
  | none =>
    simp [RateLimiter.IsAllowed, hb, hr, mapGet, mapSet, mapDelete, Time.After, hu, hmax2]
  | some times =>
    have hfil : times.filter (fun t => decide (Time.Sub now t ≤ rl.timeWindow)) = [] := by
      apply List.filter_eq_nil_iff.mpr
      intro t ht
      have := hold t (by simp [mapGet, hr, ht])
      simpa using this
    simp [RateLimiter.IsAllowed, hb, hr, mapGet, mapSet, mapDelete, Time.After, hu, hfil,
      hmax2]

/-- A run is the run of a prefix followed by the run of the rest. -/
theorem callsAt_append (ip : String) (xs ys : List Int) (rl : RateLimiter) :
    rl.callsAt ip (xs ++ ys) =
      ((rl.callsAt ip xs).1 ++ ((rl.callsAt ip xs).2.callsAt ip ys).1,
       ((rl.callsAt ip xs).2.callsAt ip ys).2) := by
  induction xs generalizing rl with
  | nil => simp [RateLimiter.callsAt]
  | cons x xs ih => simp [RateLimiter.callsAt, ih]

/-- Two instants of one window of a minute are at most a minute apart, as
`Time.Sub` measures it. -/
theorem sub_le_minute_of_window (t0 a b : Int) (ha : t0 ≤ a ∧ a ≤ t0 + Minute)
    (hb : t0 ≤ b ∧ b ≤ t0 + Minute) : Time.Sub a b ≤ Minute := by
  unfold Time.Sub maxDuration minDuration
  simp only [Minute, Second] at *
  split_ifs <;> omega

/-- Under the default policy, calls that stay within one window and within the
limit are all allowed, and the history records each of them. -/
theorem callsAt_under_limit (ip : String) (t0 : Int) (ts : List Int) :
    ∀ rl : RateLimiter, rl.maxRequests = 60 → rl.timeWindow = Minute →
      rl.blockedIPs ip = none →
      (∀ t ∈ mapGet rl.requests ip, t0 ≤ t ∧ t ≤ t0 + Minute) →
      (∀ t ∈ ts, t0 ≤ t ∧ t ≤ t0 + Minute) →
      (mapGet rl.requests ip).length + ts.length ≤ 60 →
      (rl.callsAt ip ts).1 = List.replicate ts.length true ∧
      mapGet (rl.callsAt ip ts).2.requests ip = mapGet rl.requests ip ++ ts ∧
      (rl.callsAt ip ts).2.blockedIPs ip = none ∧
      (rl.callsAt ip ts).2.maxRequests = 60 ∧
      (rl.callsAt ip ts).2.timeWindow = Minute ∧
      (rl.callsAt ip ts).2.blockDuration = rl.blockDuration := by
  induction ts with
  | nil => intro rl hmax hwin hb _ _ _; simp [RateLimiter.callsAt, hmax, hwin, hb]
  | cons t ts ih =>
    intro rl hmax hwin hb hh hts hlen
    have ht := hts t (by simp)
    have hstep := isAllowed_under_limit rl ip t hb
      (by intro x hx; rw [hwin]; exact sub_le_minute_of_window t0 t x ht (hh x hx))
      (by rw [hmax]; simp only [List.length_cons] at hlen; omega)
    have hreq : mapGet (mapSet rl.requests ip (mapGet rl.requests ip ++ [t])) ip
        = mapGet rl.requests ip ++ [t] := by simp [mapGet, mapSet]
    have := ih { rl with requests := mapSet rl.requests ip (mapGet rl.requests ip ++ [t]) }
      hmax hwin hb
      (by
        intro x hx
        rw [hreq] at hx
        rcases List.mem_append.mp hx with hx | hx
        · exact hh x hx
        · simp at hx; subst hx; exact ht)
      (fun x hx => hts x (by simp [hx]))
      (by rw [hreq]; simp only [List.length_append, List.length_cons, List.length_nil] at *; omega)
    rw [hreq] at this
    simp only [RateLimiter.callsAt, hstep, List.length_cons, List.replicate_succ]
    refine ⟨by rw [this.1], ?_, this.2.2⟩
    rw [this.2.1]; simp

/-- Witness of C6: at minute 2 the request of 0s has left the window, the one of
90s stays, and the call is allowed and recorded. -/
theorem IsAllowed_not_blocked_witness :
    (sampleLimiter.IsAllowed (fun _ => 2 * Minute) "10.0.0.1").1 = true ∧
    mapGet (sampleLimiter.IsAllowed (fun _ => 2 * Minute) "10.0.0.1").2.requests "10.0.0.1"
      = [90 * Second, 2 * Minute] :=
  ⟨(IsAllowed_not_blocked sampleLimiter "10.0.0.1" (2 * Minute)
      (by intro u hu; simp [sampleLimiter, NewRateLimiter] at hu)).1.trans (by decide),
   (IsAllowed_not_blocked sampleLimiter "10.0.0.1" (2 * Minute)
      (by intro u hu; simp [sampleLimiter, NewRateLimiter] at hu)).2.1.trans (by decide)⟩

/-- C7. With the default policy (60 requests, window of 1 minute, block of 5
minutes) and an address with no history and no block entry: of 61 calls made within
one window the first 60 return true and the 61st false; a further call made after
more than 5 minutes have passed since the 61st returns true, and after it the
history of the address is that one instant alone. -/
theorem default_policy_sixty_then_block (rl : RateLimiter) (ip : String)
    (t0 t61 t62 : Int) (first : List Int)
    (hmax : rl.maxRequests = 60) (hwindow : rl.timeWindow = Minute)
    (hblock : rl.blockDuration = 5 * Minute)
    (hhist : mapGet rl.requests ip = []) (hfree : rl.blockedIPs ip = none)
    (hlen : first.length = 60)
    (hfirst : ∀ t ∈ first, t0 ≤ t ∧ t ≤ t0 + Minute)
    (hlast : t0 ≤ t61 ∧ t61 ≤ t0 + Minute)
    (hwait : t61 + 5 * Minute < t62) :
    (rl.callsAt ip (first ++ [t61])).1 = List.replicate 60 true ++ [false] ∧
    ((rl.callsAt ip (first ++ [t61])).2.IsAllowed (fun _ => t62) ip).1 = true ∧
    ((rl.callsAt ip (first ++ [t61])).2.IsAllowed (fun _ => t62) ip).2.requests ip
      = some [t62] := by
  obtain ⟨hres, hreq, hblk, hmax2, hwin2, hbd2⟩ :=
    callsAt_under_limit ip t0 first rl hmax hwindow hfree
      (by rw [hhist]; intro t ht; simp at ht) hfirst (by rw [hhist, hlen]; simp)
  rw [hhist, List.nil_append] at hreq
  have h61 := isAllowed_at_limit (rl.callsAt ip first).2 ip t61 hblk
    (by
      intro x hx
      rw [hreq] at hx
      rw [hwin2]
      exact sub_le_minute_of_window t0 t61 x hlast (hfirst x hx))
    (by rw [hreq, hlen, hmax2]; simp)
  have hrun : rl.callsAt ip (first ++ [t61]) =
      (List.replicate 60 true ++ [false],
       { (rl.callsAt ip first).2 with
         blockedIPs := mapSet (rl.callsAt ip first).2.blockedIPs ip
           (t61 + (rl.callsAt ip first).2.blockDuration) }) := by
    rw [callsAt_append, hres, hlen]
    simp [RateLimiter.callsAt, h61]
  rw [hrun]
  have h62 := isAllowed_after_block
    { (rl.callsAt ip first).2 with
      blockedIPs := mapSet (rl.callsAt ip first).2.blockedIPs ip
        (t61 + (rl.callsAt ip first).2.blockDuration) } ip t62
    (t61 + (rl.callsAt ip first).2.blockDuration)
    (by simp [mapSet])
    (by rw [hbd2, hblock]; omega)
    (by
      intro x hx
      have hx2 : x ∈ first := by
        have : mapGet (rl.callsAt ip first).2.requests ip = first := hreq
        simpa [this] using hx
      have hxw := hfirst x hx2
      show ¬ Time.Sub t62 x ≤ (rl.callsAt ip first).2.timeWindow
      rw [hwin2]
      unfold Time.Sub maxDuration minDuration
      simp only [Minute, Second] at *
      split_ifs <;> omega)
    (by show 0 < (rl.callsAt ip first).2.maxRequests; rw [hmax2]; decide)
  exact ⟨rfl, h62.1, h62.2.1⟩

/-- Witness of C7: a fresh default limiter, 60 calls one second apart from 0s,
the 61st at 60s, and a further call at minute 7. -/
theorem default_policy_sixty_then_block_witness :
    ((NewRateLimiter 60 Minute (5 * Minute)).callsAt "10.0.0.1"
        (sampleBurst ++ [60 * Second])).1 = List.replicate 60 true ++ [false] ∧
    (((NewRateLimiter 60 Minute (5 * Minute)).callsAt "10.0.0.1"
        (sampleBurst ++ [60 * Second])).2.IsAllowed (fun _ => 7 * Minute) "10.0.0.1").1
      = true ∧
    (((NewRateLimiter 60 Minute (5 * Minute)).callsAt "10.0.0.1"
        (sampleBurst ++ [60 * Second])).2.IsAllowed (fun _ => 7 * Minute)
          "10.0.0.1").2.requests "10.0.0.1" = some [7 * Minute] :=
  default_policy_sixty_then_block (NewRateLimiter 60 Minute (5 * Minute)) "10.0.0.1"
    0 (60 * Second) (7 * Minute) sampleBurst rfl rfl rfl rfl rfl rfl
    (by decide) (by decide) (by decide)

/-- C8. While an address is blocked (the first clock read of the call is not after
its block-until `u`), `IsAllowed` returns false whatever the history holds and
leaves the whole limiter, so the history and the block-until, as it was. -/
theorem IsAllowed_blocked (rl : RateLimiter) (clk : Clock) (ip : String) (u : Int)
    (hb : rl.blockedIPs ip = some u) (hnow : ¬ clk 0 > u) :
    rl.IsAllowed clk ip = (false, rl) ∧
    (rl.IsAllowed clk ip).2.requests ip = rl.requests ip ∧
    (rl.IsAllowed clk ip).2.blockedIPs ip = some u := by
  have h : rl.IsAllowed clk ip = (false, rl) := by
    simp [RateLimiter.IsAllowed, hb, Time.After, hnow]
  rw [h]
  exact ⟨rfl, rfl, hb⟩

/-- Witness of C8: blocked until minute 10, asked at minute 6 with no history. -/
theorem IsAllowed_blocked_witness :
    sampleBlocked.IsAllowed (fun _ => 6 * Minute) "10.0.0.1" = (false, sampleBlocked) ∧
    (sampleBlocked.IsAllowed (fun _ => 6 * Minute) "10.0.0.1").2.requests "10.0.0.1"
      = sampleBlocked.requests "10.0.0.1" ∧
    (sampleBlocked.IsAllowed (fun _ => 6 * Minute) "10.0.0.1").2.blockedIPs "10.0.0.1"
      = some (10 * Minute) :=
  IsAllowed_blocked sampleBlocked (fun _ => 6 * Minute) "10.0.0.1" (10 * Minute) rfl
    (by decide)

/-- C9: the code at the failing input. The address is blocked until minute 10. The
clock reads minute 10 when `GetRemainingTime` tests `time.Now().After(blockedUntil)`
and one nanosecond more when it subtracts a second `time.Now()`: the result is
minus one nanosecond, and the middleware sends it as `Retry-After`. -/
theorem GetRemainingTime_negative :
    sampleBlocked.blockedIPs "10.0.0.1" = some (10 * Minute) ∧
    sampleBlocked.GetRemainingTime (fun i => 10 * Minute + i) "10.0.0.1"
      = (-1, sampleBlocked) ∧
    (sampleBlocked.GetRemainingTime (fun i => 10 * Minute + i) "10.0.0.1").1 < 0 ∧
    (RateLimiterMiddleware (fun d => toString d ++ "ns") reached
      { sampleWorld with
        clock := fun i => if i ≤ 1 then 10 * Minute else 10 * Minute + 1
        rateLimiter := sampleBlocked }
      Response.new sampleRequest).1.headerValues "Retry-After" = ["-1ns"] := by
  refine ⟨rfl, rfl, ?_, ?_⟩
  · decide
  · decide

/-- What `GetRemainingTime` does under any clock: 0 and nothing changed when the
address has no block entry; 0 and that block entry removed when the first read of
the clock is after block-until; otherwise `blockedUntil.Sub` of the second read of
the clock, and nothing changed. -/
theorem GetRemainingTime_reads (rl : RateLimiter) (clk : Clock) (ip : String) :
    (rl.blockedIPs ip = none → rl.GetRemainingTime clk ip = (0, rl)) ∧
    (∀ u, rl.blockedIPs ip = some u → clk 0 > u →
      rl.GetRemainingTime clk ip = (0, { rl with blockedIPs := mapDelete rl.blockedIPs ip })) ∧
    (∀ u, rl.blockedIPs ip = some u → ¬ clk 0 > u →
      rl.GetRemainingTime clk ip = (Time.Sub u (clk 1), rl)) := by
  refine ⟨?_, ?_, ?_⟩
  · intro hb
    simp [RateLimiter.GetRemainingTime, hb]
  · intro u hb hu
    simp [RateLimiter.GetRemainingTime, hb, Time.After, hu]
  · intro u hb hu
    simp [RateLimiter.GetRemainingTime, hb, Time.After, hu]

/-- For a call whose reads of the clock all return the instant `now`:
`GetRemainingTime` returns 0 and changes nothing when the address has no block
entry; returns 0 and removes that block entry, and nothing else, when `now` is
after block-until; otherwise returns `blockUntil.Sub(now)`, which is block-until
minus `now` whenever that fits in a `time.Duration`, and changes nothing. At such
a clock the result is not negative. -/
theorem GetRemainingTime_result (rl : RateLimiter) (ip : String) (now : Int) :
    (rl.blockedIPs ip = none → rl.GetRemainingTime (fun _ => now) ip = (0, rl)) ∧
    (∀ u, rl.blockedIPs ip = some u → now > u →
      (rl.GetRemainingTime (fun _ => now) ip).1 = 0 ∧
      (rl.GetRemainingTime (fun _ => now) ip).2.blockedIPs ip = none ∧
      (∀ k, k ≠ ip →
        (rl.GetRemainingTime (fun _ => now) ip).2.blockedIPs k = rl.blockedIPs k) ∧
      (rl.GetRemainingTime (fun _ => now) ip).2.requests = rl.requests) ∧
    (∀ u, rl.blockedIPs ip = some u → ¬ now > u →
      rl.GetRemainingTime (fun _ => now) ip = (Time.Sub u now, rl) ∧
      (u - now ≤ maxDuration → (rl.GetRemainingTime (fun _ => now) ip).1 = u - now)) ∧
    0 ≤ (rl.GetRemainingTime (fun _ => now) ip).1 := by
  refine ⟨?_, ?_, ?_, ?_⟩
  · intro hb
    simp [RateLimiter.GetRemainingTime, hb]
  · intro u hb hu
    have h : rl.GetRemainingTime (fun _ => now) ip =
        (0, { rl with blockedIPs := mapDelete rl.blockedIPs ip }) := by
      simp [RateLimiter.GetRemainingTime, hb, Time.After, hu]
    rw [h]
    refine ⟨rfl, by simp [mapDelete], ?_, rfl⟩
    intro k hk
    simp [mapDelete, hk]
  · intro u hb hu
    have h : rl.GetRemainingTime (fun _ => now) ip = (Time.Sub u now, rl) := by
      simp [RateLimiter.GetRemainingTime, hb, Time.After, hu]
    refine ⟨h, ?_⟩
    intro hfit
    rw [h]
    exact timeSub_eq_of_range u now (by unfold minDuration; omega) hfit
  · cases hb : rl.blockedIPs ip with
    | none => simp [RateLimiter.GetRemainingTime, hb]
    | some u =>
      by_cases hu : now > u
      · simp [RateLimiter.GetRemainingTime, hb, Time.After, hu]
      · simp only [RateLimiter.GetRemainingTime, hb, Time.After, hu, decide_False]
        exact timeSub_nonneg_of_le u now (by omega)

/-- Blocked until minute 10 and asked at minute 6, with the clock standing still:
4 minutes remain. -/
theorem GetRemainingTime_result_witness :
    sampleBlocked.GetRemainingTime (fun _ => 6 * Minute) "10.0.0.1"
        = (Time.Sub (10 * Minute) (6 * Minute), sampleBlocked) ∧
    (sampleBlocked.GetRemainingTime (fun _ => 6 * Minute) "10.0.0.1").1
        = 10 * Minute - 6 * Minute :=
  ⟨((GetRemainingTime_result sampleBlocked "10.0.0.1" (6 * Minute)).2.2.1
      (10 * Minute) rfl (by decide)).1,
   ((GetRemainingTime_result sampleBlocked "10.0.0.1" (6 * Minute)).2.2.1
      (10 * Minute) rfl (by decide)).2 (by decide)⟩

/-! ## CSRF guard -/

/-- C10. `ValidateToken` returns true exactly when the store holds an entry for
the token whose expires-at is after the clock reading; when the entry exists but is
not unexpired the call returns false and deletes that entry and no other; when it
returns true, and when the token is not in the store, the store is unchanged. -/
theorem CSRF_ValidateToken_result (c : CSRFProtection) (clk : Clock) (token : String) :
    ((c.ValidateToken clk token).1 = true ↔
      ∃ e, c.tokens token = some e ∧ clk 0 < e.ExpiresAt) ∧
    (∀ e, c.tokens token = some e → ¬ clk 0 < e.ExpiresAt →
      (c.ValidateToken clk token).1 = false ∧
      (c.ValidateToken clk token).2.tokens token = none ∧
      (∀ k, k ≠ token → (c.ValidateToken clk token).2.tokens k = c.tokens k) ∧
      (c.ValidateToken clk token).2.tokenExpiry = c.tokenExpiry) ∧
    ((c.ValidateToken clk token).1 = true → (c.ValidateToken clk token).2 = c) ∧
    (c.tokens token = none → c.ValidateToken clk token = (false, c)) := by
  cases ht : c.tokens token with
  | none => simp [CSRFProtection.ValidateToken, ht]
  | some e =>
    by_cases hexp : clk 0 < e.ExpiresAt
    · simp [CSRFProtection.ValidateToken, ht, Time.Before, hexp]
    · simp only [CSRFProtection.ValidateToken, ht, Time.Before, hexp, decide_False]
      refine ⟨by simp [hexp], ?_, by simp, by simp⟩
      intro e2 he2 _
      refine ⟨rfl, by simp [mapDelete], ?_, rfl⟩
      intro k hk
      simp [mapDelete, hk]

/-- Witness of C10: the token held until hour 1 is accepted at minute 30 and the
store stays as it was; at hour 2 it is refused and its entry is gone. -/
theorem CSRF_ValidateToken_result_witness :
    (sampleCSRF.ValidateToken (fun _ => 30 * Minute) "tok").1 = true ∧
    (sampleCSRF.ValidateToken (fun _ => 30 * Minute) "tok").2 = sampleCSRF ∧
    (sampleCSRF.ValidateToken (fun _ => 2 * Hour) "tok").1 = false ∧
    (sampleCSRF.ValidateToken (fun _ => 2 * Hour) "tok").2.tokens "tok" = none :=
  ⟨(CSRF_ValidateToken_result sampleCSRF (fun _ => 30 * Minute) "tok").1.2
      ⟨{ Token := "tok", ExpiresAt := Hour }, rfl, by decide⟩,
   (CSRF_ValidateToken_result sampleCSRF (fun _ => 30 * Minute) "tok").2.2.1
      ((CSRF_ValidateToken_result sampleCSRF (fun _ => 30 * Minute) "tok").1.2
        ⟨{ Token := "tok", ExpiresAt := Hour }, rfl, by decide⟩),
   ((CSRF_ValidateToken_result sampleCSRF (fun _ => 2 * Hour) "tok").2.1
      { Token := "tok", ExpiresAt := Hour } rfl (by decide)).1,
   ((CSRF_ValidateToken_result sampleCSRF (fun _ => 2 * Hour) "tok").2.1
      { Token := "tok", ExpiresAt := Hour } rfl (by decide)).2.1⟩

/-- No call on the CSRF store changes the lifetime it gives to tokens. -/
theorem csrf_callAt_tokenExpiry (c : CSRFProtection) (t : Int) (call : CSRFCall) :
    (c.callAt t call).tokenExpiry = c.tokenExpiry := by
  cases call with
  | Generate random =>
    cases random with
    | none => rfl
    | some s => rfl
  | Validate s =>
    simp only [CSRFProtection.callAt, CSRFProtection.ValidateToken]
    cases c.tokens s with
    | none => rfl
    | some e => by_cases h : Time.Before t e.ExpiresAt = true <;> simp [h]

/-- What one call leaves under a key: an issuance of that very string writes a new
entry, any other call leaves the entry or removes it. -/
theorem csrf_callAt_tokens (c : CSRFProtection) (t : Int) (call : CSRFCall) (k : String) :
    (c.callAt t call).tokens k = none ∨ (c.callAt t call).tokens k = c.tokens k ∨
      (call = .Generate (some k) ∧
        (c.callAt t call).tokens k = some { Token := k, ExpiresAt := t + c.tokenExpiry }) := by
  cases call with
  | Generate random =>
    cases random with
    | none => right; left; rfl
    | some s =>
      by_cases hs : k = s
      · subst hs
        by_cases h : t > t + c.tokenExpiry
        · left
          simp [CSRFProtection.callAt, CSRFProtection.GenerateToken,
            CSRFProtection.cleanExpiredTokens, mapSet, Time.After, Time.Add, h]
        · right; right
          simp [CSRFProtection.callAt, CSRFProtection.GenerateToken,
            CSRFProtection.cleanExpiredTokens, mapSet, Time.After, Time.Add, h]
      · cases hk : c.tokens k with
        | none =>
          left
          simp [CSRFProtection.callAt, CSRFProtection.GenerateToken,
            CSRFProtection.cleanExpiredTokens, mapSet, hs, hk]
        | some e =>
          by_cases h : t > e.ExpiresAt
          · left
            simp [CSRFProtection.callAt, CSRFProtection.GenerateToken,
              CSRFProtection.cleanExpiredTokens, mapSet, hs, hk, Time.After, h]
          · right; left
            simp [CSRFProtection.callAt, CSRFProtection.GenerateToken,
              CSRFProtection.cleanExpiredTokens, mapSet, hs, hk, Time.After, h]
  | Validate s =>
    simp only [CSRFProtection.callAt, CSRFProtection.ValidateToken]
    cases hs : c.tokens s with
    | none => right; left; rfl
    | some e =>
      by_cases h : Time.Before t e.ExpiresAt = true
      · right; left; simp [h]
      · by_cases hk : k = s
        · left; simp [h, mapDelete, hk]
        · right; left; simp [h, mapDelete, hk]

/-- An entry that is still unexpired at `now` survives a call made no later than
`now`, unless the call validates some other expired entry; it is never removed. -/
theorem csrf_callAt_keeps_live (c : CSRFProtection) (t now : Int) (call : CSRFCall)
    (k : String) (ht : t ≤ now) (hpos : 0 < c.tokenExpiry)
    (hnew : now < t + c.tokenExpiry)
    (hlive : ∃ e, c.tokens k = some e ∧ now < e.ExpiresAt) :
    ∃ e, (c.callAt t call).tokens k = some e ∧ now < e.ExpiresAt := by
  obtain ⟨e, he, hexp⟩ := hlive
  cases call with
  | Generate random =>
    cases random with
    | none => exact ⟨e, he, hexp⟩
    | some s =>
      by_cases hs : k = s
      · subst hs
        have h : ¬ t > t + c.tokenExpiry := by omega
        exact ⟨{ Token := k, ExpiresAt := t + c.tokenExpiry }, by
          simp [CSRFProtection.callAt, CSRFProtection.GenerateToken,
            CSRFProtection.cleanExpiredTokens, mapSet, Time.After, Time.Add, h], hnew⟩
      · have h : ¬ t > e.ExpiresAt := by omega
        exact ⟨e, by
          simp [CSRFProtection.callAt, CSRFProtection.GenerateToken,
            CSRFProtection.cleanExpiredTokens, mapSet, hs, he, Time.After, h], hexp⟩
  | Validate s =>
    simp only [CSRFProtection.callAt, CSRFProtection.ValidateToken]
    cases hs : c.tokens s with
    | none => exact ⟨e, he, hexp⟩
    | some e2 =>
      by_cases h : Time.Before t e2.ExpiresAt = true
      · simp only [h, if_true]; exact ⟨e, he, hexp⟩
      · have hk : k ≠ s := by
          intro hks
          subst hks
          rw [he] at hs
          cases hs
          apply h
          simp [Time.Before]
          omega
        exact ⟨e, by simp [h, mapDelete, hk, he], hexp⟩

/-- After a run of calls made between the issuance and `now`, a token issued at
`t0` is still in the store and unexpired at `now`, if `now` is before
`t0 + tokenExpiry`. -/
theorem csrf_callsAt_keeps_live (k : String) (t0 now : Int) (calls : List (Int × CSRFCall)) :
    ∀ c : CSRFProtection, 0 < c.tokenExpiry → now < t0 + c.tokenExpiry →
      (∀ p ∈ calls, t0 ≤ p.1 ∧ p.1 ≤ now) →
      (∃ e, c.tokens k = some e ∧ now < e.ExpiresAt) →
      ∃ e, (c.callsAt calls).tokens k = some e ∧ now < e.ExpiresAt := by
  induction calls with
  | nil => intro c _ _ _ h; exact h
  | cons p rest ih =>
    intro c hpos hnow hcalls hlive
    have hp := hcalls p (by simp)
    simp only [CSRFProtection.callsAt]
    apply ih
    · rw [csrf_callAt_tokenExpiry]; exact hpos
    · rw [csrf_callAt_tokenExpiry]; exact hnow
    · intro q hq; exact hcalls q (by simp [hq])
    · exact csrf_callAt_keeps_live c p.1 now p.2 k hp.2 hpos (by omega) hlive

/-- A run of calls that never issues the string `k` puts no entry under `k` that
was not there, and leaves the lifetime of tokens as it was. -/
theorem csrf_callsAt_no_new_entry (k : String) (calls : List (Int × CSRFCall)) :
    ∀ c : CSRFProtection, (∀ p ∈ calls, p.2 ≠ .Generate (some k)) →
      (c.callsAt calls).tokens k = none ∨ (c.callsAt calls).tokens k = c.tokens k := by
  induction calls with
  | nil => intro c _; right; rfl
  | cons p rest ih =>
    intro c hcalls
    simp only [CSRFProtection.callsAt]
    have hp := hcalls p (by simp)
    rcases ih (c.callAt p.1 p.2) (fun q hq => hcalls q (by simp [hq])) with h | h
    · left; exact h
    · rcases csrf_callAt_tokens c p.1 p.2 k with h2 | h2 | h2
      · left; rw [h, h2]
      · right; rw [h, h2]
      · exact absurd h2.1 hp

/-- The entry a fresh issuance leaves under its own string. -/
theorem csrf_GenerateToken_entry (c : CSRFProtection) (hpos : 0 < c.tokenExpiry) (t0 : Int)
    (token : String) :
    (c.GenerateToken (fun _ => t0) (some token)).2.tokens token
      = some { Token := token, ExpiresAt := t0 + c.tokenExpiry } ∧
    (c.GenerateToken (fun _ => t0) (some token)).2.tokenExpiry = c.tokenExpiry := by
  have h : ¬ t0 > t0 + c.tokenExpiry := by omega
  simp [CSRFProtection.GenerateToken, CSRFProtection.cleanExpiredTokens, mapSet,
    Time.After, Time.Add, h]

/-- C11. For a store with a positive `tokenExpiry`, a token issued at `t0`:
(a) is accepted at every instant `now` before `t0 + tokenExpiry`, whatever
issuances and validations (of this or of other strings) were made in between, at
instants between `t0` and `now`; (b) is rejected at every instant from
`t0 + tokenExpiry` on, whatever other strings were issued or validated in between;
and (c) in a store that started empty, a string that no issuance has returned is
rejected at every instant. -/
theorem CSRF_token_lifetime (c : CSRFProtection) (hpos : 0 < c.tokenExpiry) (t0 now : Int)
    (token : String) (calls : List (Int × CSRFCall)) :
    (c.GenerateToken (fun _ => t0) (some token)).1 = some token ∧
    ((∀ p ∈ calls, t0 ≤ p.1 ∧ p.1 ≤ now) → now < t0 + c.tokenExpiry →
      (((c.GenerateToken (fun _ => t0) (some token)).2.callsAt calls).ValidateToken
        (fun _ => now) token).1 = true) ∧
    ((∀ p ∈ calls, p.2 ≠ .Generate (some token)) → t0 + c.tokenExpiry ≤ now →
      (((c.GenerateToken (fun _ => t0) (some token)).2.callsAt calls).ValidateToken
        (fun _ => now) token).1 = false) ∧
    (∀ (e : Int) (s : String), (∀ p ∈ calls, p.2 ≠ .Generate (some s)) →
      (((NewCSRFProtection e).callsAt calls).ValidateToken (fun _ => now) s).1 = false) := by
  obtain ⟨hentry, hexpiry⟩ := csrf_GenerateToken_entry c hpos t0 token
  refine ⟨rfl, ?_, ?_, ?_⟩
  · intro hcalls hnow
    obtain ⟨e, he, hlive⟩ := csrf_callsAt_keeps_live token t0 now calls
      (c.GenerateToken (fun _ => t0) (some token)).2 (by rw [hexpiry]; exact hpos)
      (by rw [hexpiry]; exact hnow) hcalls ⟨_, hentry, hnow⟩
    simp [CSRFProtection.ValidateToken, he, Time.Before, hlive]
  · intro hcalls hnow
    rcases csrf_callsAt_no_new_entry token calls
      (c.GenerateToken (fun _ => t0) (some token)).2 hcalls with h | h
    · simp [CSRFProtection.ValidateToken, h]
    · rw [hentry] at h
      have hlt : ¬ now < t0 + c.tokenExpiry := by omega
      simp [CSRFProtection.ValidateToken, h, Time.Before, hlt]
  · intro e s hcalls
    rcases csrf_callsAt_no_new_entry s calls (NewCSRFProtection e) hcalls with h | h
    · simp [CSRFProtection.ValidateToken, h]
    · have h2 : ((NewCSRFProtection e).callsAt calls).tokens s = none := by
        rw [h]; rfl
      simp [CSRFProtection.ValidateToken, h2]

/-- Witness of C11: "tok" issued at 0 with one hour to live is accepted at minute
30 after the sample calls, rejected at hour 1, and "never-issued" is rejected. -/
theorem CSRF_token_lifetime_witness :
    ((((NewCSRFProtection Hour).GenerateToken (fun _ => 0) (some "tok")).2.callsAt
        sampleCSRFCalls).ValidateToken (fun _ => 30 * Minute) "tok").1 = true ∧
    ((((NewCSRFProtection Hour).GenerateToken (fun _ => 0) (some "tok")).2.callsAt
        sampleCSRFCalls).ValidateToken (fun _ => Hour) "tok").1 = false ∧
    (((NewCSRFProtection Hour).callsAt sampleCSRFCalls).ValidateToken
        (fun _ => 30 * Minute) "never-issued").1 = false :=
  ⟨(CSRF_token_lifetime (NewCSRFProtection Hour) (by decide) 0 (30 * Minute) "tok"
      sampleCSRFCalls).2.1 (by decide) (by decide),
   (CSRF_token_lifetime (NewCSRFProtection Hour) (by decide) 0 Hour "tok"
      sampleCSRFCalls).2.2.1 (by decide) (by decide),
   (CSRF_token_lifetime (NewCSRFProtection Hour) (by decide) 0 (30 * Minute) "tok"
      sampleCSRFCalls).2.2.2 Hour "never-issued" (by decide)⟩

/-- C12. `CSRFProtection.Middleware` hands a GET, HEAD or OPTIONS request to the
next handler with the world untouched, whatever the token store holds. For any
other method it hands the request on exactly when the `X-CSRF-Token` header is
non-empty and `ValidateToken` accepts it; otherwise it answers 403 and the
outcome is the same for every next handler, which is not run. -/
theorem CSRFMiddleware_gate (s : World) (w : Response) (r : Request) :
    ((r.Method = "GET" ∨ r.Method = "HEAD" ∨ r.Method = "OPTIONS") →
      ∀ next : Handler, CSRFMiddleware next s w r = next s w r) ∧
    (¬ (r.Method = "GET" ∨ r.Method = "HEAD" ∨ r.Method = "OPTIONS") →
      (r.Header "X-CSRF-Token" ≠ "" ∧
        (s.csrfProtection.ValidateToken s.clock (r.Header "X-CSRF-Token")).1 = true →
          ∀ next : Handler, CSRFMiddleware next s w r = next (s.tick 1) w r) ∧
      (¬ (r.Header "X-CSRF-Token" ≠ "" ∧
        (s.csrfProtection.ValidateToken s.clock (r.Header "X-CSRF-Token")).1 = true) →
          ∃ msg s1, ∀ next : Handler,
            CSRFMiddleware next s w r = (httpError w msg StatusForbidden, s1))) := by
  constructor
  · intro hsafe next
    simp only [CSRFMiddleware, MethodGet, MethodHead, MethodOptions]
    rw [if_pos (by simpa [or_assoc] using hsafe)]
  · intro hunsafe
    have hcond : ¬ ((r.Method == MethodGet || r.Method == MethodHead ||
        r.Method == MethodOptions) = true) := by
      simpa [MethodGet, MethodHead, MethodOptions, and_assoc] using hunsafe
    constructor
    · rintro ⟨htok, hval⟩ next
      have htok2 : ¬ ((r.Header "X-CSRF-Token" == "") = true) := by simpa using htok
      simp only [CSRFMiddleware, if_neg hcond, if_neg htok2]
      cases hlook : s.csrfProtection.tokens (r.Header "X-CSRF-Token") with
      | none => simp [CSRFProtection.ValidateToken, hlook] at hval
      | some e =>
        by_cases hexp : Time.Before (s.clock 0) e.ExpiresAt = true
        · simp [CSRFProtection.ValidateToken, hlook, hexp, World.tick]
        · simp [CSRFProtection.ValidateToken, hlook, hexp] at hval
    · intro hrej
      by_cases htok : r.Header "X-CSRF-Token" = ""
      · exact ⟨_, s, fun next => by
          simp only [CSRFMiddleware, if_neg hcond]
          rw [if_pos (by simpa using htok)]⟩
      · have hval : (s.csrfProtection.ValidateToken s.clock (r.Header "X-CSRF-Token")).1
            = false := by
          cases h : (s.csrfProtection.ValidateToken s.clock (r.Header "X-CSRF-Token")).1
          · rfl
          · exact absurd ⟨htok, h⟩ hrej
        have htok2 : ¬ ((r.Header "X-CSRF-Token" == "") = true) := by simpa using htok
        exact ⟨_, _, fun next => by
          simp only [CSRFMiddleware, if_neg hcond, if_neg htok2, hval]
          rfl⟩

/-- Witness of C12: a POST with the live token "tok" reaches the next handler; the
same POST at hour 2, when "tok" has expired, is answered 403. -/
theorem CSRFMiddleware_gate_witness :
    CSRFMiddleware reached sampleWorld Response.new sampleRequest
      = reached (sampleWorld.tick 1) Response.new sampleRequest ∧
    (CSRFMiddleware reached { sampleWorld with clock := fun _ => 2 * Hour } Response.new
      sampleRequest).1.Status = some StatusForbidden := by
  refine ⟨((CSRFMiddleware_gate sampleWorld Response.new sampleRequest).2
      (by decide)).1 ⟨by decide, by decide⟩ reached, ?_⟩
  obtain ⟨msg, s1, h⟩ :=
    ((CSRFMiddleware_gate { sampleWorld with clock := fun _ => 2 * Hour } Response.new
      sampleRequest).2 (by decide)).2 (by decide)
  rw [h reached]
  rfl

/-! ## Authentication gate -/

/-- What `AuthMiddleware` does once the header has the shape `Bearer <token>`
and `ValidateToken` has accepted the token with claims `claims`. -/
theorem AuthMiddleware_accepted (codec : JWTCodec) (next : Handler) (s : World)
    (w : Response) (r : Request) (claims : Claims)
    (hne : r.Header "Authorization" ≠ "")
    (hshape : (stringsSplit (r.Header "Authorization") ' ').length = 2 ∧
      (stringsSplit (r.Header "Authorization") ' ').getD 0 "" = "Bearer")
    (hval : ValidateToken s.clock
      (codec.decode ((stringsSplit (r.Header "Authorization") ' ').getD 1 "")) = .ok claims) :
    AuthMiddleware codec next s w r =
      if ShouldRefreshToken (s.tick (parseClockReads
          (codec.decode ((stringsSplit (r.Header "Authorization") ' ').getD 1 "")))).clock
          claims then
        match GenerateToken ((s.tick (parseClockReads
            (codec.decode ((stringsSplit (r.Header "Authorization") ' ').getD 1 "")))).tick
              1).clock claims.UserID claims.Username claims.TipoPerfilID with
        | .ok newToken =>
          next (((s.tick (parseClockReads
              (codec.decode ((stringsSplit (r.Header "Authorization") ' ').getD 1 "")))).tick
                1).tick 3)
            (w.headerAdd HeaderNewToken (codec.encode newToken))
            { r with
              Ctx := withValue (withValue (withValue r.Ctx UserIDKey (.int64 claims.UserID))
                UsernameKey (.string claims.Username)) TipoPerfilIDKey
                (.int claims.TipoPerfilID) }
        | .error _ =>
          next (((s.tick (parseClockReads
              (codec.decode ((stringsSplit (r.Header "Authorization") ' ').getD 1 "")))).tick
                1).tick 3) w
            { r with
              Ctx := withValue (withValue (withValue r.Ctx UserIDKey (.int64 claims.UserID))
                UsernameKey (.string claims.Username)) TipoPerfilIDKey
                (.int claims.TipoPerfilID) }
      else
        next (if claims.ExpiresAt.isSome then
            (s.tick (parseClockReads
              (codec.decode ((stringsSplit (r.Header "Authorization") ' ').getD 1 "")))).tick 1
          else s.tick (parseClockReads
              (codec.decode ((stringsSplit (r.Header "Authorization") ' ').getD 1 ""))))
          w
          { r with
            Ctx := withValue (withValue (withValue r.Ctx UserIDKey (.int64 claims.UserID))
              UsernameKey (.string claims.Username)) TipoPerfilIDKey
              (.int claims.TipoPerfilID) } := by
  have h1 : ¬ ((r.Header "Authorization" == "") = true) := by simpa using hne
  have h2 : ¬ (((stringsSplit (r.Header "Authorization") ' ').length != 2 ||
      (stringsSplit (r.Header "Authorization") ' ').getD 0 "" != "Bearer") = true) := by
    intro h
    simp only [Bool.or_eq_true, bne_iff_ne, ne_eq] at h
    rcases h with h | h
    · exact h hshape.1
    · exact h hshape.2
  simp only [AuthMiddleware, if_neg h1, if_neg h2, hval]
  by_cases hr : ShouldRefreshToken (s.tick (parseClockReads
      (codec.decode ((stringsSplit (r.Header "Authorization") ' ').getD 1 "")))).clock
      claims = true
  · have hsome : claims.ExpiresAt.isSome = true := by
      cases he : claims.ExpiresAt with
      | none => simp [ShouldRefreshToken, he] at hr
      | some e => rfl
    simp only [hr, if_true, hsome]
  · simp only [hr, if_false]
    rfl

/-- C13. With `h` the `Authorization` header: `AuthMiddleware` answers 401, the
same for every next handler (which is not run), when `h` is empty, when `h` split
on single spaces is not exactly two parts with first part "Bearer", and when
`ValidateToken` rejects the second part; in every other case the outcome is that
of one run of the next handler. -/
theorem AuthMiddleware_gate (codec : JWTCodec) (s : World) (w : Response) (r : Request) :
    (r.Header "Authorization" = "" →
      ∀ next : Handler, AuthMiddleware codec next s w r
        = (httpError w "Autorização necessária" StatusUnauthorized, s)) ∧
    (r.Header "Authorization" ≠ "" →
      ¬ ((stringsSplit (r.Header "Authorization") ' ').length = 2 ∧
        (stringsSplit (r.Header "Authorization") ' ').getD 0 "" = "Bearer") →
      ∀ next : Handler, AuthMiddleware codec next s w r
        = (httpError w "Formato de autorização inválido" StatusUnauthorized, s)) ∧
    (∀ err, r.Header "Authorization" ≠ "" →
      ((stringsSplit (r.Header "Authorization") ' ').length = 2 ∧
        (stringsSplit (r.Header "Authorization") ' ').getD 0 "" = "Bearer") →
      ValidateToken s.clock
        (codec.decode ((stringsSplit (r.Header "Authorization") ' ').getD 1 "")) = .error err →
      ∀ next : Handler, AuthMiddleware codec next s w r
        = (httpError w ("Token inválido: " ++ err.Error) StatusUnauthorized,
           s.tick (parseClockReads
             (codec.decode ((stringsSplit (r.Header "Authorization") ' ').getD 1 ""))))) ∧
    (∀ claims, r.Header "Authorization" ≠ "" →
      ((stringsSplit (r.Header "Authorization") ' ').length = 2 ∧
        (stringsSplit (r.Header "Authorization") ' ').getD 0 "" = "Bearer") →
      ValidateToken s.clock
        (codec.decode ((stringsSplit (r.Header "Authorization") ' ').getD 1 "")) = .ok claims →
      ∃ s1 w1 r1, ∀ next : Handler, AuthMiddleware codec next s w r = next s1 w1 r1) ∧
    StatusUnauthorized = 401 := by
  refine ⟨?_, ?_, ?_, ?_, rfl⟩
  · intro h next
    simp only [AuthMiddleware]
    rw [if_pos (by simpa using h)]
  · intro hne hshape next
    have h1 : ¬ ((r.Header "Authorization" == "") = true) := by simpa using hne
    have h2 : ((stringsSplit (r.Header "Authorization") ' ').length != 2 ||
        (stringsSplit (r.Header "Authorization") ' ').getD 0 "" != "Bearer") = true := by
      simp only [Bool.or_eq_true, bne_iff_ne, ne_eq]
      by_cases hl : (stringsSplit (r.Header "Authorization") ' ').length = 2
      · right; intro hb; exact hshape ⟨hl, hb⟩
      · left; exact hl
    simp only [AuthMiddleware, if_neg h1, if_pos h2]
  · intro err hne hshape hval next
    have h1 : ¬ ((r.Header "Authorization" == "") = true) := by simpa using hne
    have h2 : ¬ (((stringsSplit (r.Header "Authorization") ' ').length != 2 ||
        (stringsSplit (r.Header "Authorization") ' ').getD 0 "" != "Bearer") = true) := by
      intro h
      simp only [Bool.or_eq_true, bne_iff_ne, ne_eq] at h
      rcases h with h | h
      · exact h hshape.1
      · exact h hshape.2
    simp only [AuthMiddleware, if_neg h1, if_neg h2, hval]
  · intro claims hne hshape hval
    by_cases hr : ShouldRefreshToken (s.tick (parseClockReads
        (codec.decode ((stringsSplit (r.Header "Authorization") ' ').getD 1 "")))).clock
        claims = true
    · exact ⟨_, _, _, fun next => by
        rw [AuthMiddleware_accepted codec next s w r claims hne hshape hval, if_pos hr]
        rfl⟩
    · exact ⟨_, _, _, fun next => by
        rw [AuthMiddleware_accepted codec next s w r claims hne hshape hval, if_neg hr]⟩

/-- Witness of C13: the sample request, which presents `Bearer ana.jwt`, gets
through; the same request without the header is answered 401. -/
theorem AuthMiddleware_gate_witness :
    (∃ s1 w1 r1, ∀ next : Handler,
      AuthMiddleware sampleCodec next sampleWorld Response.new sampleRequest
        = next s1 w1 r1) ∧
    AuthMiddleware sampleCodec reached sampleWorld Response.new
        { sampleRequest with Header := fun _ => "" }
      = (httpError Response.new "Autorização necessária" StatusUnauthorized, sampleWorld) :=
  ⟨(AuthMiddleware_gate sampleCodec sampleWorld Response.new sampleRequest).2.2.2.1
      { UserID := 7, Username := "ana", TipoPerfilID := 1, TokenType := "access",
        ExpiresAt := some Hour, IssuedAt := some 0, NotBefore := some 0,
        Issuer := "api-seguradoras", Subject := "7" }
      (by decide) (by decide) rfl,
   (AuthMiddleware_gate sampleCodec sampleWorld Response.new
      { sampleRequest with Header := fun _ => "" }).1 rfl reached⟩

/-- C14. For a request that passes authentication with claims `claims`: the next
handler is run, on a request whose context gives back the user id, the username
and the profile-type id of `claims`; when `ShouldRefreshToken claims` is true the
response header gains one `X-New-Access-Token` entry, whose value is the access
token that `GenerateToken` mints for that identity, and when it is false the
response header is left as it was. -/
theorem AuthMiddleware_identity_and_rotation (codec : JWTCodec) (s : World) (w : Response)
    (r : Request) (claims : Claims)
    (hne : r.Header "Authorization" ≠ "")
    (hshape : (stringsSplit (r.Header "Authorization") ' ').length = 2 ∧
      (stringsSplit (r.Header "Authorization") ' ').getD 0 "" = "Bearer")
    (hval : ValidateToken s.clock
      (codec.decode ((stringsSplit (r.Header "Authorization") ' ').getD 1 "")) = .ok claims) :
    ∃ s1 w1 r1,
      (∀ next : Handler, AuthMiddleware codec next s w r = next s1 w1 r1) ∧
      GetUserIDFromContext r1.Ctx = (claims.UserID, true) ∧
      GetUsernameFromContext r1.Ctx = (claims.Username, true) ∧
      GetTipoPerfilIDFromContext r1.Ctx = (claims.TipoPerfilID, true) ∧
      (ShouldRefreshToken (s.tick (parseClockReads
          (codec.decode ((stringsSplit (r.Header "Authorization") ' ').getD 1 "")))).clock
          claims = true →
        ∃ newToken c,
          GenerateToken ((s.tick (parseClockReads
            (codec.decode ((stringsSplit (r.Header "Authorization") ' ').getD 1 "")))).tick
              1).clock claims.UserID claims.Username claims.TipoPerfilID = .ok newToken ∧
          newToken.claims? = some c ∧ c.TokenType = "access" ∧
          c.UserID = claims.UserID ∧ c.Username = claims.Username ∧
          c.TipoPerfilID = claims.TipoPerfilID ∧
          w1 = w.headerAdd HeaderNewToken (codec.encode newToken) ∧
          w1.headerValues HeaderNewToken
            = w.headerValues HeaderNewToken ++ [codec.encode newToken]) ∧
      (ShouldRefreshToken (s.tick (parseClockReads
          (codec.decode ((stringsSplit (r.Header "Authorization") ' ').getD 1 "")))).clock
          claims = false → w1 = w) := by
  obtain ⟨t, ht, hkind, huid, hname, hperfil⟩ :=
    generateTokenWithType_kind ((s.tick (parseClockReads
      (codec.decode ((stringsSplit (r.Header "Authorization") ' ').getD 1 "")))).tick 1).clock
      claims.UserID claims.Username claims.TipoPerfilID "access" TokenExpiration
  have hgen : GenerateToken ((s.tick (parseClockReads
      (codec.decode ((stringsSplit (r.Header "Authorization") ' ').getD 1 "")))).tick 1).clock
      claims.UserID claims.Username claims.TipoPerfilID = .ok (.jwt t) := ht
  by_cases hr : ShouldRefreshToken (s.tick (parseClockReads
      (codec.decode ((stringsSplit (r.Header "Authorization") ' ').getD 1 "")))).clock
      claims = true
  · refine ⟨((s.tick (parseClockReads
        (codec.decode ((stringsSplit (r.Header "Authorization") ' ').getD 1 "")))).tick
          1).tick 3,
      w.headerAdd HeaderNewToken (codec.encode (.jwt t)),
      { r with
        Ctx := withValue (withValue (withValue r.Ctx UserIDKey (.int64 claims.UserID))
          UsernameKey (.string claims.Username)) TipoPerfilIDKey
          (.int claims.TipoPerfilID) },
      fun next => by
        rw [AuthMiddleware_accepted codec next s w r claims hne hshape hval, if_pos hr,
          hgen],
      rfl, rfl, rfl, ?_, ?_⟩
    · intro _
      refine ⟨.jwt t, t.claims, hgen, rfl, hkind, huid, hname, hperfil, rfl, ?_⟩
      simp [Response.headerAdd, Response.headerValues, List.filter_append]
    · intro hf; rw [hr] at hf; cases hf
  · refine ⟨if claims.ExpiresAt.isSome then
          (s.tick (parseClockReads
            (codec.decode ((stringsSplit (r.Header "Authorization") ' ').getD 1 "")))).tick 1
        else s.tick (parseClockReads
            (codec.decode ((stringsSplit (r.Header "Authorization") ' ').getD 1 ""))),
      w,
      { r with
        Ctx := withValue (withValue (withValue r.Ctx UserIDKey (.int64 claims.UserID))
          UsernameKey (.string claims.Username)) TipoPerfilIDKey
          (.int claims.TipoPerfilID) },
      fun next => by
        rw [AuthMiddleware_accepted codec next s w r claims hne hshape hval, if_neg hr],
      rfl, rfl, rfl, ?_, ?_⟩
    · intro ht2; exact absurd ht2 hr
    · intro _; rfl

/-- Witness of C14: the sample request is passed on with the identity of
`sampleClaims` in its context. -/
theorem AuthMiddleware_identity_and_rotation_witness :
    ∃ s1 w1 r1,
      (∀ next : Handler,
        AuthMiddleware sampleCodec next sampleWorld Response.new sampleRequest
          = next s1 w1 r1) ∧
      GetUserIDFromContext r1.Ctx = (7, true) ∧
      GetUsernameFromContext r1.Ctx = ("ana", true) ∧
      GetTipoPerfilIDFromContext r1.Ctx = (1, true) := by
  obtain ⟨s1, w1, r1, h1, h2, h3, h4, -⟩ :=
    AuthMiddleware_identity_and_rotation sampleCodec sampleWorld Response.new sampleRequest
      sampleClaims (by decide) (by decide) rfl
  exact ⟨s1, w1, r1, h1, h2, h3, h4⟩

/-- C15, counterexample. The sample request is authenticated at minute 45 with
claims that expire at hour 1, so `ShouldRefreshToken` is true: the response gets
the header `X-New-Access-Token` and no header `X-New-Refresh-Token`. -/
theorem AuthMiddleware_sets_no_refresh_header :
    ValidateToken sampleWorld.clock sampleAccess = .ok sampleClaims ∧
    ShouldRefreshToken sampleWorld.clock sampleClaims = true ∧
    (AuthMiddleware sampleCodec reached sampleWorld Response.new
      sampleRequest).1.headerValues HeaderNewToken = ["access:ana"] ∧
    (AuthMiddleware sampleCodec reached sampleWorld Response.new
      sampleRequest).1.headerValues HeaderNewRefreshToken = [] :=
  ⟨rfl, rfl, by decide, by decide⟩

/-- C15, amended. Whenever `AuthMiddleware` rotates credentials for an
authenticated request (`ShouldRefreshToken` is true), the next handler is run on a
response whose header has gained one entry, `X-New-Access-Token` with a new
access token; the entries under `X-New-Refresh-Token` are as they were. -/
theorem AuthMiddleware_rotates_access_only (codec : JWTCodec) (s : World) (w : Response)
    (r : Request) (claims : Claims)
    (hne : r.Header "Authorization" ≠ "")
    (hshape : (stringsSplit (r.Header "Authorization") ' ').length = 2 ∧
      (stringsSplit (r.Header "Authorization") ' ').getD 0 "" = "Bearer")
    (hval : ValidateToken s.clock
      (codec.decode ((stringsSplit (r.Header "Authorization") ' ').getD 1 "")) = .ok claims)
    (hrefresh : ShouldRefreshToken (s.tick (parseClockReads
        (codec.decode ((stringsSplit (r.Header "Authorization") ' ').getD 1 "")))).clock
        claims = true) :
    ∃ s1 r1 newToken c,
      newToken.claims? = some c ∧ c.TokenType = "access" ∧
      (∀ next : Handler, AuthMiddleware codec next s w r
        = next s1 (w.headerAdd HeaderNewToken (codec.encode newToken)) r1) ∧
      (w.headerAdd HeaderNewToken (codec.encode newToken)).Header
        = w.Header ++ [(HeaderNewToken, codec.encode newToken)] ∧
      (w.headerAdd HeaderNewToken (codec.encode newToken)).headerValues
        HeaderNewRefreshToken = w.headerValues HeaderNewRefreshToken := by
  obtain ⟨t, ht, hkind, -⟩ :=
    generateTokenWithType_kind ((s.tick (parseClockReads
      (codec.decode ((stringsSplit (r.Header "Authorization") ' ').getD 1 "")))).tick 1).clock
      claims.UserID claims.Username claims.TipoPerfilID "access" TokenExpiration
  have hgen : GenerateToken ((s.tick (parseClockReads
      (codec.decode ((stringsSplit (r.Header "Authorization") ' ').getD 1 "")))).tick 1).clock
      claims.UserID claims.Username claims.TipoPerfilID = .ok (.jwt t) := ht
  refine ⟨_, _, .jwt t, t.claims, rfl, hkind, fun next => by
    rw [AuthMiddleware_accepted codec next s w r claims hne hshape hval, if_pos hrefresh,
      hgen], rfl, ?_⟩
  have hkey : ¬ (HeaderNewToken = HeaderNewRefreshToken) := by decide
  simp [Response.headerAdd, Response.headerValues, List.filter_append, hkey]

/-- Witness of C15 amended: the sample request at minute 45. -/
theorem AuthMiddleware_rotates_access_only_witness :
    ∃ s1 r1 newToken,
      ∀ next : Handler, AuthMiddleware sampleCodec next sampleWorld Response.new sampleRequest
        = next s1 (Response.new.headerAdd HeaderNewToken (sampleCodec.encode newToken)) r1 := by
  obtain ⟨s1, r1, newToken, c, -, -, h, -⟩ :=
    AuthMiddleware_rotates_access_only sampleCodec sampleWorld Response.new sampleRequest
      sampleClaims (by decide) (by decide) rfl rfl
  exact ⟨s1, r1, newToken, h⟩

/-- C16. `RequireAdmin` runs the next handler, on the same world, response and
request, exactly when the context holds an `int` profile-type id equal to 1; it
answers 403 when the id held is an `int` other than 1, and 500 when the context
holds no `int` under that key; in both the next handler is not run. -/
theorem RequireAdmin_gate (s : World) (w : Response) (r : Request) :
    (r.Ctx TipoPerfilIDKey = some (.int 1) →
      ∀ next : Handler, RequireAdmin next s w r = next s w r) ∧
    (∀ n, r.Ctx TipoPerfilIDKey = some (.int n) → n ≠ 1 →
      ∀ next : Handler, RequireAdmin next s w r
        = (httpError w "Acesso negado: permissão de administrador necessária"
            StatusForbidden, s)) ∧
    ((∀ n, r.Ctx TipoPerfilIDKey ≠ some (.int n)) →
      ∀ next : Handler, RequireAdmin next s w r
        = (httpError w "Erro ao obter tipo de perfil" StatusInternalServerError, s)) ∧
    StatusForbidden = 403 ∧ StatusInternalServerError = 500 := by
  refine ⟨?_, ?_, ?_, rfl, rfl⟩
  · intro h next
    simp [RequireAdmin, h]
  · intro n h hn next
    simp [RequireAdmin, h, hn]
  · intro h next
    cases hv : r.Ctx TipoPerfilIDKey with
    | none => simp [RequireAdmin, hv]
    | some v =>
      cases v with
      | int n => exact absurd hv (h n)
      | int64 n => simp [RequireAdmin, hv]
      | string str => simp [RequireAdmin, hv]

/-- Witness of C16: profile type 1 passes, profile type 2 is answered 403, and a
request without identity is answered 500. -/
theorem RequireAdmin_gate_witness :
    RequireAdmin reached sampleWorld Response.new
        { sampleRequest with Ctx := withValue (fun _ => none) TipoPerfilIDKey (.int 1) }
      = reached sampleWorld Response.new
        { sampleRequest with Ctx := withValue (fun _ => none) TipoPerfilIDKey (.int 1) } ∧
    RequireAdmin reached sampleWorld Response.new
        { sampleRequest with Ctx := withValue (fun _ => none) TipoPerfilIDKey (.int 2) }
      = (httpError Response.new "Acesso negado: permissão de administrador necessária"
          StatusForbidden, sampleWorld) ∧
    RequireAdmin reached sampleWorld Response.new sampleRequest
      = (httpError Response.new "Erro ao obter tipo de perfil" StatusInternalServerError,
          sampleWorld) :=
  ⟨(RequireAdmin_gate sampleWorld Response.new
      { sampleRequest with Ctx := withValue (fun _ => none) TipoPerfilIDKey (.int 1) }).1
      rfl reached,
   (RequireAdmin_gate sampleWorld Response.new
      { sampleRequest with Ctx := withValue (fun _ => none) TipoPerfilIDKey (.int 2) }).2.1
      2 rfl (by decide) reached,
   (RequireAdmin_gate sampleWorld Response.new sampleRequest).2.2.1
      (by intro n h; cases h) reached⟩

/-! ## Login guard -/

/-- The COUNT query counts the attempts that failed, are of the login or of the
address, and are newer than 15 minutes. -/
theorem countRecentFailures_eq (db : DB) (login ipAddress : String) (now : Int) :
    countRecentFailures db login ipAddress now =
      (db.login_attempts.filter (fun a =>
        decide ((a.login = login ∨ a.ip_address = ipAddress) ∧ a.success = false ∧
          now - 15 * Minute < a.attempt_time))).length := by
  unfold countRecentFailures
  congr 1
  apply List.filter_congr
  intro a _
  by_cases h1 : a.login = login <;> by_cases h2 : a.ip_address = ipAddress <;>
    by_cases h3 : a.success = false <;>
    by_cases h4 : now - 15 * Minute < a.attempt_time <;> simp [h1, h2, h3, h4]

/-- `CheckLoginAttempts` at one instant with a database that answers, in terms of
the count of the query. -/
theorem CheckLoginAttempts_atInstant (s : World) (now : Int) (r : Request) (login : String) :
    AuditService.CheckLoginAttempts (s.atInstant now) r login =
      if countRecentFailures s.db login (getIPAddress r) now ≥ 5 then
        ((true, now + 30 * Minute, none),
          { s.atInstant now with
            db := { s.db with usuarios := lockLogin s.db.usuarios login (now + 30 * Minute) } })
      else ((false, zeroTime, none), s.atInstant now) := by
  by_cases h : countRecentFailures s.db login (getIPAddress r) now ≥ 5
  · simp only [AuditService.CheckLoginAttempts, World.atInstant, World.fault, World.tick,
      Time.Add, h, if_true]
    rfl
  · simp only [AuditService.CheckLoginAttempts, World.atInstant, World.fault, World.tick,
      Time.Add, h, if_false]
    rfl

/-- C17. `CheckLoginAttempts` at the instant `now` counts the recorded attempts
with `success = false` whose login is the given one or whose address is that of the
request, and whose time is within the trailing 15 minutes. With a count of 5 or
more it returns `(true, now + 30 minutes)` without error, and the rows of that
login become locked until `now + 30 minutes`, the other rows and tables staying
as they were; with a count below 5 it returns false and changes nothing. -/
theorem CheckLoginAttempts_counts_and_locks (s : World) (now : Int) (r : Request)
    (login : String) :
    ((s.db.login_attempts.filter (fun a =>
        decide ((a.login = login ∨ a.ip_address = getIPAddress r) ∧ a.success = false ∧
          now - 15 * Minute < a.attempt_time))).length ≥ 5 →
      (AuditService.CheckLoginAttempts (s.atInstant now) r login).1
        = (true, now + 30 * Minute, none) ∧
      (AuditService.CheckLoginAttempts (s.atInstant now) r login).2.db.usuarios
        = s.db.usuarios.map (fun u =>
            if u.Login = login then
              { u with Bloqueado := true, BloqueadoAte := some (now + 30 * Minute) }
            else u) ∧
      (AuditService.CheckLoginAttempts (s.atInstant now) r login).2.db.login_attempts
        = s.db.login_attempts ∧
      (AuditService.CheckLoginAttempts (s.atInstant now) r login).2.db.audit_log
        = s.db.audit_log) ∧
    ((s.db.login_attempts.filter (fun a =>
        decide ((a.login = login ∨ a.ip_address = getIPAddress r) ∧ a.success = false ∧
          now - 15 * Minute < a.attempt_time))).length < 5 →
      (AuditService.CheckLoginAttempts (s.atInstant now) r login).1
        = (false, zeroTime, none) ∧
      (AuditService.CheckLoginAttempts (s.atInstant now) r login).2.db = s.db) := by
  rw [← countRecentFailures_eq, CheckLoginAttempts_atInstant]
  constructor
  · intro h
    rw [if_pos h]
    refine ⟨rfl, ?_, rfl, rfl⟩
    simp [lockLogin]
  · intro h
    rw [if_neg (by omega)]
    exact ⟨rfl, rfl⟩

/-- Witness of C17: with the five failures of minutes 1 to 5 on record, a check
for "ana" at minute 10 locks the account until minute 40; a check at minute 18,
when only two of them are newer than 15 minutes, does not. -/
theorem CheckLoginAttempts_counts_and_locks_witness :
    (AuditService.CheckLoginAttempts (sampleFailedWorld.atInstant (10 * Minute))
        (loginRequest "10.0.0.1" "ana" "x") "ana").1 = (true, 10 * Minute + 30 * Minute, none) ∧
    (AuditService.CheckLoginAttempts (sampleFailedWorld.atInstant (18 * Minute))
        (loginRequest "10.0.0.1" "ana" "x") "ana").1 = (false, zeroTime, none) :=
  ⟨((CheckLoginAttempts_counts_and_locks sampleFailedWorld (10 * Minute)
      (loginRequest "10.0.0.1" "ana" "x") "ana").1 (by decide)).1,
   ((CheckLoginAttempts_counts_and_locks sampleFailedWorld (18 * Minute)
      (loginRequest "10.0.0.1" "ana" "x") "ana").2 (by decide)).1⟩

/-- `IsAccountLocked` at one instant with a database that answers. -/
theorem IsAccountLocked_atInstant (s : World) (now : Int) (login : String) :
    AuditService.IsAccountLocked (s.atInstant now) login =
      match s.db.usuarios.find? (fun u => u.Login == login) with
      | none => ((false, zeroTime, none), s.atInstant now)
      | some row =>
        match row.BloqueadoAte with
        | some bloqueadoAte =>
          if row.Bloqueado = true ∧ bloqueadoAte < now then
            ((false, zeroTime, none),
              { s.atInstant now with
                db := { s.db with usuarios := unlockLogin s.db.usuarios login } })
          else ((row.Bloqueado, bloqueadoAte, none), s.atInstant now)
        | none => ((row.Bloqueado, zeroTime, none), s.atInstant now) := by
  simp only [AuditService.IsAccountLocked, World.atInstant, World.fault, World.tick]
  cases hf : s.db.usuarios.find? (fun u => u.Login == login) with
  | none => rfl
  | some row =>
    cases ha : row.BloqueadoAte with
    | none => simp [ha]
    | some ate =>
      by_cases hb : row.Bloqueado = true
      · by_cases ht : ate < now
        · simp [ha, hb, ht, Time.Before]
        · simp [ha, hb, ht, Time.Before]
      · simp [ha, hb]

/-- Whatever the clock and the database do, a call of `IsAccountLocked` that
returns true has changed no table. -/
theorem IsAccountLocked_true_no_write (s : World) (login : String)
    (h : (AuditService.IsAccountLocked s login).1.1 = true) :
    (AuditService.IsAccountLocked s login).2.db = s.db := by
  revert h
  by_cases hq : s.faults 0 = true
  · simp [AuditService.IsAccountLocked, World.fault, hq]
  · cases hf : s.db.usuarios.find? (fun u => u.Login == login) with
    | none => simp [AuditService.IsAccountLocked, World.fault, hq, hf]
    | some row =>
      cases ha : row.BloqueadoAte with
      | none => simp [AuditService.IsAccountLocked, World.fault, hq, hf, ha]
      | some ate =>
        by_cases hb : row.Bloqueado = true
        · by_cases ht : ate < s.clock 0
          · by_cases he : s.faults 1 = true
            · simp [AuditService.IsAccountLocked, World.fault, World.tick, Time.Before, hq,
                hf, ha, hb, ht, he]
            · simp [AuditService.IsAccountLocked, World.fault, World.tick, Time.Before, hq,
                hf, ha, hb, ht, he]
          · simp [AuditService.IsAccountLocked, World.fault, World.tick, Time.Before, hq,
              hf, ha, hb, ht]
        · simp [AuditService.IsAccountLocked, World.fault, World.tick, Time.Before, hq,
            hf, ha, hb]

/-- C18. `IsAccountLocked` at the instant `now`, for the account found under the
login: it returns the stored lock flag and locked-until (the zero time when none
is stored), except that for a locked account whose locked-until is before `now` it
clears both lock fields and returns false; without a user record it returns false
with no error and no change; and whenever it returns true it has written nothing,
also when the clock moves during the call or the database fails. -/
theorem IsAccountLocked_result (s : World) (now : Int) (login : String) :
    (s.db.usuarios.find? (fun u => u.Login == login) = none →
      AuditService.IsAccountLocked (s.atInstant now) login
        = ((false, zeroTime, none), s.atInstant now)) ∧
    (∀ u ate, s.db.usuarios.find? (fun u => u.Login == login) = some u →
      u.Bloqueado = true → u.BloqueadoAte = some ate → ate < now →
      (AuditService.IsAccountLocked (s.atInstant now) login).1 = (false, zeroTime, none) ∧
      (AuditService.IsAccountLocked (s.atInstant now) login).2.db.usuarios
        = s.db.usuarios.map (fun x =>
            if x.Login = login then { x with Bloqueado := false, BloqueadoAte := none }
            else x) ∧
      (AuditService.IsAccountLocked (s.atInstant now) login).2.db.login_attempts
        = s.db.login_attempts ∧
      (AuditService.IsAccountLocked (s.atInstant now) login).2.db.audit_log
        = s.db.audit_log) ∧
    (∀ u, s.db.usuarios.find? (fun u => u.Login == login) = some u →
      ¬ (u.Bloqueado = true ∧ ∃ ate, u.BloqueadoAte = some ate ∧ ate < now) →
      AuditService.IsAccountLocked (s.atInstant now) login
        = ((u.Bloqueado, u.BloqueadoAte.getD zeroTime, none), s.atInstant now)) ∧
    (∀ w : World, (AuditService.IsAccountLocked w login).1.1 = true →
      (AuditService.IsAccountLocked w login).2.db = w.db) := by
  refine ⟨?_, ?_, ?_, fun w h => IsAccountLocked_true_no_write w login h⟩
  all_goals rw [IsAccountLocked_atInstant]
  · intro h
    rw [h]
  · intro u ate hf hb ha ht
    simp only [hf, ha]
    rw [if_pos ⟨hb, ht⟩]
    refine ⟨rfl, ?_, rfl, rfl⟩
    simp [unlockLogin]
  · intro u hf hn
    simp only [hf]
    cases ha : u.BloqueadoAte with
    | none => rfl
    | some ate =>
      have hc : ¬ (u.Bloqueado = true ∧ ate < now) := fun h => hn ⟨h.1, ate, ha, h.2⟩
      simp only [Option.getD_some]
      rw [if_neg hc]

/-- Witness of C18: "ana" is locked until minute 40; at minute 10 the lock is
reported, at minute 45 it is cleared, and an unknown login is not locked. -/
theorem IsAccountLocked_result_witness :
    AuditService.IsAccountLocked (sampleLockedWorld.atInstant (10 * Minute)) "ana"
      = ((true, 40 * Minute, none), sampleLockedWorld.atInstant (10 * Minute)) ∧
    (AuditService.IsAccountLocked (sampleLockedWorld.atInstant (45 * Minute)) "ana").1
      = (false, zeroTime, none) ∧
    AuditService.IsAccountLocked (sampleLockedWorld.atInstant (10 * Minute)) "bob"
      = ((false, zeroTime, none), sampleLockedWorld.atInstant (10 * Minute)) :=
  ⟨(IsAccountLocked_result sampleLockedWorld (10 * Minute) "ana").2.2.1
      { sampleUser with Bloqueado := true, BloqueadoAte := some (40 * Minute) } rfl
      (by decide),
   ((IsAccountLocked_result sampleLockedWorld (45 * Minute) "ana").2.1
      { sampleUser with Bloqueado := true, BloqueadoAte := some (40 * Minute) }
      (40 * Minute) rfl rfl rfl (by decide)).1,
   (IsAccountLocked_result sampleLockedWorld (10 * Minute) "bob").1 rfl⟩

/-- `LogLoginAttempt` at one instant with a database that answers appends one row. -/
theorem LogLoginAttempt_atInstant (s : World) (t : Int) (r : Request) (login : String)
    (success : Bool) :
    AuditService.LogLoginAttempt (s.atInstant t) r login success =
      (none,
        { s.atInstant t with
          db := { s.db with
            login_attempts := s.db.login_attempts ++
              [{ login := login, ip_address := getIPAddress r, success := success,
                 attempt_time := t }] } }) := rfl

/-- The database after a run of recorded failures: one more row per attempt. -/
theorem recordFailuresAt_db (login : String) (attempts : List (Int × Request)) :
    ∀ s : World, (recordFailuresAt s login attempts).db =
      { s.db with
        login_attempts := s.db.login_attempts ++ attempts.map (fun p =>
          { login := login, ip_address := getIPAddress p.2, success := false,
            attempt_time := p.1 }) } := by
  induction attempts with
  | nil => intro s; simp [recordFailuresAt]
  | cons p rest ih =>
    intro s
    simp only [recordFailuresAt, ih, LogLoginAttempt_atInstant, List.map_cons,
      List.append_assoc, List.singleton_append]

/-- Looking a login up after its rows were locked finds the locked row. -/
theorem find_lockLogin (usuarios : List Usuario) (login : String) (t : Int) :
    (lockLogin usuarios login t).find? (fun u => u.Login == login) =
      (usuarios.find? (fun u => u.Login == login)).map
        (fun u => { u with Bloqueado := true, BloqueadoAte := some t }) := by
  induction usuarios with
  | nil => rfl
  | cons u rest ih =>
    have hcons : lockLogin (u :: rest) login t =
        (if u.Login == login then { u with Bloqueado := true, BloqueadoAte := some t } else u)
          :: lockLogin rest login t := rfl
    rw [hcons, List.find?_cons, List.find?_cons]
    cases hb : (u.Login == login)
    · simp only [Bool.false_eq_true, if_false, hb]
      exact ih
    · simp only [if_true, hb, Option.map_some']

/-- Looking a login up after its rows were unlocked finds the unlocked row. -/
theorem find_unlockLogin (usuarios : List Usuario) (login : String) :
    (unlockLogin usuarios login).find? (fun u => u.Login == login) =
      (usuarios.find? (fun u => u.Login == login)).map
        (fun u => { u with Bloqueado := false, BloqueadoAte := none }) := by
  induction usuarios with
  | nil => rfl
  | cons u rest ih =>
    have hcons : unlockLogin (u :: rest) login =
        (if u.Login == login then { u with Bloqueado := false, BloqueadoAte := none } else u)
          :: unlockLogin rest login := rfl
    rw [hcons, List.find?_cons, List.find?_cons]
    cases hb : (u.Login == login)
    · simp only [Bool.false_eq_true, if_false, hb]
      exact ih
    · simp only [if_true, hb, Option.map_some']

/-- After the rows of a login were unlocked, none of them is locked. -/
theorem unlockLogin_unlocked (usuarios : List Usuario) (login : String) :
    ∀ u ∈ unlockLogin usuarios login, u.Login = login → u.Bloqueado = false := by
  intro u hu hl
  simp only [unlockLogin, List.mem_map] at hu
  obtain ⟨x, _, hx⟩ := hu
  by_cases h : x.Login = login
  · simp [h] at hx; rw [← hx]
  · simp [h] at hx; rw [hx] at h; exact absurd hl h

/-- Rows that are all failures of the login and all newer than 15 minutes are
all counted. -/
theorem countRecentFailures_all (db : DB) (login ip : String) (now : Int)
    (h : ∀ a ∈ db.login_attempts, a.login = login ∧ a.success = false ∧
      now - 15 * Minute < a.attempt_time) :
    countRecentFailures db login ip now = db.login_attempts.length := by
  unfold countRecentFailures
  congr 1
  apply List.filter_eq_self.mpr
  intro a ha
  obtain ⟨h1, h2, h3⟩ := h a ha
  simp [h1, h2, h3]

/-- The count never exceeds the number of rows newer than 15 minutes. -/
theorem countRecentFailures_le (db : DB) (login ip : String) (now : Int) :
    countRecentFailures db login ip now ≤
      (db.login_attempts.filter (fun a => decide (now - 15 * Minute < a.attempt_time))).length := by
  unfold countRecentFailures
  apply List.Sublist.length_le
  apply List.monotone_filter_right
  intro a ha
  simp only [Bool.and_eq_true, decide_eq_true_eq] at ha
  simpa using ha.2

/-- C19. From an empty attempt log, record 5 failed attempts for `login` (from
any addresses) within the 15 minutes before `now`: `CheckLoginAttempts` for `login`
from any address at `now` returns `(true, now + 30 minutes)`. With nothing
recorded while the lock is active, `IsAccountLocked` called at `t1`, after the
lock has lapsed, returns false and leaves no row of `login` locked; after that
`CheckLoginAttempts` returns false both before a 6th failed attempt is recorded
(at `tb`) and after it (the attempt at `ta`, the check at `tc`). -/
theorem lock_then_no_relock (s0 : World) (login : String) (attempts : List (Int × Request))
    (now t1 tb ta tc : Int) (r rb ra rc : Request)
    (hempty : s0.db.login_attempts = [])
    (hlen : attempts.length = 5)
    (hrecent : ∀ p ∈ attempts, now - 15 * Minute < p.1 ∧ p.1 ≤ now)
    (hlapsed : now + 30 * Minute < t1) (h1b : t1 ≤ tb) (hba : tb ≤ ta) (hac : ta ≤ tc) :
    let s5 := recordFailuresAt s0 login attempts
    let c6 := AuditService.CheckLoginAttempts (s5.atInstant now) r login
    let l7 := AuditService.IsAccountLocked (c6.2.atInstant t1) login
    let cb := AuditService.CheckLoginAttempts (l7.2.atInstant tb) rb login
    let a := AuditService.LogLoginAttempt (cb.2.atInstant ta) ra login false
    let cc := AuditService.CheckLoginAttempts (a.2.atInstant tc) rc login
    c6.1 = (true, now + 30 * Minute, none) ∧
    l7.1 = (false, zeroTime, none) ∧
    (∀ u ∈ l7.2.db.usuarios, u.Login = login → u.Bloqueado = false) ∧
    cb.1 = (false, zeroTime, none) ∧
    cc.1 = (false, zeroTime, none) := by
  intro s5 c6 l7 cb a cc
  -- the five recorded rows
  have h5 : s5.db = { s0.db with
      login_attempts := attempts.map (fun p =>
        { login := login, ip_address := getIPAddress p.2, success := false,
          attempt_time := p.1 }) } := by
    show (recordFailuresAt s0 login attempts).db = _
    rw [recordFailuresAt_db, hempty, List.nil_append]
  have hrows : ∀ x ∈ s5.db.login_attempts,
      x.login = login ∧ x.success = false ∧ now - 15 * Minute < x.attempt_time ∧
        x.attempt_time ≤ now := by
    intro x hx
    rw [h5] at hx
    simp only [List.mem_map] at hx
    obtain ⟨p, hp, rfl⟩ := hx
    exact ⟨rfl, rfl, (hrecent p hp).1, (hrecent p hp).2⟩
  have hcount : countRecentFailures s5.db login (getIPAddress r) now ≥ 5 := by
    rw [countRecentFailures_all s5.db login _ now
      (fun x hx => ⟨(hrows x hx).1, (hrows x hx).2.1, (hrows x hx).2.2.1⟩), h5]
    simp [hlen]
  -- the check at `now` locks
  have hc6 : c6 = ((true, now + 30 * Minute, none),
      { s5.atInstant now with
        db := { s5.db with usuarios := lockLogin s5.db.usuarios login (now + 30 * Minute) } }) := by
    show AuditService.CheckLoginAttempts (s5.atInstant now) r login = _
    rw [CheckLoginAttempts_atInstant, if_pos hcount]
  have hc6db : c6.2.db =
      { s5.db with usuarios := lockLogin s5.db.usuarios login (now + 30 * Minute) } := by
    rw [hc6]
  -- the lazy unlock at `t1`
  have hl7 : l7.1 = (false, zeroTime, none) ∧
      (∀ u ∈ l7.2.db.usuarios, u.Login = login → u.Bloqueado = false) ∧
      l7.2.db.login_attempts = s5.db.login_attempts := by
    show (AuditService.IsAccountLocked (c6.2.atInstant t1) login).1 = _ ∧
      (∀ u ∈ (AuditService.IsAccountLocked (c6.2.atInstant t1) login).2.db.usuarios, _) ∧
      (AuditService.IsAccountLocked (c6.2.atInstant t1) login).2.db.login_attempts = _
    rw [IsAccountLocked_atInstant, hc6db]
    simp only [find_lockLogin]
    cases hf : s5.db.usuarios.find? (fun u => u.Login == login) with
    | none =>
      simp only [Option.map_none']
      refine ⟨trivial, ?_, ?_⟩
      · intro u hu hlog
        have hnone := List.find?_eq_none.mp hf
        simp only [World.atInstant, hc6db, lockLogin, List.mem_map] at hu
        obtain ⟨x, hx, hxu⟩ := hu
        have hxl := hnone x hx
        by_cases hxe : x.Login = login
        · simp [hxe] at hxl
        · simp [hxe] at hxu
          rw [← hxu] at hlog
          exact absurd hlog hxe
      · simp only [World.atInstant, hc6db]
    | some u0 =>
      simp only [Option.map_some']
      rw [if_pos ⟨trivial, hlapsed⟩]
      exact ⟨rfl, unlockLogin_unlocked _ login, rfl⟩
  -- the old rows have left the window
  have hold : ∀ (db : DB) (ip : String) (t : Int), t1 ≤ t →
      db.login_attempts = s5.db.login_attempts →
      countRecentFailures db login ip t = 0 := by
    intro db ip t ht hdb
    have hle := countRecentFailures_le db login ip t
    have hnil : db.login_attempts.filter
        (fun x => decide (t - 15 * Minute < x.attempt_time)) = [] := by
      apply List.filter_eq_nil_iff.mpr
      intro x hx
      rw [hdb] at hx
      have := (hrows x hx).2.2.2
      simp only [decide_eq_true_eq, not_lt]
      simp only [Minute, Second] at *
      omega
    rw [hnil] at hle
    simpa using hle
  have hcb : cb = ((false, zeroTime, none), l7.2.atInstant tb) := by
    show AuditService.CheckLoginAttempts (l7.2.atInstant tb) rb login = _
    rw [CheckLoginAttempts_atInstant, hold l7.2.db _ tb h1b hl7.2.2]
    rfl
  have hadb : a.2.db.login_attempts = s5.db.login_attempts ++
      [{ login := login, ip_address := getIPAddress ra, success := false,
         attempt_time := ta }] := by
    show (AuditService.LogLoginAttempt (cb.2.atInstant ta) ra login false).2.db.login_attempts
      = _
    rw [LogLoginAttempt_atInstant, hcb]
    show l7.2.db.login_attempts ++ _ = _
    rw [hl7.2.2]
  have hcc : countRecentFailures a.2.db login (getIPAddress rc) tc ≤ 1 := by
    have hle := countRecentFailures_le a.2.db login (getIPAddress rc) tc
    have hfil : (a.2.db.login_attempts.filter
        (fun x => decide (tc - 15 * Minute < x.attempt_time))).length ≤ 1 := by
      rw [hadb, List.filter_append]
      have hnil : s5.db.login_attempts.filter
          (fun x => decide (tc - 15 * Minute < x.attempt_time)) = [] := by
        apply List.filter_eq_nil_iff.mpr
        intro x hx
        have := (hrows x hx).2.2.2
        simp only [decide_eq_true_eq, not_lt]
        simp only [Minute, Second] at *
        omega
      rw [hnil, List.nil_append]
      exact (List.length_filter_le _ _).trans (by simp)
    omega
  refine ⟨by rw [hc6], hl7.1, hl7.2.1, by rw [hcb], ?_⟩
  show (AuditService.CheckLoginAttempts (a.2.atInstant tc) rc login).1 = _
  rw [CheckLoginAttempts_atInstant, if_neg (by omega)]

/-- Witness of C19: five failures for "ana" at minutes 1 to 5, the check at minute
10, the lazy unlock at minute 45, a sixth failure at minute 46. -/
theorem lock_then_no_relock_witness :
    (AuditService.CheckLoginAttempts
      ((recordFailuresAt sampleLoginWorld "ana" sampleAttempts).atInstant (10 * Minute))
      (loginRequest "10.0.0.1" "ana" "x") "ana").1 = (true, 10 * Minute + 30 * Minute, none) :=
  (lock_then_no_relock sampleLoginWorld "ana" sampleAttempts (10 * Minute) (45 * Minute)
    (45 * Minute) (46 * Minute) (47 * Minute) (loginRequest "10.0.0.1" "ana" "x")
    (loginRequest "10.0.0.1" "ana" "x") (loginRequest "10.0.0.1" "ana" "x")
    (loginRequest "10.0.0.1" "ana" "x") rfl rfl (by decide) (by decide) (by decide)
    (by decide) (by decide)).1

/-- The address of a `loginRequest` is its remote address. -/
theorem getIPAddress_loginRequest (addr login senha : String) :
    getIPAddress (loginRequest addr login senha) = addr := rfl

/-- `LogAction` leaves the table `usuarios` as it was. -/
theorem LogAction_usuarios (s : World) (ctx : String → Option GoValue) (r : Request)
    (action entityType entityID details : String) :
    (AuditService.LogAction s ctx r action entityType entityID details).2.db.usuarios
      = s.db.usuarios := by
  by_cases h : s.faults 0 = true <;>
    simp [AuditService.LogAction, World.fault, World.tick, h]

/-- `LogAction` leaves the table `login_attempts` as it was. -/
theorem LogAction_login_attempts (s : World) (ctx : String → Option GoValue) (r : Request)
    (action entityType entityID details : String) :
    (AuditService.LogAction s ctx r action entityType entityID details).2.db.login_attempts
      = s.db.login_attempts := by
  by_cases h : s.faults 0 = true <;>
    simp [AuditService.LogAction, World.fault, World.tick, h]

/-- `IsAccountLocked` for an account that is not locked: false, nothing changes. -/
theorem IsAccountLocked_unlocked (s : World) (t : Int) (login : String) (u : Usuario)
    (hfind : s.db.usuarios.find? (fun x => x.Login == login) = some u)
    (hfree : u.Bloqueado = false) :
    AuditService.IsAccountLocked (s.atInstant t) login
      = ((false, u.BloqueadoAte.getD zeroTime, none), s.atInstant t) := by
  rw [IsAccountLocked_atInstant]
  simp only [hfind]
  cases ha : u.BloqueadoAte with
  | none => simp [hfree]
  | some ate => simp [hfree]

/-- `VerifyPassword` at one instant for an active account that is not locked:
the password check decides. -/
theorem VerifyPassword_unlocked (compare : String → String → Bool) (s : World) (t : Int)
    (login senha : String) (u : Usuario)
    (hfind : s.db.usuarios.find? (fun x => x.Login == login) = some u)
    (hativo : u.Ativo = true) (hfree : u.Bloqueado = false) :
    UsuarioRepository.VerifyPassword compare (s.atInstant t) login senha =
      if compare u.Senha senha then (.ok { u with Senha := "" }, s.atInstant t)
      else (.error "senha incorreta", s.atInstant t) := by
  have hg : UsuarioRepository.GetByLogin (s.atInstant t) login = (.ok u, s.atInstant t) := by
    simp only [UsuarioRepository.GetByLogin, World.atInstant, World.fault]
    simp [hfind]
  simp only [UsuarioRepository.VerifyPassword, hg, hativo, hfree]
  by_cases hc : compare u.Senha senha = true
  · simp [hc, hativo, hfree]
  · simp [hc, hativo, hfree]

/-- A POST with a wrong password for an active, unlocked user with fewer than 5
recent failures: 401, and the failed attempt is recorded. -/
theorem HandleLogin_wrong_password (codec : JWTCodec) (compare : String → String → Bool)
    (s : World) (t : Int) (addr login senha : String) (u : Usuario)
    (hlogin : login ≠ "") (hsenha : senha ≠ "")
    (hfind : s.db.usuarios.find? (fun x => x.Login == login) = some u)
    (hativo : u.Ativo = true) (hfree : u.Bloqueado = false)
    (hwrong : compare u.Senha senha = false)
    (hcount : countRecentFailures s.db login addr t < 5) :
    (HandleLogin codec compare (s.atInstant t) Response.new
        (loginRequest addr login senha)).1
      = httpError Response.new "Credenciais inválidas" StatusUnauthorized ∧
    (HandleLogin codec compare (s.atInstant t) Response.new
        (loginRequest addr login senha)).2.db.usuarios = s.db.usuarios ∧
    (HandleLogin codec compare (s.atInstant t) Response.new
        (loginRequest addr login senha)).2.db.login_attempts
      = s.db.login_attempts ++
        [{ login := login, ip_address := addr, success := false, attempt_time := t }] := by
  have hc : ¬ (countRecentFailures s.db login addr t ≥ 5) := by omega
  have hm : (loginRequest addr login senha).Method = "POST" := rfl
  have hbody : (loginRequest addr login senha).JSON =
      some (fun field => if field = "login" then login
        else if field = "senha" then senha else "") := rfl
  have hl := IsAccountLocked_unlocked s t login u hfind hfree
  have hck : AuditService.CheckLoginAttempts (s.atInstant t) (loginRequest addr login senha)
      login = ((false, zeroTime, none), s.atInstant t) := by
    rw [CheckLoginAttempts_atInstant, getIPAddress_loginRequest, if_neg hc]
  have hv : UsuarioRepository.VerifyPassword compare (s.atInstant t) login senha
      = (.error "senha incorreta", s.atInstant t) := by
    rw [VerifyPassword_unlocked compare s t login senha u hfind hativo hfree, hwrong]
    rfl
  simp [HandleLogin, hm, hbody, MethodPost, hlogin, hsenha, hl, hck, hv,
    LogAction_usuarios, LogAction_login_attempts, LogLoginAttempt_atInstant,
    getIPAddress_loginRequest]

/-- The lockout message of a lock just set: 30 minutes remain, 31 are shown. -/
theorem lockoutMinutes_fresh (t : Int) :
    toString (lockoutMinutes (Time.Sub (t + 30 * Minute) t)) = "31" := by
  have h : Time.Sub (t + 30 * Minute) t = 1800000000000 := by
    rw [timeSub_eq_of_range] <;> simp only [Minute, Second, minDuration, maxDuration] <;> omega
  rw [h]
  rfl

/-- A POST for an active, unlocked user with 5 or more recent failures, whatever
its password: 429 with the lockout message, the account gets locked for 30
minutes and the attempt is recorded as failed. -/
theorem HandleLogin_exceeded (codec : JWTCodec) (compare : String → String → Bool)
    (s : World) (t : Int) (addr login senha : String) (u : Usuario)
    (hlogin : login ≠ "") (hsenha : senha ≠ "")
    (hfind : s.db.usuarios.find? (fun x => x.Login == login) = some u)
    (hfree : u.Bloqueado = false)
    (hcount : countRecentFailures s.db login addr t ≥ 5) :
    (HandleLogin codec compare (s.atInstant t) Response.new
        (loginRequest addr login senha)).1
      = httpError Response.new
          "Muitas tentativas de login. Conta bloqueada por 31 minutos."
          StatusTooManyRequests ∧
    (HandleLogin codec compare (s.atInstant t) Response.new
        (loginRequest addr login senha)).2.db.usuarios
      = lockLogin s.db.usuarios login (t + 30 * Minute) ∧
    (HandleLogin codec compare (s.atInstant t) Response.new
        (loginRequest addr login senha)).2.db.login_attempts
      = s.db.login_attempts ++
        [{ login := login, ip_address := addr, success := false, attempt_time := t }] := by
  have hm : (loginRequest addr login senha).Method = "POST" := rfl
  have hbody : (loginRequest addr login senha).JSON =
      some (fun field => if field = "login" then login
        else if field = "senha" then senha else "") := rfl
  have hl := IsAccountLocked_unlocked s t login u hfind hfree
  have hck : AuditService.CheckLoginAttempts (s.atInstant t) (loginRequest addr login senha)
      login = ((true, t + 30 * Minute, none),
        ({ s with db := { s.db with
            usuarios := lockLogin s.db.usuarios login (t + 30 * Minute) } } : World).atInstant
          t) := by
    rw [CheckLoginAttempts_atInstant, getIPAddress_loginRequest, if_pos hcount]
    rfl
  have hmsg := lockoutMinutes_fresh t
  simp [HandleLogin, hm, hbody, MethodPost, hlogin, hsenha, hl, hck,
    LogAction_usuarios, LogAction_login_attempts, LogLoginAttempt_atInstant,
    getIPAddress_loginRequest, World.tick]
  have hclk : (({ s with db := { s.db with
      usuarios := lockLogin s.db.usuarios login (t + 30 * Minute) } } : World).atInstant
        t).clock 0 = t := rfl
  rw [hclk, hmsg]
  rfl

/-- `IsAccountLocked` for an account whose lock has lapsed: false, and the rows of
the login are unlocked. -/
theorem IsAccountLocked_lapsed (s : World) (t ate : Int) (login : String) (u : Usuario)
    (hfind : s.db.usuarios.find? (fun x => x.Login == login) = some u)
    (hlocked : u.Bloqueado = true) (hate : u.BloqueadoAte = some ate) (hpast : ate < t) :
    AuditService.IsAccountLocked (s.atInstant t) login
      = ((false, zeroTime, none),
        ({ s with db := { s.db with usuarios := unlockLogin s.db.usuarios login } }
          : World).atInstant t) := by
  rw [IsAccountLocked_atInstant]
  simp only [hfind, hate]
  rw [if_pos ⟨hlocked, hpast⟩]
  rfl

/-- A POST with the right password for an active user whose lock has lapsed and
who has fewer than 5 recent failures: 200, with the access token and the refresh
token minted for the user. -/
theorem HandleLogin_after_lapse (codec : JWTCodec) (compare : String → String → Bool)
    (s : World) (t ate : Int) (addr login senha : String) (u : Usuario)
    (hlogin : login ≠ "") (hsenha : senha ≠ "")
    (hfind : s.db.usuarios.find? (fun x => x.Login == login) = some u)
    (hativo : u.Ativo = true)
    (hlocked : u.Bloqueado = true) (hate : u.BloqueadoAte = some ate) (hpast : ate < t)
    (hpass : compare u.Senha senha = true)
    (hcount : countRecentFailures s.db login addr t < 5) :
    ∃ accessToken refreshToken,
      GenerateToken (fun _ => t) u.ID u.Login u.IdTipoPerfil = .ok accessToken ∧
      GenerateRefreshToken (fun _ => t) u.ID u.Login u.IdTipoPerfil = .ok refreshToken ∧
      (HandleLogin codec compare (s.atInstant t) Response.new
          (loginRequest addr login senha)).1
        = { Response.new.headerSet "Content-Type" "application/json" with
            Status := some StatusOK
            Body := .login
              { AccessToken := codec.encode accessToken
                RefreshToken := codec.encode refreshToken
                Usuario := { u with Bloqueado := false, BloqueadoAte := none, Senha := "" }
                ExpiresIn := 86400 } } := by
  have hc : ¬ (countRecentFailures s.db login addr t ≥ 5) := by omega
  have hm : (loginRequest addr login senha).Method = "POST" := rfl
  have hbody : (loginRequest addr login senha).JSON =
      some (fun field => if field = "login" then login
        else if field = "senha" then senha else "") := rfl
  have hl := IsAccountLocked_lapsed s t ate login u hfind hlocked hate hpast
  have hfind2 : (({ s with db := { s.db with usuarios := unlockLogin s.db.usuarios login } }
      : World)).db.usuarios.find? (fun x => x.Login == login)
      = some { u with Bloqueado := false, BloqueadoAte := none } := by
    show (unlockLogin s.db.usuarios login).find? _ = _
    rw [find_unlockLogin, hfind]
    rfl
  have hck : AuditService.CheckLoginAttempts
      (({ s with db := { s.db with usuarios := unlockLogin s.db.usuarios login } }
        : World).atInstant t) (loginRequest addr login senha) login
      = ((false, zeroTime, none),
        ({ s with db := { s.db with usuarios := unlockLogin s.db.usuarios login } }
          : World).atInstant t) := by
    rw [CheckLoginAttempts_atInstant, getIPAddress_loginRequest]
    exact if_neg hc
  have hv : UsuarioRepository.VerifyPassword compare
      (({ s with db := { s.db with usuarios := unlockLogin s.db.usuarios login } }
        : World).atInstant t) login senha
      = (.ok { u with Bloqueado := false, BloqueadoAte := none, Senha := "" },
        ({ s with db := { s.db with usuarios := unlockLogin s.db.usuarios login } }
          : World).atInstant t) := by
    rw [VerifyPassword_unlocked compare _ t login senha _ hfind2 hativo rfl]
    exact if_pos hpass
  refine ⟨_, _, rfl, rfl, ?_⟩
  simp [HandleLogin, hm, hbody, MethodPost, hlogin, hsenha, hl, hck, hv,
    LogLoginAttempt_atInstant, GenerateToken, GenerateRefreshToken, generateTokenWithType,
    SignedString]
  simp [World.atInstant, World.tick]
  rfl

/-- The count never exceeds the number of recorded attempts. -/
theorem countRecentFailures_le_length (db : DB) (login ip : String) (now : Int) :
    countRecentFailures db login ip now ≤ db.login_attempts.length := by
  unfold countRecentFailures
  exact List.length_filter_le _ _

/-- A run of POSTs with wrong passwords for an active, unlocked user, while the log
holds fewer than 5 attempts before each: every one is answered 401 and recorded
as a failure; the users are left as they were. -/
theorem loginsAt_wrong_passwords (codec : JWTCodec) (compare : String → String → Bool)
    (addr login : String) (u : Usuario) (hlogin : login ≠ "")
    (hativo : u.Ativo = true) (hfree : u.Bloqueado = false) (ps : List (Int × String)) :
    ∀ s : World, s.db.usuarios.find? (fun x => x.Login == login) = some u →
      (∀ p ∈ ps, p.2 ≠ "" ∧ compare u.Senha p.2 = false) →
      s.db.login_attempts.length + ps.length ≤ 5 →
      (loginsAt codec compare addr login s ps).1
        = ps.map (fun _ =>
            httpError Response.new "Credenciais inválidas" StatusUnauthorized) ∧
      (loginsAt codec compare addr login s ps).2.db.usuarios = s.db.usuarios ∧
      (loginsAt codec compare addr login s ps).2.db.login_attempts
        = s.db.login_attempts ++ ps.map (fun p =>
            { login := login, ip_address := addr, success := false, attempt_time := p.1 }) := by
  induction ps with
  | nil => intro s _ _ _; simp [loginsAt]
  | cons p rest ih =>
    intro s hfind hps hlen
    have hp := hps p (by simp)
    have hcount : countRecentFailures s.db login addr p.1 < 5 := by
      have := countRecentFailures_le_length s.db login addr p.1
      simp only [List.length_cons] at hlen
      omega
    obtain ⟨h1, h2, h3⟩ := HandleLogin_wrong_password codec compare s p.1 addr login p.2 u
      hlogin hp.1 hfind hativo hfree hp.2 hcount
    obtain ⟨i1, i2, i3⟩ := ih
      (HandleLogin codec compare (s.atInstant p.1) Response.new
        (loginRequest addr login p.2)).2
      (by rw [h2]; exact hfind)
      (fun q hq => hps q (by simp [hq]))
      (by rw [h3]; simp only [List.length_append, List.length_cons, List.length_nil] at *; omega)
    simp only [loginsAt, List.map_cons]
    refine ⟨by rw [h1, i1], by rw [i2, h2], ?_⟩
    rw [i3, h3]
    simp

/-- C20. For an existing, active, unlocked user and an empty attempt log: five
POSTs with wrong passwords from one address, made within the 15 minutes before the
sixth, are each answered 401; a sixth POST, whatever its (non-empty) password, also
the right one, is answered 429 with the lockout message and no token; and a POST
with the right password made more than 30 minutes after the sixth, so one made 31
minutes after it, with nothing in between, is answered 200 with the access token and
the refresh token minted for the user. -/
theorem HandleLogin_lockout_end_to_end (codec : JWTCodec)
    (compare : String → String → Bool) (s0 : World) (u : Usuario)
    (addr login senha sixthSenha : String) (wrong : List (Int × String)) (t6 t7 : Int)
    (hlogin : login ≠ "") (hsenha : senha ≠ "") (hsixth : sixthSenha ≠ "")
    (hfind : s0.db.usuarios.find? (fun x => x.Login == login) = some u)
    (hativo : u.Ativo = true) (hfree : u.Bloqueado = false)
    (hpass : compare u.Senha senha = true)
    (hempty : s0.db.login_attempts = [])
    (hlen : wrong.length = 5)
    (hwrong : ∀ p ∈ wrong, p.2 ≠ "" ∧ compare u.Senha p.2 = false ∧
      t6 - 15 * Minute < p.1 ∧ p.1 ≤ t6)
    (hwait : t6 + 30 * Minute < t7) :
    let five := loginsAt codec compare addr login s0 wrong
    let sixth := HandleLogin codec compare (five.2.atInstant t6) Response.new
      (loginRequest addr login sixthSenha)
    let seventh := HandleLogin codec compare (sixth.2.atInstant t7) Response.new
      (loginRequest addr login senha)
    five.1.map (fun w => w.Status) = List.replicate 5 (some 401) ∧
    sixth.1.Status = some 429 ∧
    sixth.1.Body
      = .text "Muitas tentativas de login. Conta bloqueada por 31 minutos.\n" ∧
    seventh.1.Status = some 200 ∧
    ∃ accessToken refreshToken usuario,
      GenerateToken (fun _ => t7) u.ID u.Login u.IdTipoPerfil = .ok accessToken ∧
      GenerateRefreshToken (fun _ => t7) u.ID u.Login u.IdTipoPerfil = .ok refreshToken ∧
      seventh.1.Body = .login
        { AccessToken := codec.encode accessToken
          RefreshToken := codec.encode refreshToken
          Usuario := usuario
          ExpiresIn := 86400 } := by
  intro five sixth seventh
  -- the five wrong passwords
  obtain ⟨f1, f2, f3⟩ := loginsAt_wrong_passwords codec compare addr login u hlogin hativo
    hfree wrong s0 hfind (fun p hp => ⟨(hwrong p hp).1, (hwrong p hp).2.1⟩)
    (by rw [hempty, hlen]; simp)
  rw [hempty, List.nil_append] at f3
  have hrows : ∀ x ∈ five.2.db.login_attempts,
      x.login = login ∧ x.success = false ∧ t6 - 15 * Minute < x.attempt_time ∧
        x.attempt_time ≤ t6 := by
    intro x hx
    have hx2 : x ∈ wrong.map (fun p =>
        ({ login := login, ip_address := addr, success := false, attempt_time := p.1 }
          : LoginAttempt)) := by
      rw [← f3]; exact hx
    simp only [List.mem_map] at hx2
    obtain ⟨p, hp, rfl⟩ := hx2
    exact ⟨rfl, rfl, (hwrong p hp).2.2.1, (hwrong p hp).2.2.2⟩
  -- the sixth attempt trips the limit
  have hcount6 : countRecentFailures five.2.db login addr t6 ≥ 5 := by
    rw [countRecentFailures_all five.2.db login addr t6
      (fun x hx => ⟨(hrows x hx).1, (hrows x hx).2.1, (hrows x hx).2.2.1⟩)]
    have : five.2.db.login_attempts.length = 5 := by
      show (loginsAt codec compare addr login s0 wrong).2.db.login_attempts.length = 5
      rw [f3, List.length_map, hlen]
    omega
  obtain ⟨g1, g2, g3⟩ := HandleLogin_exceeded codec compare five.2 t6 addr login sixthSenha u
    hlogin hsixth (by show (loginsAt codec compare addr login s0 wrong).2.db.usuarios.find? _ = _
                      rw [f2]; exact hfind) hfree hcount6
  -- the seventh attempt, after the lock has lapsed
  have hfind7 : sixth.2.db.usuarios.find? (fun x => x.Login == login)
      = some { u with Bloqueado := true, BloqueadoAte := some (t6 + 30 * Minute) } := by
    show (HandleLogin codec compare (five.2.atInstant t6) Response.new
      (loginRequest addr login sixthSenha)).2.db.usuarios.find? _ = _
    rw [g2, find_lockLogin]
    have : five.2.db.usuarios.find? (fun x => x.Login == login) = some u := by
      show (loginsAt codec compare addr login s0 wrong).2.db.usuarios.find? _ = _
      rw [f2]; exact hfind
    rw [this]
    rfl
  have hcount7 : countRecentFailures sixth.2.db login addr t7 < 5 := by
    have hle := countRecentFailures_le sixth.2.db login addr t7
    have hnil : sixth.2.db.login_attempts.filter
        (fun x => decide (t7 - 15 * Minute < x.attempt_time)) = [] := by
      apply List.filter_eq_nil_iff.mpr
      intro x hx
      have hx2 : x ∈ five.2.db.login_attempts ++
          [({ login := login, ip_address := addr, success := false, attempt_time := t6 }
            : LoginAttempt)] := by
        rw [← g3]; exact hx
      simp only [decide_eq_true_eq, not_lt]
      rcases List.mem_append.mp hx2 with h | h
      · have := (hrows x h).2.2.2
        simp only [Minute, Second] at *
        omega
      · simp only [List.mem_singleton] at h
        subst h
        simp only [Minute, Second] at *
        omega
    rw [hnil] at hle
    simp only [List.length_nil] at hle
    omega
  obtain ⟨accessToken, refreshToken, ha, hr, hresp⟩ :=
    HandleLogin_after_lapse codec compare sixth.2 t7 (t6 + 30 * Minute) addr login senha
      { u with Bloqueado := true, BloqueadoAte := some (t6 + 30 * Minute) }
      hlogin hsenha hfind7 hativo rfl rfl hwait hpass hcount7
  refine ⟨?_, ?_, ?_, ?_, accessToken, refreshToken,
    { u with Bloqueado := false, BloqueadoAte := none, Senha := "" }, ha, hr, ?_⟩
  · show (loginsAt codec compare addr login s0 wrong).1.map _ = _
    rw [f1, List.map_map]
    have : ∀ l : List (Int × String), l.length = 5 →
        l.map ((fun w : Response => w.Status) ∘ fun _ =>
          httpError Response.new "Credenciais inválidas" StatusUnauthorized)
          = List.replicate 5 (some 401) := by
      intro l hl
      match l, hl with
      | [_, _, _, _, _], _ => rfl
    exact this wrong hlen
  · show (HandleLogin codec compare (five.2.atInstant t6) Response.new
      (loginRequest addr login sixthSenha)).1.Status = _
    rw [g1]; rfl
  · show (HandleLogin codec compare (five.2.atInstant t6) Response.new
      (loginRequest addr login sixthSenha)).1.Body = _
    rw [g1]; rfl
  · show (HandleLogin codec compare (sixth.2.atInstant t7) Response.new
      (loginRequest addr login senha)).1.Status = _
    rw [hresp]; rfl
  · show (HandleLogin codec compare (sixth.2.atInstant t7) Response.new
      (loginRequest addr login senha)).1.Body = _
    rw [hresp]

/-- Witness of C20: "ana" and the five wrong passwords of minutes 1 to 5, a sixth
POST with the right password at minute 6, and one more at minute 37. -/
theorem HandleLogin_lockout_end_to_end_witness :
    (loginsAt sampleCodec sampleCompare "10.0.0.1" "ana" sampleLoginWorld
        sampleWrongLogins).1.map (fun w => w.Status) = List.replicate 5 (some 401) ∧
    (HandleLogin sampleCodec sampleCompare
      ((loginsAt sampleCodec sampleCompare "10.0.0.1" "ana" sampleLoginWorld
        sampleWrongLogins).2.atInstant (6 * Minute)) Response.new
      (loginRequest "10.0.0.1" "ana" "secret")).1.Status = some 429 :=
  ⟨(HandleLogin_lockout_end_to_end sampleCodec sampleCompare sampleLoginWorld sampleUser
      "10.0.0.1" "ana" "secret" "secret" sampleWrongLogins (6 * Minute) (37 * Minute)
      (by decide) (by decide) (by decide) rfl rfl rfl rfl rfl rfl (by decide) (by decide)).1,
   (HandleLogin_lockout_end_to_end sampleCodec sampleCompare sampleLoginWorld sampleUser
      "10.0.0.1" "ana" "secret" "secret" sampleWrongLogins (6 * Minute) (37 * Minute)
      (by decide) (by decide) (by decide) rfl rfl rfl rfl rfl rfl (by decide)
      (by decide)).2.1⟩

/-! ## Persistence errors in `HandleLogin` -/

/-- Past the input checks and with both lock flags false, the answer of
`HandleLogin` is the one of its credential verification. -/
theorem HandleLogin_verification (codec : JWTCodec) (compare : String → String → Bool)
    (s : World) (w : Response) (r : Request) (body : String → String)
    (hm : r.Method = "POST") (hbody : r.JSON = some body)
    (hlogin : body "login" ≠ "") (hsenha : body "senha" ≠ "")
    (hl : (AuditService.IsAccountLocked s (body "login")).1.1 = false)
    (hc : (AuditService.CheckLoginAttempts (AuditService.IsAccountLocked s (body "login")).2 r
      (body "login")).1.1 = false) :
    match (UsuarioRepository.VerifyPassword compare
      (AuditService.CheckLoginAttempts (AuditService.IsAccountLocked s (body "login")).2 r
        (body "login")).2 (body "login") (body "senha")).1 with
    | .error _ =>
      (HandleLogin codec compare s w r).1 = httpError w "Credenciais inválidas" StatusUnauthorized
    | .ok usuario =>
      (HandleLogin codec compare s w r).1.Status = some StatusOK ∧
        ∃ resp, (HandleLogin codec compare s w r).1.Body = .login resp ∧
          resp.Usuario = usuario := by
  cases hv : (UsuarioRepository.VerifyPassword compare
      (AuditService.CheckLoginAttempts (AuditService.IsAccountLocked s (body "login")).2 r
        (body "login")).2 (body "login") (body "senha")).1 with
  | error e =>
    simp [HandleLogin, hm, hbody, MethodPost, hlogin, hsenha, hl, hc, hv]
  | ok u =>
    simp [HandleLogin, hm, hbody, MethodPost, hlogin, hsenha, hl, hc, hv, GenerateToken,
      GenerateRefreshToken, generateTokenWithType, SignedString, Response.headerSet]

/-- Past the input checks, a true flag from either lock check ends in 429. -/
theorem HandleLogin_flagged (codec : JWTCodec) (compare : String → String → Bool)
    (s : World) (w : Response) (r : Request) (body : String → String)
    (hm : r.Method = "POST") (hbody : r.JSON = some body)
    (hlogin : body "login" ≠ "") (hsenha : body "senha" ≠ "")
    (hflag : (AuditService.IsAccountLocked s (body "login")).1.1 = true ∨
      (AuditService.CheckLoginAttempts (AuditService.IsAccountLocked s (body "login")).2 r
        (body "login")).1.1 = true) :
    (HandleLogin codec compare s w r).1.Status = some StatusTooManyRequests := by
  cases hl : (AuditService.IsAccountLocked s (body "login")).1.1 with
  | true =>
    simp [HandleLogin, hm, hbody, MethodPost, hlogin, hsenha, hl, httpError]
  | false =>
    rw [hl] at hflag
    have hc := hflag.resolve_left (by simp)
    simp [HandleLogin, hm, hbody, MethodPost, hlogin, hsenha, hl, hc, httpError]

/-- The two errors of `IsAccountLocked`: the one of the SELECT comes with the flag
false, the one of the unlocking UPDATE with the flag true. -/
theorem IsAccountLocked_error (s : World) (login e : String)
    (he : (AuditService.IsAccountLocked s login).1.2.2 = some e) :
    (e = "erro ao verificar status de bloqueio" ∧
        (AuditService.IsAccountLocked s login).1.1 = false) ∨
      (e = "erro ao desbloquear conta" ∧
        (AuditService.IsAccountLocked s login).1.1 = true) := by
  by_cases h1 : s.fault.1 = true
  · left
    simp [AuditService.IsAccountLocked, h1] at he ⊢
    exact he.symm
  · cases hf : s.fault.2.db.usuarios.find? (fun u => u.Login == login) with
    | none => simp [AuditService.IsAccountLocked, h1, hf] at he
    | some row =>
      cases ha : row.BloqueadoAte with
      | none => simp [AuditService.IsAccountLocked, h1, hf, ha] at he
      | some ate =>
        by_cases h2 : row.Bloqueado = true
        · by_cases h3 : Time.Before ate (s.fault.2.clock 0) = true
          · by_cases h4 : (s.fault.2.tick 1).fault.1 = true
            · right
              simp [AuditService.IsAccountLocked, h1, hf, ha, h2, h3, h4] at he ⊢
              exact he.symm
            · simp [AuditService.IsAccountLocked, h1, hf, ha, h2, h3, h4] at he
          · simp [AuditService.IsAccountLocked, h1, hf, ha, h2, h3] at he
        · simp [AuditService.IsAccountLocked, h1, hf, ha, h2] at he

/-- The two errors of `CheckLoginAttempts`: the one of the COUNT comes with the
flag false, the one of the locking UPDATE with the flag true. -/
theorem CheckLoginAttempts_error (s : World) (r : Request) (login e : String)
    (he : (AuditService.CheckLoginAttempts s r login).1.2.2 = some e) :
    (e = "erro ao verificar tentativas de login" ∧
        (AuditService.CheckLoginAttempts s r login).1.1 = false) ∨
      (e = "erro ao bloquear conta" ∧
        (AuditService.CheckLoginAttempts s r login).1.1 = true) := by
  by_cases h1 : s.fault.1 = true
  · left
    simp [AuditService.CheckLoginAttempts, h1] at he ⊢
    exact he.symm
  · by_cases h2 : countRecentFailures s.fault.2.db login (getIPAddress r) (s.fault.2.clock 0) ≥ 5
    · by_cases h3 : ((s.fault.2.tick 1).tick 1).fault.1 = true
      · right
        simp [AuditService.CheckLoginAttempts, h1, h2, h3] at he ⊢
        exact he.symm
      · simp [AuditService.CheckLoginAttempts, h1, h2, h3] at he
    · simp [AuditService.CheckLoginAttempts, h1, h2] at he

/-- C21: the code at the failing input. At minute 45 "ana" is locked until minute
40 and the unlocking UPDATE of `IsAccountLocked` fails: the error comes back with
the flag true and the POST with the right password is answered 429, with a
message that counts minus 4 minutes, where the same request without the failure
is answered 200. When it is the SELECT of `IsAccountLocked` that fails, the error
comes back with the flag false, the login goes on to `VerifyPassword` and the
right password is answered 200. -/
theorem lock_check_error_rejects :
    (AuditService.IsAccountLocked sampleLapsedFaulty "ana").1
      = (true, 40 * Minute, some "erro ao desbloquear conta") ∧
    (HandleLogin sampleCodec sampleCompare sampleLapsedFaulty Response.new
      (loginRequest "10.0.0.1" "ana" "secret")).1
      = httpError Response.new
          "Conta bloqueada temporariamente. Tente novamente em -4 minutos." 429 ∧
    (HandleLogin sampleCodec sampleCompare
      { sampleLapsedFaulty with faults := fun _ => false } Response.new
      (loginRequest "10.0.0.1" "ana" "secret")).1.Status = some 200 ∧
    (AuditService.IsAccountLocked sampleSelectFaulty "ana").1
      = (false, zeroTime, some "erro ao verificar status de bloqueio") ∧
    (HandleLogin sampleCodec sampleCompare sampleSelectFaulty Response.new
      (loginRequest "10.0.0.1" "ana" "secret")).1.Status = some 200 :=
  ⟨rfl, rfl, rfl, rfl, rfl⟩

/-- What `HandleLogin` does with the errors of the two lock checks, for every POST
with a JSON body and non-empty login and password: it acts on the flag that comes
with the error. The error of the query (the SELECT, the COUNT) comes with the
flag false, and when both flags are false the answer is the one of
`VerifyPassword`: 401 when it fails, 200 with the verified user when it succeeds.
The error of the write (the unlocking UPDATE, the locking UPDATE) comes with the
flag true, and a true flag is answered 429. -/
theorem HandleLogin_lock_check_errors (codec : JWTCodec) (compare : String → String → Bool)
    (s : World) (w : Response) (r : Request) (body : String → String)
    (hm : r.Method = "POST") (hbody : r.JSON = some body)
    (hlogin : body "login" ≠ "") (hsenha : body "senha" ≠ "") :
    let l := AuditService.IsAccountLocked s (body "login")
    let c := AuditService.CheckLoginAttempts l.2 r (body "login")
    let v := UsuarioRepository.VerifyPassword compare c.2 (body "login") (body "senha")
    let out := HandleLogin codec compare s w r
    (∀ e, l.1.2.2 = some e →
      (e = "erro ao verificar status de bloqueio" ∧ l.1.1 = false) ∨
        (e = "erro ao desbloquear conta" ∧ l.1.1 = true)) ∧
    (∀ e, c.1.2.2 = some e →
      (e = "erro ao verificar tentativas de login" ∧ c.1.1 = false) ∨
        (e = "erro ao bloquear conta" ∧ c.1.1 = true)) ∧
    (l.1.1 = false → c.1.1 = false →
      match v.1 with
      | .error _ => out.1 = httpError w "Credenciais inválidas" StatusUnauthorized
      | .ok usuario =>
        out.1.Status = some StatusOK ∧
          ∃ resp, out.1.Body = .login resp ∧ resp.Usuario = usuario) ∧
    (l.1.1 = true ∨ c.1.1 = true → out.1.Status = some StatusTooManyRequests) := by
  intro l c v out
  exact ⟨fun e he => IsAccountLocked_error s (body "login") e he,
    fun e he => CheckLoginAttempts_error l.2 r (body "login") e he,
    fun hl hc => HandleLogin_verification codec compare s w r body hm hbody hlogin hsenha hl hc,
    fun hf => HandleLogin_flagged codec compare s w r body hm hbody hlogin hsenha hf⟩

/-- The SELECT of `IsAccountLocked` fails, the login goes on and the right password
is answered 200. -/
theorem HandleLogin_lock_check_errors_witness :
    (AuditService.IsAccountLocked sampleSelectFaulty "ana").1
      = (false, zeroTime, some "erro ao verificar status de bloqueio") ∧
    (HandleLogin sampleCodec sampleCompare sampleSelectFaulty Response.new
      (loginRequest "10.0.0.1" "ana" "secret")).1.Status = some 200 :=
  ⟨rfl, ((HandleLogin_lock_check_errors sampleCodec sampleCompare sampleSelectFaulty
    Response.new (loginRequest "10.0.0.1" "ana" "secret")
    (fun field => if field = "login" then "ana" else if field = "senha" then "secret" else "")
    rfl rfl (by decide) (by decide)).2.2.1 rfl rfl).1⟩

/-- An error of the lookup is the error of `VerifyPassword`. -/
theorem VerifyPassword_lookup_error (compare : String → String → Bool) (s : World)
    (login senha : String) (hq : s.faults 0 = true) :
    (UsuarioRepository.VerifyPassword compare s login senha).1
      = .error "erro ao buscar usuário" := by
  simp [UsuarioRepository.VerifyPassword, UsuarioRepository.GetByLogin, World.fault, hq]

/-- An error of the unlocking write is the error of `VerifyPassword`. -/
theorem VerifyPassword_unlock_error (compare : String → String → Bool) (s : World)
    (login senha : String) (u : Usuario) (ate : Int) (hq : s.faults 0 = false)
    (hfind : s.db.usuarios.find? (fun x => x.Login == login) = some u)
    (hativo : u.Ativo = true) (hlocked : u.Bloqueado = true)
    (hate : u.BloqueadoAte = some ate) (hlapsed : Time.After ate (s.clock 0) = false)
    (he : s.faults 1 = true) :
    (UsuarioRepository.VerifyPassword compare s login senha).1
      = .error "erro ao desbloquear usuário" := by
  simp [UsuarioRepository.VerifyPassword, UsuarioRepository.GetByLogin, World.fault, hq,
    hfind, hativo, hlocked, hate, hlapsed, he, World.tick]

/-- C22, as stated, fails. The lookup of "ana" fails in the database, and the POST
with the right password is answered 401 "Credenciais inválidas", not 500. -/
theorem lookup_error_is_401 :
    (UsuarioRepository.VerifyPassword sampleCompare
      (AuditService.CheckLoginAttempts
        (AuditService.IsAccountLocked sampleLookupFaulty "ana").2
        (loginRequest "10.0.0.1" "ana" "secret") "ana").2 "ana" "secret").1
      = .error "erro ao buscar usuário" ∧
    (HandleLogin sampleCodec sampleCompare sampleLookupFaulty Response.new
      (loginRequest "10.0.0.1" "ana" "secret")).1
      = httpError Response.new "Credenciais inválidas" 401 ∧
    (HandleLogin sampleCodec sampleCompare sampleLookupFaulty Response.new
      (loginRequest "10.0.0.1" "ana" "secret")).1.Status ≠ some 500 :=
  ⟨rfl, rfl, by decide⟩

/-- C22 (amended). For every POST to `HandleLogin` that gets to `VerifyPassword`
(JSON body, non-empty login and password, both lock flags false): a failing lookup
makes `VerifyPassword` fail with "erro ao buscar usuário", a failing unlocking
write with "erro ao desbloquear usuário", and whatever the error of
`VerifyPassword` the answer is 401 "Credenciais inválidas", the same as for an
unknown user or a wrong password. -/
theorem HandleLogin_verification_errors (codec : JWTCodec)
    (compare : String → String → Bool)
    (s : World) (w : Response) (r : Request) (body : String → String)
    (hm : r.Method = "POST") (hbody : r.JSON = some body)
    (hlogin : body "login" ≠ "") (hsenha : body "senha" ≠ "")
    (hl : (AuditService.IsAccountLocked s (body "login")).1.1 = false)
    (hc : (AuditService.CheckLoginAttempts (AuditService.IsAccountLocked s (body "login")).2 r
      (body "login")).1.1 = false) :
    let c := AuditService.CheckLoginAttempts (AuditService.IsAccountLocked s (body "login")).2 r
      (body "login")
    let v := UsuarioRepository.VerifyPassword compare c.2 (body "login") (body "senha")
    (c.2.faults 0 = true → v.1 = .error "erro ao buscar usuário") ∧
    (∀ u ate, c.2.faults 0 = false →
      c.2.db.usuarios.find? (fun x => x.Login == body "login") = some u →
      u.Ativo = true → u.Bloqueado = true → u.BloqueadoAte = some ate →
      Time.After ate (c.2.clock 0) = false → c.2.faults 1 = true →
      v.1 = .error "erro ao desbloquear usuário") ∧
    (∀ err, v.1 = .error err →
      (HandleLogin codec compare s w r).1
        = httpError w "Credenciais inválidas" StatusUnauthorized) := by
  intro c v
  refine ⟨fun hq => VerifyPassword_lookup_error compare c.2 _ _ hq,
    fun u ate hq hfind hativo hlocked hate hlapsed he =>
      VerifyPassword_unlock_error compare c.2 _ _ u ate hq hfind hativo hlocked hate hlapsed he,
    fun err herr => ?_⟩
  have h := HandleLogin_verification codec compare s w r body hm hbody hlogin hsenha hl hc
  rw [show (UsuarioRepository.VerifyPassword compare
      (AuditService.CheckLoginAttempts (AuditService.IsAccountLocked s (body "login")).2 r
        (body "login")).2 (body "login") (body "senha")).1 = .error err from herr] at h
  exact h

/-- Witness of C22: the lookup of "ana" fails and the POST is answered 401. -/
theorem HandleLogin_verification_errors_witness :
    (HandleLogin sampleCodec sampleCompare sampleLookupFaulty Response.new
      (loginRequest "10.0.0.1" "ana" "secret")).1
      = httpError Response.new "Credenciais inválidas" 401 :=
  (HandleLogin_verification_errors sampleCodec sampleCompare sampleLookupFaulty
    Response.new (loginRequest "10.0.0.1" "ana" "secret")
    (fun field => if field = "login" then "ana" else if field = "senha" then "secret" else "")
    rfl rfl (by decide) (by decide) rfl rfl).2.2 "erro ao buscar usuário" rfl

/-! ## The 401 body of `AuthMiddleware` -/

/-- Two strings between the same prefix and the same suffix are equal exactly
when the strings that result are. -/
theorem string_between_inj (pre a b post : String) :
    pre ++ a ++ post = pre ++ b ++ post ↔ a = b := by
  constructor
  · intro h
    have hd := congrArg String.data h
    simp only [String.data_append, List.append_assoc] at hd
    have h2 := List.append_cancel_right (List.append_cancel_left hd)
    exact String.ext h2
  · intro h; rw [h]

/-- What `AuthMiddleware` answers when `ValidateToken` rejects the token. -/
theorem AuthMiddleware_rejected (codec : JWTCodec) (next : Handler) (s : World)
    (w : Response) (r : Request) (err : TokenError)
    (hne : r.Header "Authorization" ≠ "")
    (hshape : (stringsSplit (r.Header "Authorization") ' ').length = 2 ∧
      (stringsSplit (r.Header "Authorization") ' ').getD 0 "" = "Bearer")
    (hval : ValidateToken s.clock
      (codec.decode ((stringsSplit (r.Header "Authorization") ' ').getD 1 "")) = .error err) :
    AuthMiddleware codec next s w r
      = (httpError w ("Token inválido: " ++ err.Error) StatusUnauthorized,
         s.tick (parseClockReads
           (codec.decode ((stringsSplit (r.Header "Authorization") ' ').getD 1 "")))) := by
  have h1 : ¬ ((r.Header "Authorization" == "") = true) := by simpa using hne
  have h2 : ¬ (((stringsSplit (r.Header "Authorization") ' ').length != 2 ||
      (stringsSplit (r.Header "Authorization") ' ').getD 0 "" != "Bearer") = true) := by
    intro h
    simp only [Bool.or_eq_true, bne_iff_ne, ne_eq] at h
    rcases h with h | h
    · exact h hshape.1
    · exact h hshape.2
  simp only [AuthMiddleware, if_neg h1, if_neg h2, hval]

/-- C23, as stated, fails. A request whose token has the wrong number of segments
and a request whose access token has expired are both rejected by `AuthMiddleware`
with 401 because `ValidateToken` failed, and their bodies differ: each carries the
text of its verification error. So do the bodies for two tokens signed with
different methods outside the HMAC family: each names the `alg` of its token. -/
theorem AuthMiddleware_bodies_differ :
    (AuthMiddleware sampleCodec reached sampleWorld Response.new sampleGarbageRequest).1.Status
      = some 401 ∧
    (AuthMiddleware sampleCodec reached sampleWorld Response.new sampleGarbageRequest).1.Body
      = .text
        "Token inválido: token is malformed: token contains an invalid number of segments\n" ∧
    (AuthMiddleware sampleCodec reached sampleLateWorld Response.new sampleRequest).1.Status
      = some 401 ∧
    (AuthMiddleware sampleCodec reached sampleLateWorld Response.new sampleRequest).1.Body
      = .text "Token inválido: token has invalid claims: token is expired\n" ∧
    (AuthMiddleware sampleCodec reached sampleWorld Response.new sampleGarbageRequest).1.Body
      ≠ (AuthMiddleware sampleCodec reached sampleLateWorld Response.new sampleRequest).1.Body ∧
    (AuthMiddleware sampleAlgCodec reached sampleWorld Response.new
      (sampleAlgRequest "RS256")).1
      = httpError Response.new
          ("Token inválido: token is unverifiable: error while executing keyfunc: " ++
            "método de assinatura inesperado: RS256") 401 ∧
    (AuthMiddleware sampleAlgCodec reached sampleWorld Response.new
      (sampleAlgRequest "ES256")).1
      = httpError Response.new
          ("Token inválido: token is unverifiable: error while executing keyfunc: " ++
            "método de assinatura inesperado: ES256") 401 ∧
    (AuthMiddleware sampleAlgCodec reached sampleWorld Response.new
      (sampleAlgRequest "RS256")).1.Body
      ≠ (AuthMiddleware sampleAlgCodec reached sampleWorld Response.new
          (sampleAlgRequest "ES256")).1.Body := by
  refine ⟨rfl, rfl, rfl, rfl, ?_, rfl, rfl, ?_⟩
  · decide
  · decide

/-- C23 (amended). For any two requests that `AuthMiddleware` rejects because
`ValidateToken` failed, both answers are 401, each body is "Token inválido: "
followed by the text of its verification error and a newline, and the two bodies
are identical exactly when the two error texts are. -/
theorem AuthMiddleware_body_is_error_text (codec : JWTCodec) (next1 next2 : Handler)
    (s1 s2 : World) (w1 w2 : Response) (r1 r2 : Request) (err1 err2 : TokenError)
    (hne1 : r1.Header "Authorization" ≠ "")
    (hshape1 : (stringsSplit (r1.Header "Authorization") ' ').length = 2 ∧
      (stringsSplit (r1.Header "Authorization") ' ').getD 0 "" = "Bearer")
    (hval1 : ValidateToken s1.clock
      (codec.decode ((stringsSplit (r1.Header "Authorization") ' ').getD 1 "")) = .error err1)
    (hne2 : r2.Header "Authorization" ≠ "")
    (hshape2 : (stringsSplit (r2.Header "Authorization") ' ').length = 2 ∧
      (stringsSplit (r2.Header "Authorization") ' ').getD 0 "" = "Bearer")
    (hval2 : ValidateToken s2.clock
      (codec.decode ((stringsSplit (r2.Header "Authorization") ' ').getD 1 "")) = .error err2) :
    (AuthMiddleware codec next1 s1 w1 r1).1.Status = some 401 ∧
    (AuthMiddleware codec next2 s2 w2 r2).1.Status = some 401 ∧
    (AuthMiddleware codec next1 s1 w1 r1).1.Body
      = .text ("Token inválido: " ++ err1.Error ++ "\n") ∧
    (AuthMiddleware codec next2 s2 w2 r2).1.Body
      = .text ("Token inválido: " ++ err2.Error ++ "\n") ∧
    ((AuthMiddleware codec next1 s1 w1 r1).1.Body = (AuthMiddleware codec next2 s2 w2 r2).1.Body
      ↔ err1.Error = err2.Error) := by
  rw [AuthMiddleware_rejected codec next1 s1 w1 r1 err1 hne1 hshape1 hval1,
    AuthMiddleware_rejected codec next2 s2 w2 r2 err2 hne2 hshape2 hval2]
  refine ⟨rfl, rfl, rfl, rfl, ?_⟩
  simp only [httpError]
  rw [ResponseBody.text.injEq]
  exact string_between_inj _ _ _ _

/-- Witness of C23: a token with the wrong number of segments next to an expired
one. -/
theorem AuthMiddleware_body_is_error_text_witness :
    (AuthMiddleware sampleCodec reached sampleWorld Response.new sampleGarbageRequest).1.Body
      = .text
        "Token inválido: token is malformed: token contains an invalid number of segments\n" :=
  (AuthMiddleware_body_is_error_text sampleCodec reached reached sampleWorld sampleLateWorld
    Response.new Response.new sampleGarbageRequest sampleRequest
    (.Unparsed "token is malformed: token contains an invalid number of segments")
    (.InvalidClaims [.TokenExpired]) (by decide) (by decide) rfl (by decide) (by decide)
    rfl).2.2.1

/-! ## Who writes the lock fields -/

/-- `IsAllowed` keeps the policy of the limiter. -/
theorem IsAllowed_policy (rl : RateLimiter) (clk : Clock) (ip : String) :
    (rl.IsAllowed clk ip).2.maxRequests = rl.maxRequests ∧
    (rl.IsAllowed clk ip).2.timeWindow = rl.timeWindow ∧
    (rl.IsAllowed clk ip).2.blockDuration = rl.blockDuration := by
  cases hb : rl.blockedIPs ip with
  | none =>
    cases hr : rl.requests ip with
    | none =>
      simp only [RateLimiter.IsAllowed, hb, hr]
      split_ifs <;> exact ⟨rfl, rfl, rfl⟩
    | some times =>
      simp only [RateLimiter.IsAllowed, hb, hr]
      split_ifs <;> exact ⟨rfl, rfl, rfl⟩
  | some u =>
    by_cases ha : Time.After (clk 0) u = true
    · cases hr : rl.requests ip with
      | none =>
        simp only [RateLimiter.IsAllowed, hb, hr, ha, if_true]
        split_ifs <;> exact ⟨rfl, rfl, rfl⟩
      | some times =>
        simp only [RateLimiter.IsAllowed, hb, hr, ha, if_true]
        split_ifs <;> exact ⟨rfl, rfl, rfl⟩
    · have ha2 : Time.After (clk 0) u = false := by simpa using ha
      simp [RateLimiter.IsAllowed, hb, ha2]

/-- `IsAllowed` for one address keeps the history and the block of every other. -/
theorem IsAllowed_other (rl : RateLimiter) (clk : Clock) (ip other : String)
    (hne : other ≠ ip) :
    (rl.IsAllowed clk ip).2.requests other = rl.requests other ∧
    (rl.IsAllowed clk ip).2.blockedIPs other = rl.blockedIPs other := by
  cases hb : rl.blockedIPs ip with
  | none =>
    cases hr : rl.requests ip with
    | none =>
      simp only [RateLimiter.IsAllowed, hb, hr]
      split_ifs <;> simp [mapSet, mapGet, hne]
    | some times =>
      simp only [RateLimiter.IsAllowed, hb, hr]
      split_ifs <;> simp [mapSet, mapGet, hne]
  | some u =>
    by_cases ha : Time.After (clk 0) u = true
    · cases hr : rl.requests ip with
      | none =>
        simp only [RateLimiter.IsAllowed, hb, hr, ha, if_true]
        split_ifs <;> simp [mapSet, mapGet, mapDelete, hne, hb]
      | some times =>
        simp only [RateLimiter.IsAllowed, hb, hr, ha, if_true]
        split_ifs <;> simp [mapSet, mapGet, mapDelete, hne, hb]
    · have ha2 : Time.After (clk 0) u = false := by simpa using ha
      simp [RateLimiter.IsAllowed, hb, ha2]

/-- A call stopped at its block check changes nothing. -/
theorem IsAllowed_stopped (rl : RateLimiter) (clk : Clock) (ip : String)
    (h : rl.pastBlockCheck clk ip = false) : rl.IsAllowed clk ip = (false, rl) := by
  simp only [RateLimiter.pastBlockCheck] at h
  cases hb : rl.blockedIPs ip with
  | none => simp [hb] at h
  | some u =>
    simp only [hb] at h
    simp [RateLimiter.IsAllowed, hb, h]

/-- The history of the address after a call that went past its block check: the
timestamps inside the window, then `now` when there was room for it. -/
theorem IsAllowed_history (rl : RateLimiter) (clk : Clock) (ip : String)
    (h : rl.pastBlockCheck clk ip = true) :
    mapGet (rl.IsAllowed clk ip).2.requests ip
      = if (((mapGet rl.requests ip).filter
            (fun t => decide (Time.Sub (rl.nowOf clk ip) t ≤ rl.timeWindow))).length : Int)
            ≥ rl.maxRequests then
          (mapGet rl.requests ip).filter
            (fun t => decide (Time.Sub (rl.nowOf clk ip) t ≤ rl.timeWindow))
        else
          (mapGet rl.requests ip).filter
            (fun t => decide (Time.Sub (rl.nowOf clk ip) t ≤ rl.timeWindow))
            ++ [rl.nowOf clk ip] := by
  simp only [RateLimiter.pastBlockCheck] at h
  cases hb : rl.blockedIPs ip with
  | none =>
    cases hr : rl.requests ip with
    | none =>
      simp only [RateLimiter.IsAllowed, RateLimiter.nowOf, hb, hr, mapGet]
      split_ifs <;> first | (simp_all [mapSet, mapGet]; done) | (simp_all [mapSet, mapGet]; omega)
    | some times =>
      simp only [RateLimiter.IsAllowed, RateLimiter.nowOf, hb, hr, mapGet]
      split_ifs <;> first | (simp_all [mapSet, mapGet]; done) | (simp_all [mapSet, mapGet]; omega)
  | some u =>
    simp only [hb] at h
    cases hr : rl.requests ip with
    | none =>
      simp only [RateLimiter.IsAllowed, RateLimiter.nowOf, hb, hr, mapGet, h, if_true]
      split_ifs <;> first | (simp_all [mapSet, mapGet]; done) | (simp_all [mapSet, mapGet]; omega)
    | some times =>
      simp only [RateLimiter.IsAllowed, RateLimiter.nowOf, hb, hr, mapGet, h, if_true]
      split_ifs <;> first | (simp_all [mapSet, mapGet]; done) | (simp_all [mapSet, mapGet]; omega)

/-- `GetRemainingTime` keeps every history and the policy, and the block of every
other address. -/
theorem GetRemainingTime_frame (rl : RateLimiter) (clk : Clock) (ip : String) :
    (rl.GetRemainingTime clk ip).2.requests = rl.requests ∧
    (rl.GetRemainingTime clk ip).2.maxRequests = rl.maxRequests ∧
    (rl.GetRemainingTime clk ip).2.timeWindow = rl.timeWindow ∧
    (rl.GetRemainingTime clk ip).2.blockDuration = rl.blockDuration ∧
    ∀ other, other ≠ ip →
      (rl.GetRemainingTime clk ip).2.blockedIPs other = rl.blockedIPs other := by
  cases hb : rl.blockedIPs ip with
  | none => simp [RateLimiter.GetRemainingTime, hb]
  | some u =>
    by_cases ha : Time.After (clk 0) u = true
    · simp only [RateLimiter.GetRemainingTime, hb, ha, if_true]
      refine ⟨trivial, trivial, trivial, trivial, fun other hne => ?_⟩
      simp [mapDelete, hne]
    · have ha2 : Time.After (clk 0) u = false := by simpa using ha
      simp [RateLimiter.GetRemainingTime, hb, ha2]

/-- The `now` of an `IsAllowed` call is its last read of the clock. -/
theorem nowOf_reads (rl : RateLimiter) (clk : Clock) (ip : String) (hmono : Monotone clk)
    (h : rl.pastBlockCheck clk ip = true) :
    clk 0 ≤ rl.nowOf clk ip ∧ rl.nowOf clk ip ≤ clk (rl.isAllowedReads clk ip) := by
  simp only [RateLimiter.pastBlockCheck] at h
  cases hb : rl.blockedIPs ip with
  | none =>
    simp only [RateLimiter.nowOf, RateLimiter.isAllowedReads, hb]
    exact ⟨le_refl _, hmono (Nat.zero_le 1)⟩
  | some u =>
    simp only [hb] at h
    simp only [RateLimiter.nowOf, RateLimiter.isAllowedReads, hb, h, if_true]
    exact ⟨hmono (Nat.zero_le 1), hmono (Nat.le_succ 1)⟩

/-- `IsAllowed` keeps the invariant of every history. -/
theorem IsAllowed_historyOK (rl : RateLimiter) (clk : Clock) (ip : String)
    (hmono : Monotone clk) (hinv : ∀ a, rl.historyOK (clk 0) a) (a : String) :
    (rl.IsAllowed clk ip).2.historyOK (clk (rl.isAllowedReads clk ip)) a := by
  have hb0 : clk 0 ≤ clk (rl.isAllowedReads clk ip) := hmono (Nat.zero_le _)
  obtain ⟨hsorted, hlen, hle⟩ := hinv a
  by_cases hne : a = ip
  · subst hne
    cases hp : rl.pastBlockCheck clk a with
    | false =>
      rw [IsAllowed_stopped rl clk a hp]
      exact ⟨hsorted, hlen, fun t ht => le_trans (hle t ht) hb0⟩
    | true =>
      obtain ⟨hn0, hn1⟩ := nowOf_reads rl clk a hmono hp
      have hfs : ((mapGet rl.requests a).filter
          (fun t => decide (Time.Sub (rl.nowOf clk a) t ≤ rl.timeWindow))).Pairwise
            (fun a b => a ≤ b) := hsorted.sublist (List.filter_sublist _)
      have hfle : ∀ t ∈ (mapGet rl.requests a).filter
          (fun t => decide (Time.Sub (rl.nowOf clk a) t ≤ rl.timeWindow)), t ≤ clk 0 :=
        fun t ht => hle t (List.mem_of_mem_filter ht)
      refine ⟨?_, ?_, ?_⟩
      · rw [IsAllowed_history rl clk a hp]
        split_ifs with hfull
        · exact hfs
        · rw [List.pairwise_append]
          refine ⟨hfs, List.pairwise_singleton _ _, fun x hx y hy => ?_⟩
          rw [List.mem_singleton] at hy
          rw [hy]
          exact le_trans (hfle x hx) hn0
      · rw [IsAllowed_history rl clk a hp, (IsAllowed_policy rl clk a).1]
        split_ifs with hfull
        · have := List.length_filter_le
            (fun t => decide (Time.Sub (rl.nowOf clk a) t ≤ rl.timeWindow))
            (mapGet rl.requests a)
          omega
        · rw [List.length_append, List.length_singleton]
          push_cast
          omega
      · rw [IsAllowed_history rl clk a hp]
        split_ifs with hfull
        · exact fun t ht => le_trans (hfle t ht) hb0
        · intro t ht
          rcases List.mem_append.mp ht with h | h
          · exact le_trans (hfle t h) hb0
          · rw [List.mem_singleton] at h
            rw [h]
            exact hn1
  · have ho := IsAllowed_other rl clk ip a hne
    simp only [RateLimiter.historyOK, mapGet, ho.1, (IsAllowed_policy rl clk ip).1]
    exact ⟨hsorted, hlen, fun t ht => le_trans (hle t ht) hb0⟩

/-- `GetRemainingTime` keeps the invariant of every history. -/
theorem GetRemainingTime_historyOK (rl : RateLimiter) (clk : Clock) (ip : String)
    (hmono : Monotone clk) (hinv : ∀ a, rl.historyOK (clk 0) a) (a : String) :
    (rl.GetRemainingTime clk ip).2.historyOK (clk (rl.getRemainingTimeReads clk ip)) a := by
  have hb0 : clk 0 ≤ clk (rl.getRemainingTimeReads clk ip) := hmono (Nat.zero_le _)
  obtain ⟨hsorted, hlen, hle⟩ := hinv a
  obtain ⟨hr, hm, _⟩ := GetRemainingTime_frame rl clk ip
  simp only [RateLimiter.historyOK, hr, hm]
  exact ⟨hsorted, hlen, fun t ht => le_trans (hle t ht) hb0⟩

/-- A call keeps the policy of the limiter. -/
theorem call_policy (rl : RateLimiter) (clk : Clock) (c : LimiterCall) :
    (rl.call clk c).1.maxRequests = rl.maxRequests ∧
    (rl.call clk c).1.timeWindow = rl.timeWindow ∧
    (rl.call clk c).1.blockDuration = rl.blockDuration := by
  cases c with
  | isAllowed ip => exact IsAllowed_policy rl clk ip
  | getRemainingTime ip =>
    obtain ⟨_, h1, h2, h3, _⟩ := GetRemainingTime_frame rl clk ip
    exact ⟨h1, h2, h3⟩

/-- A run under a non-decreasing clock keeps the invariant of every history, the
policy, and leaves a non-decreasing clock. -/
theorem run_historyOK (calls : List LimiterCall) (rl : RateLimiter) (clk : Clock)
    (hmono : Monotone clk) (hinv : ∀ a, rl.historyOK (clk 0) a) :
    (∀ a, (rl.run clk calls).1.historyOK ((rl.run clk calls).2 0) a) ∧
    Monotone (rl.run clk calls).2 ∧
    (rl.run clk calls).1.maxRequests = rl.maxRequests ∧
    (rl.run clk calls).1.timeWindow = rl.timeWindow := by
  induction calls generalizing rl clk with
  | nil => exact ⟨hinv, hmono, rfl, rfl⟩
  | cons c cs ih =>
    have hmono2 : Monotone (fun i => clk (i + (rl.call clk c).2)) :=
      fun x y h => hmono (Nat.add_le_add_right h _)
    have hinv2 : ∀ a, (rl.call clk c).1.historyOK
        ((fun i => clk (i + (rl.call clk c).2)) 0) a := by
      intro a
      simp only [Nat.zero_add]
      cases c with
      | isAllowed ip => exact IsAllowed_historyOK rl clk ip hmono hinv a
      | getRemainingTime ip => exact GetRemainingTime_historyOK rl clk ip hmono hinv a
    obtain ⟨h1, h2, h3, h4⟩ := ih (rl.call clk c).1 _ hmono2 hinv2
    obtain ⟨p1, p2, _⟩ := call_policy rl clk c
    exact ⟨h1, h2, h3.trans p1, h4.trans p2⟩

/-- Right after an `IsAllowed` call that went past its block check, under a window
that is not negative, every timestamp of the address is inside the window. -/
theorem IsAllowed_window (rl : RateLimiter) (clk : Clock) (ip : String)
    (hp : rl.pastBlockCheck clk ip = true) (hwin : 0 ≤ rl.timeWindow) :
    ∀ t ∈ mapGet (rl.IsAllowed clk ip).2.requests ip,
      Time.Sub (rl.nowOf clk ip) t ≤ rl.timeWindow := by
  have hself : Time.Sub (rl.nowOf clk ip) (rl.nowOf clk ip) ≤ rl.timeWindow := by
    simp [Time.Sub, maxDuration, minDuration, hwin]
  have hf : ∀ t ∈ (mapGet rl.requests ip).filter
      (fun t => decide (Time.Sub (rl.nowOf clk ip) t ≤ rl.timeWindow)),
      Time.Sub (rl.nowOf clk ip) t ≤ rl.timeWindow := by
    intro t ht
    simpa using (List.mem_filter.mp ht).2
  rw [IsAllowed_history rl clk ip hp]
  split_ifs with hfull
  · exact hf
  · intro t ht
    rcases List.mem_append.mp ht with h | h
    · exact hf t h
    · rw [List.mem_singleton] at h
      rw [h]
      exact hself

/-- C26, as stated, fails. A limiter of one request per window of minus one
nanosecond, fresh from `NewRateLimiter`, is asked at instant 0: the call goes past
the block check and records 0, and `now.Sub(0) = 0` is not at most the window. -/
theorem negative_window_keeps_now :
    (NewRateLimiter 1 (-1) 0).pastBlockCheck (fun _ => 0) "10.0.0.1" = true ∧
    (NewRateLimiter 1 (-1) 0).nowOf (fun _ => 0) "10.0.0.1" = 0 ∧
    mapGet ((NewRateLimiter 1 (-1) 0).IsAllowed (fun _ => 0) "10.0.0.1").2.requests "10.0.0.1"
      = [0] ∧
    ¬ (Time.Sub 0 0 ≤ (NewRateLimiter 1 (-1) 0).timeWindow) := by
  refine ⟨rfl, rfl, rfl, ?_⟩
  decide

/-- C26 (amended). In every state reached from `NewRateLimiter max window block`
with `max ≥ 0` through `IsAllowed` and `GetRemainingTime` calls that read a
non-decreasing clock, the history of each address is in non-decreasing order and
holds at most `max` timestamps; and when `window ≥ 0`, right after one more
`IsAllowed` call that goes past its block check with `now`, every timestamp `t`
of the address has `now.Sub(t) ≤ window`. -/
theorem limiter_reachable_invariants (maxRequests window block : Int) (clk : Clock)
    (calls : List LimiterCall) (ip : String) (hmax : 0 ≤ maxRequests)
    (hmono : Monotone clk) :
    let st := (NewRateLimiter maxRequests window block).run clk calls
    (mapGet st.1.requests ip).Pairwise (fun a b => a ≤ b) ∧
    ((mapGet st.1.requests ip).length : Int) ≤ maxRequests ∧
    (0 ≤ window → st.1.pastBlockCheck st.2 ip = true →
      ∀ t ∈ mapGet (st.1.IsAllowed st.2 ip).2.requests ip,
        Time.Sub (st.1.nowOf st.2 ip) t ≤ window) := by
  intro st
  have hinit : ∀ a, (NewRateLimiter maxRequests window block).historyOK (clk 0) a := by
    intro a
    simp [RateLimiter.historyOK, NewRateLimiter, mapGet, hmax]
  obtain ⟨hinv, _, hm, hw⟩ := run_historyOK calls _ clk hmono hinit
  have hm2 : st.1.maxRequests = maxRequests := hm
  have hw2 : st.1.timeWindow = window := hw
  obtain ⟨h1, h2, _⟩ := hinv ip
  refine ⟨h1, ?_, fun hwin hp => ?_⟩
  · rw [← hm2]; exact h2
  · rw [← hw2]
    exact IsAllowed_window st.1 st.2 ip hp (by rw [hw2]; exact hwin)

/-- Witness of C26: five calls, one clock read a nanosecond, at most two requests
a minute. -/
theorem limiter_reachable_invariants_witness :
    mapGet ((NewRateLimiter 2 Minute (5 * Minute)).run sampleTicking sampleCalls).1.requests "a"
      = [0, 1] ∧
    (mapGet ((NewRateLimiter 2 Minute (5 * Minute)).run sampleTicking
      sampleCalls).1.requests "a").Pairwise (fun a b => a ≤ b) ∧
    ((mapGet ((NewRateLimiter 2 Minute (5 * Minute)).run sampleTicking
      sampleCalls).1.requests "a").length : Int) ≤ 2 :=
  ⟨rfl,
   (limiter_reachable_invariants 2 Minute (5 * Minute) sampleTicking sampleCalls "a"
      (by decide) (fun _ _ h => Int.ofNat_le.mpr h)).1,
   (limiter_reachable_invariants 2 Minute (5 * Minute) sampleTicking sampleCalls "a"
      (by decide) (fun _ _ h => Int.ofNat_le.mpr h)).2.1⟩

/-! ## The minutes of the lockout messages -/

/-- A remaining time of exactly `k` whole minutes is shown as `k + 1` (for a
duration that fits in a `time.Duration` the conversion of `k` to `float64` is
exact). -/
theorem lockoutMinutes_whole (k : Int) (hk : 0 ≤ k) : lockoutMinutes (k * Minute) = k + 1 := by
  have hm : (0 : Int) < Minute := by decide
  have hnn : ¬ k * Minute < 0 := not_lt.mpr (Int.mul_nonneg hk (le_of_lt hm))
  have habs : (k * Minute).natAbs = k.natAbs * 60000000000 := by
    rw [Int.natAbs_mul]
    rfl
  simp only [lockoutMinutes, wholeMinutes, if_neg hnn, wholeMinutesNat, habs,
    Nat.mul_mod_left, if_true]
  rw [Nat.mul_div_cancel _ (by decide : 0 < 60000000000), Int.natAbs_of_nonneg hk]

set_option maxRecDepth 4000 in
/-- The minutes shown for remaining times that are not whole minutes: one
nanosecond more than 29 minutes gives 30 and one nanosecond less than 30 minutes
gives 30, the number rounded up; one nanosecond less than 262145 minutes gives
262146, because the `float64` sum of `Minutes` rounds to 262145 before the
fraction is dropped. -/
theorem lockoutMinutes_fractions :
    lockoutMinutes (29 * Minute + 1) = 30 ∧
    lockoutMinutes (30 * Minute - 1) = 30 ∧
    lockoutMinutes (262145 * Minute - 1) = 262146 ∧
    lockoutMinutes (-(5 * Minute)) = -4 ∧
    lockoutMinutes (-(5 * Minute) - 1) = -4 := by
  refine ⟨?_, ?_, ?_, ?_, ?_⟩ <;> decide

/-- C27: the code at the failing input. "ana" is locked until minute 40 and asks
at minute 10: exactly 30 minutes remain and the message says 31. The same for the
lock that `CheckLoginAttempts` sets at the instant of the request. The ceiling of
30 minutes is 30. -/
theorem lockout_minutes_exact :
    Time.Sub (40 * Minute) (10 * Minute) = 30 * Minute ∧
    lockoutMinutes (30 * Minute) = 31 ∧
    (HandleLogin sampleCodec sampleCompare sampleLockedEarly Response.new
      (loginRequest "10.0.0.1" "ana" "secret")).1
      = httpError Response.new
          "Conta bloqueada temporariamente. Tente novamente em 31 minutos." 429 ∧
    (HandleLogin sampleCodec sampleCompare
      { sampleFailedWorld with clock := fun _ => 10 * Minute } Response.new
      (loginRequest "10.0.0.1" "ana" "secret")).1
      = httpError Response.new
          "Muitas tentativas de login. Conta bloqueada por 31 minutos." 429 :=
  ⟨rfl, rfl, rfl, rfl⟩

/-! ## The HSTS header -/

/-- C28: the code at the default configuration. `string(sh.HSTSMaxAge)` is the
conversion of an integer to the string of one character, and 31536000 is not a
code point: the header is "max-age=" followed by U+FFFD and "; includeSubDomains",
not "max-age=31536000; includeSubDomains". The next handler is run every time,
once, with the world as it was. -/
theorem hsts_header_default :
    (SecurityHeadersMiddleware NewSecurityHeaders reached sampleWorld Response.new
      sampleRequest).1.headerValues "Strict-Transport-Security"
      = ["max-age=�; includeSubDomains"] ∧
    (SecurityHeadersMiddleware NewSecurityHeaders reached sampleWorld Response.new
      sampleRequest).1.headerValues "Strict-Transport-Security"
      ≠ ["max-age=31536000; includeSubDomains"] ∧
    goStringOfInt NewSecurityHeaders.HSTSMaxAge = "�" ∧
    (∀ (sh : SecurityHeaders) (s : World) (w : Response) (r : Request),
      ∃ w1 : Response, ∀ next : Handler,
        SecurityHeadersMiddleware sh next s w r = next s w1 r) := by
  refine ⟨?_, ?_, ?_, fun _ _ _ _ => ⟨_, fun _ => rfl⟩⟩
  · decide
  · decide
  · decide

/-! ## Addresses do not interfere in the rate limiter -/

/-- What `IsAllowed` answers for an address, and what it leaves for that address,
depends only on the history and the block of that address and on the policy. -/
theorem IsAllowed_congr (rl1 rl2 : RateLimiter) (clk : Clock) (b : String)
    (hreq : rl1.requests b = rl2.requests b) (hblk : rl1.blockedIPs b = rl2.blockedIPs b)
    (hmax : rl1.maxRequests = rl2.maxRequests) (hwin : rl1.timeWindow = rl2.timeWindow)
    (hdur : rl1.blockDuration = rl2.blockDuration) :
    (rl1.IsAllowed clk b).1 = (rl2.IsAllowed clk b).1 ∧
    (rl1.IsAllowed clk b).2.requests b = (rl2.IsAllowed clk b).2.requests b ∧
    (rl1.IsAllowed clk b).2.blockedIPs b = (rl2.IsAllowed clk b).2.blockedIPs b := by
  cases hb : rl2.blockedIPs b with
  | none =>
    have hb1 := hblk.trans hb
    cases hr : rl2.requests b with
    | none =>
      have hr1 := hreq.trans hr
      simp only [RateLimiter.IsAllowed, hb, hb1, hr, hr1, hmax, hwin, hdur, mapGet]
      split_ifs <;> simp [mapSet, hb, hb1, hreq]
    | some times =>
      have hr1 := hreq.trans hr
      simp only [RateLimiter.IsAllowed, hb, hb1, hr, hr1, hmax, hwin, hdur, mapGet, mapSet,
        if_true]
      split_ifs <;> simp [mapSet, hb, hb1]
  | some u =>
    have hb1 := hblk.trans hb
    by_cases ha : Time.After (clk 0) u = true
    · cases hr : rl2.requests b with
      | none =>
        have hr1 := hreq.trans hr
        simp only [RateLimiter.IsAllowed, hb, hb1, hr, hr1, hmax, hwin, hdur, mapGet, ha,
          if_true]
        split_ifs <;> simp [mapSet, mapDelete, hreq]
      | some times =>
        have hr1 := hreq.trans hr
        simp only [RateLimiter.IsAllowed, hb, hb1, hr, hr1, hmax, hwin, hdur, mapGet, mapSet,
          ha, if_true]
        split_ifs <;> simp [mapSet, mapDelete]
    · have ha2 : Time.After (clk 0) u = false := by simpa using ha
      simp [RateLimiter.IsAllowed, hb, hb1, ha2, hreq]

/-- A call for an address keeps the history and the block of every other address. -/
theorem call_other (rl : RateLimiter) (clk : Clock) (c : LimiterCall) (b : String)
    (hne : b ≠ c.ip) :
    (rl.call clk c).1.requests b = rl.requests b ∧
    (rl.call clk c).1.blockedIPs b = rl.blockedIPs b := by
  cases c with
  | isAllowed ip => exact IsAllowed_other rl clk ip b hne
  | getRemainingTime ip =>
    obtain ⟨h1, _, _, _, h5⟩ := GetRemainingTime_frame rl clk ip
    exact ⟨by rw [show (rl.call clk (.getRemainingTime ip)).1
        = (rl.GetRemainingTime clk ip).2 from rfl, h1], h5 b hne⟩

/-- A run of calls for other addresses keeps the history and the block of an
address, and the policy. -/
theorem run_other (calls : List LimiterCall) (rl : RateLimiter) (clk : Clock) (b : String)
    (hcalls : ∀ c ∈ calls, c.ip ≠ b) :
    (rl.run clk calls).1.requests b = rl.requests b ∧
    (rl.run clk calls).1.blockedIPs b = rl.blockedIPs b ∧
    (rl.run clk calls).1.maxRequests = rl.maxRequests ∧
    (rl.run clk calls).1.timeWindow = rl.timeWindow ∧
    (rl.run clk calls).1.blockDuration = rl.blockDuration := by
  induction calls generalizing rl clk with
  | nil => exact ⟨rfl, rfl, rfl, rfl, rfl⟩
  | cons c cs ih =>
    obtain ⟨h1, h2, h3, h4, h5⟩ := ih (rl.call clk c).1 (fun i => clk (i + (rl.call clk c).2))
      (fun x hx => hcalls x (List.mem_cons_of_mem _ hx))
    obtain ⟨o1, o2⟩ := call_other rl clk c b (fun h => hcalls c (List.mem_cons_self _ _) h.symm)
    obtain ⟨p1, p2, p3⟩ := call_policy rl clk c
    exact ⟨h1.trans o1, h2.trans o2, h3.trans p1, h4.trans p2, h5.trans p3⟩

/-- C29. For two distinct addresses `a` and `b` and every limiter state:
`IsAllowed` for `a` and `GetRemainingTime` for `a` leave the history and the
block-until of `b` unchanged, and so does every run of such calls for `a`; after
such a run `IsAllowed` for `b` gives the answer, and leaves the history and the
block-until of `b`, that it gives without the run. -/
theorem limiter_frame (rl : RateLimiter) (clk clk2 : Clock) (a b : String) (hab : a ≠ b)
    (calls : List LimiterCall) (hcalls : ∀ c ∈ calls, c.ip = a) :
    ((rl.IsAllowed clk a).2.requests b = rl.requests b ∧
      (rl.IsAllowed clk a).2.blockedIPs b = rl.blockedIPs b) ∧
    ((rl.GetRemainingTime clk a).2.requests b = rl.requests b ∧
      (rl.GetRemainingTime clk a).2.blockedIPs b = rl.blockedIPs b) ∧
    ((rl.run clk calls).1.requests b = rl.requests b ∧
      (rl.run clk calls).1.blockedIPs b = rl.blockedIPs b) ∧
    ((rl.run clk calls).1.IsAllowed clk2 b).1 = (rl.IsAllowed clk2 b).1 ∧
    ((rl.run clk calls).1.IsAllowed clk2 b).2.requests b = (rl.IsAllowed clk2 b).2.requests b ∧
    ((rl.run clk calls).1.IsAllowed clk2 b).2.blockedIPs b
      = (rl.IsAllowed clk2 b).2.blockedIPs b := by
  have hba : b ≠ a := fun h => hab h.symm
  obtain ⟨r1, r2, r3, r4, r5⟩ := run_other calls rl clk b
    (fun c hc h => hab ((hcalls c hc).symm.trans h))
  obtain ⟨g1, _, _, _, g5⟩ := GetRemainingTime_frame rl clk a
  exact ⟨IsAllowed_other rl clk a b hba, ⟨by rw [g1], g5 b hba⟩, ⟨r1, r2⟩,
    IsAllowed_congr _ rl clk2 b r1 r2 r3 r4 r5⟩

/-- Witness of C29: calls that get 10.0.0.1 blocked change nothing for 10.0.0.2. -/
theorem limiter_frame_witness :
    (sampleLimiter.run sampleTicking sampleCallsForOne).1.blockedIPs "10.0.0.1"
      = some (5 * Minute) ∧
    ((sampleLimiter.run sampleTicking sampleCallsForOne).1.IsAllowed (fun _ => 0) "10.0.0.2").1
      = (sampleLimiter.IsAllowed (fun _ => 0) "10.0.0.2").1 :=
  ⟨rfl,
   (limiter_frame sampleLimiter sampleTicking (fun _ => 0) "10.0.0.1" "10.0.0.2" (by decide)
      sampleCallsForOne (by decide)).2.2.2.1⟩

/-! ## `ValidateLength` -/

/-- C30: the code at the failing inputs. `len(value)` counts bytes. The value "çã"
has 2 characters and 4 bytes and passes a minimum of 3; a value of 6 characters
and 12 bytes is refused by a maximum of 10 "caracteres". -/
theorem ValidateLength_counts_bytes :
    "çã".length = 2 ∧ goLen "çã" = 4 ∧
    ValidateLength "nome" "çã" 3 100 = none ∧
    "ãããããã".length = 6 ∧ goLen "ãããããã" = 12 ∧
    ValidateLength "nome" "ãããããã" 3 10
      = some { Field := "nome", Message := "não pode ter mais que 10 caracteres" } := by
  refine ⟨?_, ?_, ?_, ?_, ?_, ?_⟩ <;> decide

end ERPSeguradora
